import Mathlib

/-!
Verification of the HeroCapture hero-fingerprint extractor
(`src/content/content-script.js`) against its natural-language
specification.

The extractor is a pure function from a rendered document tree (nodes with
resolved styles and bounding geometry) and a viewport to a structured
`Fingerprint` record.  We embed the tree, the geometry (exact rationals in
place of JS doubles), the text handling (JS strings as `List Char`, the
regular expressions transcribed as explicit matchers) and the pipeline
itself, following the source statement by statement.
-/

namespace HeroCapture

/-! ### Rational arithmetic

JS numbers are modelled as exact rationals.  Batteries marks `Rat.mul`,
`Rat.add`, `Rat.sub` and `Rat.inv` `@[irreducible]`, which blocks `decide`
on concrete inputs, so the model uses its own kernel-reducible definitions
built from `Rat.divInt`; the bridge lemmas below identify them with the
standard operations for use in algebraic proofs. -/

def qadd (a b : ℚ) : ℚ := Rat.divInt (a.num * b.den + b.num * a.den) (a.den * b.den)

def qsub (a b : ℚ) : ℚ := Rat.divInt (a.num * b.den - b.num * a.den) (a.den * b.den)

def qmul (a b : ℚ) : ℚ := Rat.divInt (a.num * b.num) (a.den * b.den)

def qdiv (a b : ℚ) : ℚ := Rat.divInt (a.num * b.den) (a.den * b.num)

/-- JS `Math.min`. -/
def qmin (a b : ℚ) : ℚ := if a ≤ b then a else b

/-- JS `Math.max`. -/
def qmax (a b : ℚ) : ℚ := if a ≤ b then b else a

/-- JS `Math.abs`. -/
def qabs (a : ℚ) : ℚ := if a < 0 then Rat.divInt (-a.num) a.den else a

theorem qadd_eq (a b : ℚ) : qadd a b = a + b := by
  have ha : (a.den : ℤ) ≠ 0 := Int.natCast_ne_zero.mpr a.den_nz
  have hb : (b.den : ℤ) ≠ 0 := Int.natCast_ne_zero.mpr b.den_nz
  rw [qadd]
  conv_rhs => rw [← Rat.divInt_self a, ← Rat.divInt_self b]
  rw [Rat.divInt_add_divInt _ _ ha hb]

theorem qmul_eq (a b : ℚ) : qmul a b = a * b := by
  have ha : (a.den : ℤ) ≠ 0 := Int.natCast_ne_zero.mpr a.den_nz
  have hb : (b.den : ℤ) ≠ 0 := Int.natCast_ne_zero.mpr b.den_nz
  rw [qmul]
  conv_rhs => rw [← Rat.divInt_self a, ← Rat.divInt_self b]
  rw [Rat.divInt_mul_divInt _ _ ha hb]

theorem qsub_eq (a b : ℚ) : qsub a b = a - b := by
  have ha : (a.den : ℤ) ≠ 0 := Int.natCast_ne_zero.mpr a.den_nz
  have hb : (b.den : ℤ) ≠ 0 := Int.natCast_ne_zero.mpr b.den_nz
  rw [qsub]
  conv_rhs => rw [← Rat.divInt_self a, ← Rat.divInt_self b]
  rw [Rat.divInt_sub_divInt _ _ ha hb]

theorem qdiv_eq (a b : ℚ) : qdiv a b = a / b := by
  have ha : (a.den : ℤ) ≠ 0 := Int.natCast_ne_zero.mpr a.den_nz
  by_cases hbn : b.num = 0
  · have hb0 : b = 0 := by
      rwa [Rat.num_eq_zero] at hbn
    subst hb0
    rw [qdiv]
    norm_num
  · rw [qdiv, Rat.div_def, Rat.inv_def]
    conv_rhs => rw [← Rat.divInt_self a]
    rw [Rat.divInt_mul_divInt _ _ ha hbn]

theorem qmin_eq (a b : ℚ) : qmin a b = min a b := by
  rw [qmin, min_def]

theorem qmax_eq (a b : ℚ) : qmax a b = max a b := by
  rw [qmax, max_def]

/-- JS `Math.floor` on a rational. -/
def qfloor (a : ℚ) : ℤ := a.floor

/-- JS `Math.round` (round half towards plus infinity). -/
def qround (a : ℚ) : ℤ := (qadd a (mkRat 1 2)).floor

/-- JS `x.toFixed(2)` converted back to a number; the extractor only applies
it to nonnegative ratios, where it rounds half away from zero. -/
def toFixed2 (a : ℚ) : ℚ := Rat.divInt (qround (qmul a 100)) 100

/-! ### JS strings

JS strings are embedded as `List Char`.  Splitting on `/\s+/` keeps the
empty boundary tokens exactly as `String.prototype.split` does; `jsWords`
is the ubiquitous `split(/\s+/).filter(Boolean)`. -/

abbrev Str := List Char

/-- Shorthand turning a Lean string literal into the model's string type. -/
def str (s : String) : Str := s.toList

/-- JS `\s` for the ASCII range (space, tab, newline, CR, FF, VT). -/
def isWs (c : Char) : Bool :=
  c = ' ' || c = '\t' || c = '\n' || c = '\r' || c = '\x0b' || c = '\x0c'

/-- JS `\w`: ASCII letters, digits and underscore. -/
def isWordChar (c : Char) : Bool :=
  (c ≥ 'a' && c ≤ 'z') || (c ≥ 'A' && c ≤ 'Z') || (c ≥ '0' && c ≤ '9') || c = '_'

def isDigitChar (c : Char) : Bool := c ≥ '0' && c ≤ '9'

def isAsciiAlpha (c : Char) : Bool := (c ≥ 'a' && c ≤ 'z') || (c ≥ 'A' && c ≤ 'Z')

/-- Lower-case a string (used to mirror the `/i` regex flag). -/
def lowerStr (s : Str) : Str := s.map Char.toLower

/-- `text.split(/\s+/)`: split on maximal whitespace runs, keeping the empty
tokens that JS produces at a leading or trailing separator. -/
def jsSplitWs (s : Str) : List Str :=
  go s.length s []
where
  go : Nat → Str → Str → List Str
    | _, [], acc => [acc.reverse]
    | 0, _ :: _, acc => [acc.reverse]
    | fuel + 1, c :: rest, acc =>
      if isWs c then acc.reverse :: go fuel (rest.dropWhile isWs) []
      else go fuel rest (c :: acc)

/-- `text.split(/\s+/).filter(Boolean)`. -/
def jsWords (s : Str) : List Str := (jsSplitWs s).filter (fun w => !w.isEmpty)

/-- `text.split(/\s+/).filter(Boolean).length`. -/
def wordCount (s : Str) : Nat := (jsWords s).length

/-- `" ".join`/`join(" ")` of a word list. -/
def joinSp (ws : List Str) : Str :=
  match ws with
  | [] => []
  | w :: rest => w ++ (rest.flatMap (fun x => ' ' :: x))

/-- `String.prototype.trim` (ASCII whitespace). -/
def jsTrim (s : Str) : Str := (s.dropWhile isWs).reverse.dropWhile isWs |>.reverse

/--
`cleanText` from the source:
`text.replace(/\s+/g, " ").replace(/[^\S\r\n]+/g, " ").trim()`.
The first replacement already collapses every whitespace run to a single
space (making the second a no-op), so the composite collapses runs and
trims, i.e. rejoins the whitespace-separated words.
-/
def cleanText (s : Str) : Str := joinSp (jsWords s)

/-- Merge two sorted runs, taking from the left run on ties (the stable
order). -/
def mergeBy (le : α → α → Bool) : Nat → List α → List α → List α
  | 0, xs, ys => xs ++ ys
  | _ + 1, [], ys => ys
  | _ + 1, x :: xs, [] => x :: xs
  | fuel + 1, x :: xs, y :: ys =>
    if le x y then x :: mergeBy le fuel xs (y :: ys)
    else y :: mergeBy le fuel (x :: xs) ys

def msortBy (le : α → α → Bool) : Nat → List α → List α
  | 0, l => l
  | fuel + 1, l =>
    if l.length ≤ 1 then l
    else
      let h := (l.length + 1) / 2
      mergeBy le l.length (msortBy le fuel (l.take h)) (msortBy le fuel (l.drop h))

/-- `Array.prototype.sort(cmp)` with `le a b := cmp a b ≤ 0`: a stable
merge sort (halving splits; ties keep the earlier element first). -/
def jsSort (le : α → α → Bool) (l : List α) : List α := msortBy le l.length l

/-- Substring test (`String.prototype.includes`). -/
def containsSub (needle : Str) (hay : Str) : Bool :=
  go hay
where
  go : Str → Bool
    | [] => needle.isEmpty
    | c :: rest => needle.isPrefixOf (c :: rest) || go rest

/-- Case-insensitive substring test (attribute selectors with the `i` flag,
`[src*="google" i]` and similar). -/
def containsSubCI (needle : Str) (hay : Str) : Bool :=
  containsSub (lowerStr needle) (lowerStr hay)

/-! ### Regular-expression transcription

A pattern maps an input suffix to the list of possible remainders after a
match, ordered the way a JS regex explores them (greedy quantifiers first,
alternatives in source order).  `searchB` scans for an unanchored match
with optional word-boundary requirements at either edge; every `\b` in the
transcribed expressions sits next to a word character, for which the
boundary conditions below are exact. -/

def Pat : Type := Str → List Str

/-- Literal token. -/
def pLit (w : String) : Pat := fun s =>
  if w.toList.isPrefixOf s then [s.drop w.toList.length] else []

/-- Sequencing. -/
def pSeq (p q : Pat) : Pat := fun s => (p s).flatMap q

def pSeq3 (p q r : Pat) : Pat := pSeq p (pSeq q r)

def pSeq4 (p q r t : Pat) : Pat := pSeq p (pSeq q (pSeq r t))

/-- Alternation, in source order. -/
def pAlt (ps : List Pat) : Pat := fun s => ps.flatMap (fun p => p s)

/-- Alternation of plain literals. -/
def pAltL (ws : List String) : Pat := pAlt (ws.map pLit)

/-- Greedy `?`. -/
def pOpt (p : Pat) : Pat := fun s => p s ++ [s]

/-- Single character from a class. -/
def pClass1 (f : Char → Bool) : Pat := fun s =>
  match s with
  | [] => []
  | c :: rest => if f c then [rest] else []

/-- Greedy `+` over a character class: longest take first. -/
def pMany1 (f : Char → Bool) : Pat := fun s =>
  let k := (s.takeWhile f).length
  (List.range k).map (fun i => s.drop (k - i))

/-- Greedy `*` over a character class. -/
def pMany0 (f : Char → Bool) : Pat := fun s => pMany1 f s ++ [s]

/-- `\s*`. -/
def pWs0 : Pat := pMany0 isWs

/-- `\s+`. -/
def pWs1 : Pat := pMany1 isWs

/-- `\s?`. -/
def pWsOpt : Pat := pOpt (pClass1 isWs)

/-- `\d+`. -/
def pDigits1 : Pat := pMany1 isDigitChar

/-- Bounded `{1,n}` over a class (greedy). -/
def pClassUpTo (f : Char → Bool) (n : Nat) : Pat := fun s =>
  let k := Nat.min ((s.takeWhile f).length) n
  (List.range k).map (fun i => s.drop (k - i))

/-- `(?:…)*` for a sub-pattern, greedy, requiring progress each round. -/
def pRep (p : Pat) : Pat := fun s => go s.length s
where
  go : Nat → Str → List Str
    | 0, s => [s]
    | n + 1, s =>
      (((p s).filter (fun r => r.length < s.length)).flatMap (go n)) ++ [s]

/-- End anchor `$`. -/
def pEnd : Pat := fun s => if s.isEmpty then [[]] else []

/-- Anchored test (`^…` with `.test`). -/
def pTest (p : Pat) (s : Str) : Bool := !(p s).isEmpty

/-- Word-boundary admissibility on the left of a match. -/
def bdryL (prev : Option Char) : Bool :=
  match prev with
  | none => true
  | some c => !(isWordChar c)

/-- Word-boundary admissibility on the right of a match. -/
def bdryR (rest : Str) : Bool :=
  match rest with
  | [] => true
  | c :: _ => !(isWordChar c)

/-- Try the pattern at the current position, honouring requested boundaries
(valid for patterns whose first and last matched characters are word
characters, as in every transcribed `\b…\b`). -/
def tryHere (p : Pat) (lb rb : Bool) (prev : Option Char) (s : Str) : Bool :=
  (!lb || bdryL prev) && (p s).any (fun rest => !rb || bdryR rest)

/-- Unanchored search with optional word boundaries at the edges. -/
def searchB (p : Pat) (lb rb : Bool) (s : Str) : Bool :=
  go none s
where
  go : Option Char → Str → Bool
    | prev, s =>
      tryHere p lb rb prev s ||
        match s with
        | [] => false
        | c :: rest => go (some c) rest

/-- Unanchored search without boundary requirements. -/
def pSearch (p : Pat) (s : Str) : Bool := searchB p false false s

/-- Count the matches of a global regex (`text.match(/…/g) || []).length`:
scan left to right, restarting right after each match, taking at each
position the first alternative/greediness choice that satisfies the
requested boundaries. -/
def countMatches (p : Pat) (lb rb : Bool) (s : Str) : Nat :=
  go s.length none s
where
  go : Nat → Option Char → Str → Nat
    | 0, _, _ => 0
    | _ + 1, _, [] => 0
    | fuel + 1, prev, c :: rest =>
      if (!lb || bdryL prev) then
        match ((p (c :: rest)).filter (fun r => !rb || bdryR r)) with
        | r :: _ =>
          if r.length < rest.length + 1 then 1 + go fuel none r
          else 1 + go fuel (some c) rest
        | [] => go fuel (some c) rest
      else go fuel (some c) rest

/-! ### The document model

A `Node` is the read-only snapshot of a rendered element: tag name (DOM
`tagName`), attribute map, direct rendered text, resolved style subset,
bounding geometry and ordered element children.  `innerText` is derived by
joining the rendered texts in tree order.  A `Ctx` pairs a node with its
ancestor chain and following siblings, which is what `closest`,
`parentElement` and `nextElementSibling` need. -/

structure Rect where
  top : ℚ
  left : ℚ
  width : ℚ
  height : ℚ
deriving Repr, DecidableEq

/-- `getBoundingClientRect().bottom`. -/
def Rect.bottom (r : Rect) : ℚ := qadd r.top r.height

/-- `getBoundingClientRect().right`. -/
def Rect.right (r : Rect) : ℚ := qadd r.left r.width

structure Style where
  display : Str
  position : Str
  visibility : Str
  textAlign : Str
  flexDirection : Str
  listStyleType : Str
  opacity : ℚ
  fontSize : ℚ
  color : Str
  backgroundColor : Str
  backgroundImage : Str
deriving Repr, DecidableEq

/-- A neutral resolved style (block, static, visible). -/
def Style.base : Style :=
  ⟨str "block", str "static", str "visible", str "left", str "row",
   str "none", 1, 16, str "rgb(0, 0, 0)", str "rgba(0, 0, 0, 0)", str "none"⟩

mutual
inductive Node where
  | mk (tagName : Str) (attrs : List (Str × Str)) (ownText : Str) (value : Str)
      (scriptText : Str) (rect : Rect) (style : Style) (webgl : Bool)
      (children : NodeList)
  deriving Repr, DecidableEq
inductive NodeList where
  | nil
  | cons (head : Node) (tail : NodeList)
  deriving Repr, DecidableEq
end

def NodeList.toList : NodeList → List Node
  | .nil => []
  | .cons n l => n :: NodeList.toList l

def NodeList.ofList : List Node → NodeList
  | [] => .nil
  | n :: l => .cons n (NodeList.ofList l)

def Node.tagName : Node → Str
  | .mk t _ _ _ _ _ _ _ _ => t

def Node.attrs : Node → List (Str × Str)
  | .mk _ a _ _ _ _ _ _ _ => a

def Node.ownText : Node → Str
  | .mk _ _ o _ _ _ _ _ _ => o

def Node.value : Node → Str
  | .mk _ _ _ v _ _ _ _ _ => v

def Node.scriptText : Node → Str
  | .mk _ _ _ _ sc _ _ _ _ => sc

def Node.rect : Node → Rect
  | .mk _ _ _ _ _ r _ _ _ => r

def Node.style : Node → Style
  | .mk _ _ _ _ _ _ st _ _ => st

def Node.webgl : Node → Bool
  | .mk _ _ _ _ _ _ _ w _ => w

def Node.children : Node → List Node
  | .mk _ _ _ _ _ _ _ _ cs => cs.toList

-- The number of nodes in the subtree: the recursion fuel that every
-- fuelled traversal below is started with.
mutual
def Node.size : Node → Nat
  | .mk _ _ _ _ _ _ _ _ cs => 1 + NodeList.sizeL cs
def NodeList.sizeL : NodeList → Nat
  | .nil => 0
  | .cons n l => Node.size n + NodeList.sizeL l
end

def nodesSize (l : List Node) : Nat := (l.map Node.size).sum

/-- `getAttribute(name)`. -/
def Node.attr? (n : Node) (name : String) : Option Str :=
  (n.attrs.find? (fun p => p.1 == name.toList)).map (fun p => p.2)

/-- `getAttribute(name) || ""`. -/
def Node.attrD (n : Node) (name : String) : Str := (n.attr? name).getD []

def Node.className (n : Node) : Str := n.attrD "class"

def Node.idAttr (n : Node) : Str := n.attrD "id"

def Node.role (n : Node) : Str := n.attrD "role"

def Node.ariaLabel (n : Node) : Str := n.attrD "aria-label"

def Node.typeAttr (n : Node) : Str := n.attrD "type"

/-- Case-insensitive tag-name test, as in a CSS tag selector. -/
def Node.tagIs (n : Node) (t : String) : Bool := lowerStr n.tagName == lowerStr t.toList

/-- Tag-name equality against a literal, as in `el.tagName === "H1"`. -/
def Node.tagEq (n : Node) (t : String) : Bool := n.tagName == t.toList

def Node.textsF : Nat → Node → List Str
  | 0, _ => []
  | fuel + 1, n =>
    (if n.ownText.isEmpty then [] else [n.ownText]) ++
      n.children.flatMap (Node.textsF fuel)

/-- The rendered texts of the subtree in tree order.  The fuel bounds the
tree depth; `Node.size n` always exceeds it. -/
def Node.texts (n : Node) : List Str := Node.textsF n.size n

/-- `el.innerText` (rendered text of the subtree, whitespace-joined). -/
def Node.innerText (n : Node) : Str := joinSp n.texts

def Node.descendantsF : Nat → Node → List Node
  | 0, _ => []
  | fuel + 1, n => n.children.flatMap (fun c => c :: Node.descendantsF fuel c)

/-- Proper descendants in document (pre-)order (fuel bounds the depth). -/
def Node.descendants (n : Node) : List Node := Node.descendantsF n.size n

/-- `el.querySelectorAll(sel)` for a node-local selector. -/
def Node.descMatching (n : Node) (p : Node → Bool) : List Node :=
  n.descendants.filter p

/-- `!!el.querySelector(sel)` for a node-local selector. -/
def Node.hasDesc (n : Node) (p : Node → Bool) : Bool := n.descendants.any p

/-- `el.querySelector(sel)` for a node-local selector. -/
def Node.firstDesc (n : Node) (p : Node → Bool) : Option Node := n.descendants.find? p

/-- An ancestor-chain entry: a node together with its following siblings. -/
structure Frame where
  node : Node
  after : List Node

/-- A node in context: its own frame plus the frames of its ancestors,
nearest first (the last frame is the root content container `body`,
except for head elements, whose chain stays inside the head forest). -/
structure Ctx where
  self : Frame
  ups : List Frame

def Ctx.node (c : Ctx) : Node := c.self.node

/-- Ancestor nodes, nearest first. -/
def Ctx.ancestors (c : Ctx) : List Node := c.ups.map Frame.node

/-- `el.closest(sel)` as a predicate: self or any ancestor matches. -/
def Ctx.closestB (c : Ctx) (p : Node → Bool) : Bool :=
  p c.node || c.ancestors.any p

/-- `el.closest(sel)` returning the matched element. -/
def Ctx.closest? (c : Ctx) (p : Node → Bool) : Option Node :=
  (c.node :: c.ancestors).find? p

/-- The chain walked by `let node = el; while (node && node !== document.body)`:
self then ancestors, stopping before `body`. -/
def Ctx.chainBelowBody (c : Ctx) : List Node :=
  (c.node :: c.ancestors).dropLast

def Ctx.parentCtx? (c : Ctx) : Option Ctx :=
  match c.ups with
  | [] => none
  | f :: rest => some ⟨f, rest⟩

/-- Contexts of the following element siblings, in order. -/
def Ctx.followingSiblingCtxs (c : Ctx) : List Ctx :=
  go c.self.after
where
  go : List Node → List Ctx
    | [] => []
    | n :: rest => ⟨⟨n, rest⟩, c.ups⟩ :: go rest

/-- All contexts of a forest, document order, each node before its subtree. -/
def collectChildrenF : List Frame → Nat → List Node → List Ctx
  | _, _, [] => []
  | _, 0, _ :: _ => []
  | ups, fuel + 1, c :: rest =>
    ⟨⟨c, rest⟩, ups⟩ ::
      (collectChildrenF (⟨c, rest⟩ :: ups) fuel c.children ++
        collectChildrenF ups fuel rest)

def collectChildren (ups : List Frame) (l : List Node) : List Ctx :=
  collectChildrenF ups (nodesSize l) l

/-- The document: title, head elements (scripts/links/metas live there) and
the root content container (`document.body`). `html`/`head` themselves are
omitted from the query universe: no selector used by the extractor can
match them under their default styles. -/
structure Doc where
  title : Str
  headNodes : List Node
  body : Node

/-- The context of `document.body` itself. -/
def bodyCtx (doc : Doc) : Ctx := ⟨⟨doc.body, []⟩, []⟩

/-- `document.querySelectorAll("*")`-style universe, document order. -/
def allCtxs (doc : Doc) : List Ctx :=
  collectChildren [] doc.headNodes ++
    bodyCtx doc :: collectChildren [⟨doc.body, []⟩] doc.body.children

/-- `document.querySelectorAll(sel)` for a node-local selector. -/
def docQuery (doc : Doc) (p : Node → Bool) : List Ctx :=
  (allCtxs doc).filter (fun c => p c.node)

/-- `!!document.querySelector(sel)` for a node-local selector. -/
def docHas (doc : Doc) (p : Node → Bool) : Bool :=
  (allCtxs doc).any (fun c => p c.node)

/-- `document.getElementById(id)` as existence. -/
def docHasId (doc : Doc) (id : String) : Bool :=
  docHas doc (fun n => n.idAttr == id.toList)

/-! ### Viewport and the hero boundary (source lines 7–65) -/

structure Viewport where
  width : ℚ
  height : ℚ
deriving Repr, DecidableEq

/-- `window.innerHeight || 900`. -/
def effViewportHeight (vp : Viewport) : ℚ := if vp.height == 0 then 900 else vp.height

/-- `window.innerWidth || 1440`. -/
def effViewportWidth (vp : Viewport) : ℚ := if vp.width == 0 then 1440 else vp.width

/-- `isVisible`: not display:none/visibility:hidden/opacity 0, positive box. -/
def isVisible (n : Node) : Bool :=
  !(n.style.display == str "none") && !(n.style.visibility == str "hidden") &&
    !(n.style.opacity == (0 : ℚ)) &&
    (decide ((0 : ℚ) < n.rect.width) && decide ((0 : ℚ) < n.rect.height))

/-- `isFixedOrSticky`. -/
def isFixedOrSticky (n : Node) : Bool :=
  n.style.position == str "fixed" || n.style.position == str "sticky"

/-- `heroMaxBottom = viewportHeight * 1.15`. -/
def heroMaxBottom (vp : Viewport) : ℚ := qmul (effViewportHeight vp) (mkRat 23 20)

/-- `heroSections`: the body's direct children; when there are at most 3,
dig one level into wrappers taller than 1.5 viewports that have more than
one child, and keep the deeper list only if it is strictly longer. -/
def heroSections (doc : Doc) (vp : Viewport) : List Node :=
  let hs := doc.body.children
  if hs.length ≤ 3 then
    let deeper := hs.flatMap (fun w =>
      if decide (qmul (effViewportHeight vp) (mkRat 3 2) < w.rect.height) &&
          decide (1 < w.children.length) then
        w.children
      else [w])
    if hs.length < deeper.length then deeper else hs
  else hs

/-- The per-section record `{top, height, bottom}`. -/
structure SectionRec where
  top : ℚ
  height : ℚ
  bottom : ℚ
deriving Repr, DecidableEq

def sectionsOf (secs : List Node) : List SectionRec :=
  secs.map (fun n => ⟨n.rect.top, n.rect.height, n.rect.bottom⟩)

/-- The accumulation loop over sections: skip sections with nonpositive
bottom, stop (`break`) at the first with `top >= heroMaxBottom`, otherwise
accumulate `Math.min(heroMaxBottom, Math.max(heroBottom, s.bottom))`. -/
def heroBottomLoop (cap : ℚ) : ℚ → List SectionRec → ℚ
  | h, [] => h
  | h, s :: rest =>
    if s.bottom ≤ 0 then heroBottomLoop cap h rest
    else if cap ≤ s.top then h
    else heroBottomLoop cap (qmin cap (qmax h s.bottom)) rest

/-- `heroBottom` for a document: starts at the viewport height. -/
def heroBottomOf (doc : Doc) (vp : Viewport) : ℚ :=
  heroBottomLoop (heroMaxBottom vp) (effViewportHeight vp)
    (sectionsOf (heroSections doc vp))

/-- `inHero`: any part on screen and above the hero boundary. -/
def inHero (hb : ℚ) (n : Node) : Bool :=
  decide ((0 : ℚ) < n.rect.bottom) && decide (n.rect.top < hb)

/-! ### Navigation / footer region filters (source lines 67–134) -/

/-- The semantic selector of `inNavOrHeader`'s first `closest` call. -/
def navFooterSel (n : Node) : Bool :=
  n.tagIs "nav" || n.tagIs "footer" ||
    n.role == str "navigation" || n.role == str "menubar" ||
    n.role == str "menu" || n.role == str "toolbar" ||
    containsSubCI (str "nav") n.ariaLabel || containsSubCI (str "menu") n.ariaLabel ||
    containsSubCI (str "nav") (n.attrD "data-testid") ||
    containsSubCI (str "header") (n.attrD "data-testid")

/-- `/\b(nav|navbar|navigation|menu|topbar|top-bar|site-header|masthead|toolbar)\b/i`. -/
def navClassTest (s : Str) : Bool :=
  searchB (pAltL ["nav", "navbar", "navigation", "menu", "topbar", "top-bar",
    "site-header", "masthead", "toolbar"]) true true (lowerStr s)

/-- `inNavOrHeader`. -/
def inNavOrHeader (vw : ℚ) (c : Ctx) : Bool :=
  c.closestB navFooterSel ||
    (match c.closest? (fun n => n.tagIs "header") with
      | some h => decide (h.rect.height < 150)
      | none => false) ||
    (match c.closest? (fun n => n.tagIs "aside") with
      | some a =>
        decide (a.rect.width < qmul vw (mkRat 1 2)) || decide (a.rect.height < 150)
      | none => false) ||
    c.chainBelowBody.any (fun n =>
      (navClassTest n.className || navClassTest n.idAttr) &&
        decide (n.rect.top < 120) && decide (n.rect.height < 150))

/-- `inFramerNavOrFooter`: a `data-framer-name` ancestor carrying
footer/nav vocabulary, except tall "header"-named regions. -/
def inFramerNavOrFooter (c : Ctx) : Bool :=
  c.chainBelowBody.any (fun n =>
    let framerName := lowerStr (n.attrD "data-framer-name")
    searchB (pAltL ["footer", "nav", "navbar", "navigation", "menu", "header"])
        true true framerName &&
      !(searchB (pLit "header") true true framerName &&
        decide ((150 : ℚ) ≤ n.rect.height)))

/-- `looksLikeFooterContent`: nonempty text with a copyright give-away. -/
def looksLikeFooterContent (n : Node) : Bool :=
  let text := jsTrim n.innerText
  if text.isEmpty then false
  else
    containsSub (str "©") text ||
      searchB (pLit "copyright") true true (lowerStr text) ||
      searchB (pLit "all rights reserved") true true (lowerStr text)

/-! ### Hero text nodes and the headline phase (source lines 136–315) -/

def heroTextSel (n : Node) : Bool :=
  n.tagIs "h1" || n.tagIs "h2" || n.tagIs "h3" || n.tagIs "p" ||
    n.tagIs "span" || n.tagIs "div"

/-- `heroTextNodes`. -/
def heroTextNodes (doc : Doc) (vp : Viewport) (hb : ℚ) : List Ctx :=
  (docQuery doc heroTextSel).filter (fun c =>
    inHero hb c.node && !inNavOrHeader (effViewportWidth vp) c &&
      !inFramerNavOrFooter c && !looksLikeFooterContent c.node &&
      isVisible c.node && !isFixedOrSticky c.node)

/-- The `NAV_WORDS` alternation. -/
def navWordsPat : Pat :=
  pAlt [pSeq (pLit "log") (pSeq pWsOpt (pLit "in")),
    pSeq (pLit "sign") (pSeq pWsOpt (pLit "in")),
    pSeq (pLit "sign") (pSeq pWsOpt (pLit "up")),
    pLit "pricing", pLit "blog", pLit "resources", pLit "community",
    pLit "support", pLit "contact", pLit "about",
    pSeq (pLit "product") (pOpt (pLit "s")),
    pSeq (pLit "solution") (pOpt (pLit "s")),
    pLit "enterprise", pLit "platform", pLit "documentation", pLit "docs",
    pLit "careers", pSeq (pLit "partner") (pOpt (pLit "s"))]

/-- `looksLikeNavText`: at least 3 nav-word matches making up at least a
quarter of the words. -/
def looksLikeNavText (t : Str) : Bool :=
  if t.isEmpty then false
  else
    let m := countMatches navWordsPat true true (lowerStr t)
    let w := wordCount t
    decide (3 ≤ m) && decide (w ≤ 4 * m)

/-- `/skip\s*(to)?\s*(main|content|navigation)/i`. -/
def skipLinkTest (t : Str) : Bool :=
  pSearch (pSeq (pLit "skip") (pSeq pWs0 (pSeq (pOpt (pLit "to"))
    (pSeq pWs0 (pAltL ["main", "content", "navigation"]))))) (lowerStr t)

/-- `a[href^='#']` whose text is a skip-to-content link. -/
def isSkipAnchor (n : Node) : Bool :=
  n.tagIs "a" &&
    (match n.attr? "href" with
      | some h => h.head? == some '#'
      | none => false) &&
    skipLinkTest n.innerText

/-- The clone-removal selector `a, button, [role='button'], nav, header`. -/
def interactiveStripSel (n : Node) : Bool :=
  n.tagIs "a" || n.tagIs "button" || n.role == str "button" ||
    n.tagIs "nav" || n.tagIs "header"

/-- Remove every matching descendant (with its subtree), as a sequence of
`Element.remove()` calls on a clone does. -/
def Node.pruneF (p : Node → Bool) : Nat → Node → Node
  | 0, n => n
  | fuel + 1, n =>
    Node.mk n.tagName n.attrs n.ownText n.value n.scriptText n.rect n.style n.webgl
      (NodeList.ofList ((n.children.filter (fun c => !p c)).map (Node.pruneF p fuel)))

def Node.prune (p : Node → Bool) (n : Node) : Node := Node.pruneF p n.size n

/-- `getDirectHeadlineText`. -/
def getDirectHeadlineText (el : Node) : Str :=
  let c1 := el.prune isSkipAnchor
  let links := c1.descMatching interactiveStripSel
  let c2 := if 3 ≤ links.length then c1.prune interactiveStripSel else c1
  let text := cleanText c2.innerText
  if !text.isEmpty && 2 ≤ wordCount text then text
  else cleanText el.innerText

def isSentEnd (c : Char) : Bool := c = '.' || c = '!' || c = '?'

/-- `text.match(/^[^.!?]+[.!?]/)`. -/
def firstSentence (t : Str) : Option Str :=
  let pre := t.takeWhile (fun c => !isSentEnd c)
  if pre.isEmpty then none
  else
    match t.drop pre.length with
    | c :: _ => some (pre ++ [c])
    | [] => none

/-- `truncateHeadline` (`MAX_HEADLINE_WORDS = 30`). -/
def truncateHeadline (t : Str) : Str :=
  if t.isEmpty then t
  else
    let words := jsWords t
    if words.length ≤ 30 then t
    else
      match firstSentence t with
      | some sen =>
        if (jsSplitWs sen).length ≤ 30 then jsTrim sen
        else joinSp (words.take 15)
      | none => joinSp (words.take 15)

/-- JS truthiness of the nullable strings in the headline phase. -/
def truthy (s : Option Str) : Bool :=
  match s with
  | none => false
  | some t => !t.isEmpty

/-- Strategy 1 of the short-headline widening: the Framer
`RichTextContainer` wrapper. -/
def widenFramer (h1 : Ctx) (headline : Str) : Str :=
  match h1.closest? (fun n =>
    n.attrD "data-framer-component-type" == str "RichTextContainer") with
  | some rtc =>
    let full := cleanText rtc.innerText
    if decide (headline.length < full.length) && decide (wordCount full ≤ 30) then full
    else headline
  | none => headline

/-- Strategy 2: walk wrappers up to (not including) `body`, stopping at
nav-like or overlong text and at section-level containers. -/
def wrapperWalk : List Frame → Str → Str
  | [], h => h
  | f :: rest, h =>
    let wText := cleanText f.node.innerText
    let wWords := wordCount wText
    if looksLikeNavText wText || decide (30 < wWords) then h
    else
      let h2 := if decide (wordCount h < wWords) && decide (wWords ≤ 30) then wText else h
      if f.node.tagEq "SECTION" || f.node.tagEq "HEADER" || f.node.tagEq "MAIN" ||
          f.node.tagEq "ARTICLE" then h2
      else wrapperWalk rest h2

/-- The headline value after initial extraction, widening and the two
discard rules (overlong, nav-like), before candidate override. -/
def headlineAfterDiscards (h1? : Option Ctx) : Option Str × Option Ctx :=
  match h1? with
  | none => (none, none)
  | some h1 =>
    let hd0 := getDirectHeadlineText h1.node
    let hd :=
      if !hd0.isEmpty && wordCount hd0 ≤ 2 then
        let hd1 := widenFramer h1 hd0
        if wordCount hd1 ≤ 2 then wrapperWalk h1.ups.dropLast hd1 else hd1
      else hd0
    if !hd.isEmpty && decide (30 < wordCount hd) then (none, none)
    else if !hd.isEmpty && looksLikeNavText hd then (none, none)
    else (some hd, some h1)

structure TextCand where
  ctx : Ctx
  text : Str
  directText : Str
  size : ℚ
  top : ℚ

/-- Two consecutive ASCII letters, `/[a-zA-Z]{2,}/`. -/
def hasAlpha2 (t : Str) : Bool :=
  pSearch (pSeq (pClass1 isAsciiAlpha) (pClass1 isAsciiAlpha)) t

/-- The ranked headline candidates (source lines 245–259). -/
def textCandidates (heroNodes : List Ctx) : List TextCand :=
  ((heroNodes.map (fun c =>
      ({ ctx := c, text := cleanText c.node.innerText,
         directText := getDirectHeadlineText c.node,
         size := c.node.style.fontSize, top := c.node.rect.top } : TextCand)))
    |>.filter (fun c => decide (3 < c.text.length) && hasAlpha2 c.text)
    |>.filter (fun c => !looksLikeNavText c.text)
    |>.filter (fun c => wordCount c.text ≤ 30)) |> jsSort
      (fun a b => decide (b.size ≤ a.size))

/-- `largestText` (source lines 260–268), already truncated. -/
def largestTextOf (best? : Option TextCand) : Option Str :=
  match best? with
  | none => none
  | some best =>
    let direct := best.directText
    let lt :=
      if !direct.isEmpty && !looksLikeNavText direct &&
          decide (2 ≤ (jsSplitWs direct).length) then direct
      else best.text
    some (if lt.isEmpty then lt else truncateHeadline lt)

/-- The full headline phase output. -/
structure HeadlinePhase where
  headline : Option Str
  headlineEl : Option Ctx
  best : Option TextCand
  largestText : Option Str
  h1 : Option Ctx

/-- Headline resolution including the logo/nav override and the
largest-text fallback (source lines 195–312). -/
def headlinePhase (doc : Doc) (vp : Viewport) (hb : ℚ) : HeadlinePhase :=
  let vw := effViewportWidth vp
  let nodes := heroTextNodes doc vp hb
  let h1? := nodes.find? (fun c => c.node.tagEq "H1")
  let (headline0, headlineEl0) := headlineAfterDiscards h1?
  let cands := textCandidates nodes
  let best? := cands.head?
  let largestText := largestTextOf best?
  let h1Rect? := h1?.map (fun c => c.node.rect)
  let h1FontSize : ℚ := match h1? with
    | some c => c.node.style.fontSize
    | none => 0
  let h1IsLink := match h1? with
    | some c => c.closestB (fun n => n.tagIs "a") || c.node.hasDesc (fun n => n.tagIs "a")
    | none => false
  let h1LooksSticky := match h1? with
    | some c =>
      isFixedOrSticky c.node ||
        (match c.ups.head? with
          | some f => isFixedOrSticky f.node
          | none => false)
    | none => false
  let h1LikelyNav := match h1? with
    | some c =>
      inNavOrHeader vw c || inFramerNavOrFooter c || h1LooksSticky ||
        (decide (c.node.rect.top < 90) && decide (c.node.rect.height < 90) &&
          decide (c.node.rect.width < qmul vw (mkRat 1 2)))
    | none => false
  let headlineLooksLikeLogo :=
    h1?.isSome && truthy headline0 &&
      (match headline0 with
        | some h => wordCount h ≤ 3
        | none => false) &&
      (match h1Rect? with
        | some r =>
          decide (r.top < 120) && decide (r.height < 90) &&
            decide (h1FontSize ≤ 28) &&
            (h1IsLink || decide (r.width < qmul vw (mkRat 7 20)))
        | none => false)
  let candidateBeatsH1 :=
    best?.isSome && truthy largestText &&
      (match best?, h1Rect? with
        | some b, some r => decide (qadd r.bottom 20 ≤ b.top)
        | some _, none => true
        | none, _ => false) &&
      (h1FontSize == 0 ||
        (match best? with
          | some b => decide (qadd h1FontSize 4 ≤ b.size)
          | none => false))
  let candidateClearlyBetter :=
    best?.isSome && truthy largestText &&
      (match best?, h1Rect? with
        | some b, some r =>
          decide (qadd r.bottom 24 ≤ b.top) && decide (qadd h1FontSize 8 ≤ b.size)
        | _, _ => false)
  let (headline1, headlineEl1) :=
    if (headlineLooksLikeLogo && candidateBeatsH1) ||
        (h1LikelyNav && candidateBeatsH1) || candidateClearlyBetter then
      (largestText, best?.map TextCand.ctx)
    else (headline0, headlineEl0)
  let (headline2, headlineEl2) :=
    if !truthy headline1 && truthy largestText then
      (largestText, best?.map TextCand.ctx)
    else (headline1, headlineEl1)
  ⟨headline2, headlineEl2, best?, largestText, h1?⟩

/-- `headlineRect`. -/
def headlineRectOf (ph : HeadlinePhase) : Option Rect :=
  ph.headlineEl.map (fun c => c.node.rect)

/-- `contentTop = headlineRect ? headlineRect.top - 20 : 0`. -/
def contentTopOf (ph : HeadlinePhase) : ℚ :=
  match headlineRectOf ph with
  | some r => qsub r.top 20
  | none => 0

/-! ### CTA extraction and ranking (source lines 337–445) -/

/-- Structural node equality, standing in for JS object identity in the
`el !== headlineEl` comparisons (the extractor never builds two distinct
elements with entirely identical snapshots in those positions). -/
def Node.beqF : Nat → Node → Node → Bool
  | 0, _, _ => true
  | fuel + 1, a, b =>
    a.tagName == b.tagName && a.attrs == b.attrs && a.ownText == b.ownText &&
      a.value == b.value && a.scriptText == b.scriptText &&
      decide (a.rect = b.rect) && decide (a.style = b.style) &&
      a.webgl == b.webgl && a.children.length == b.children.length &&
      (a.children.zip b.children).all (fun p => Node.beqF fuel p.1 p.2)

def Node.beq (a b : Node) : Bool := Node.beqF a.size a b

/-- Contexts of all proper descendants of a context's node (document
order), each aware of its full ancestor chain. -/
def Ctx.descCtxs (c : Ctx) : List Ctx :=
  collectChildren (c.self :: c.ups) c.node.children

/-- Contexts of the ancestors, nearest first (the last one is `body`). -/
def Ctx.ancestorCtxs (c : Ctx) : List Ctx :=
  go c.ups
where
  go : List Frame → List Ctx
    | [] => []
    | f :: rest => ⟨f, rest⟩ :: go rest

structure CtaCand where
  text : Str
  top : ℚ
  left : ℚ
  area : ℚ
  isButton : Bool
deriving Repr, DecidableEq

/-- `button, a, [role='button'], input[type='submit']`. -/
def ctaSel (n : Node) : Bool :=
  n.tagIs "button" || n.tagIs "a" || n.role == str "button" ||
    (n.tagIs "input" && n.typeAttr == str "submit")

/-- `ctaCandidates` (source lines 337–351). -/
def ctaCandidates (doc : Doc) (vp : Viewport) (hb : ℚ) : List CtaCand :=
  (((docQuery doc ctaSel).filter (fun c =>
      inHero hb c.node && !inNavOrHeader (effViewportWidth vp) c &&
        !inFramerNavOrFooter c && isVisible c.node))
    |>.map (fun c =>
      ({ text := cleanText (if c.node.innerText.isEmpty then c.node.value
            else c.node.innerText),
         top := c.node.rect.top, left := c.node.rect.left,
         area := qmul c.node.rect.width c.node.rect.height,
         isButton := c.node.tagEq "BUTTON" || c.node.tagEq "INPUT" ||
           c.node.role == str "button" } : CtaCand)))
    |>.filter (fun c => !c.text.isEmpty)

/-- `/(user agreement|privacy policy|cookie policy|terms|legal)/i`. -/
def legalLinkTest (t : Str) : Bool :=
  pSearch (pAltL ["user agreement", "privacy policy", "cookie policy",
    "terms", "legal"]) (lowerStr t)

/-- The anchored footer/social single-word blocklist `footerNavRegex`. -/
def footerNavTest (t : Str) : Bool :=
  pTest (pSeq (pAltL ["instagram", "twitter", "facebook", "linkedin", "youtube",
    "tiktok", "discord", "reddit", "github", "medium", "x", "blog", "about",
    "careers", "contact", "support", "help", "terms", "privacy", "cookie",
    "home", "back to top", "manifesto", "research", "the boring", "the good",
    "the cool", "play by the rules", "rules"]) pEnd) (lowerStr t)

/-- An optional ASCII apostrophe (`'?` in the source regexes). -/
def pApos : Pat := pOpt (pClass1 (fun c => c = '\x27'))

/-- `utilityLinkRegex` (forgot/reset password, can not log in, …). -/
def utilityLinkTest (t : Str) : Bool :=
  pTest (pAlt
    [pSeq3 (pSeq (pLit "forgot") (pOpt (pLit "ten"))) pWs0
      (pSeq (pOpt (pSeq (pLit "your") pWs0))
        (pAltL ["password", "email", "username"])),
     pSeq3 (pLit "reset") pWs0
      (pSeq (pOpt (pSeq (pLit "your") pWs0)) (pAltL ["password", "email"])),
     pSeq4 (pSeq (pLit "can") (pSeq pApos (pLit "t"))) pWs0
      (pAltL ["log", "sign"]) (pSeq pWs0 (pLit "in")),
     pSeq3 (pLit "need") pWs0 (pLit "help"),
     pSeq4 (pLit "trouble") pWs0 (pAltL ["logging", "signing"])
      (pSeq pWs0 (pLit "in"))]) (lowerStr t)

/-- The short single-word action-verb allowlist. -/
def shortActionVerbTest (t : Str) : Bool :=
  pTest (pAltL ["start", "try", "buy", "join", "get", "apply", "subscribe",
    "download", "install", "register", "explore", "discover", "watch", "book",
    "schedule", "request", "submit", "enter", "launch", "upgrade", "claim",
    "demo", "contact"]) (lowerStr t)

/-- The noise filter over CTA candidates (source lines 358–368). -/
def keepCta (c : CtaCand) : Bool :=
  if legalLinkTest c.text then false
  else if footerNavTest (jsTrim c.text) then false
  else if utilityLinkTest (jsTrim c.text) then false
  else
    let words := jsWords (jsTrim c.text)
    if words.length == 1 && decide ((jsTrim c.text).length < 12) &&
        !shortActionVerbTest (jsTrim c.text) then false
    else true

def filteredCtas (doc : Doc) (vp : Viewport) (hb : ℚ) : List CtaCand :=
  (ctaCandidates doc vp hb).filter keepCta

/-- The positional filter producing `heroCtaCandidates`
(source lines 370–376). -/
def heroCtaFilter (vh : ℚ) (hr : Option Rect) (c : CtaCand) : Bool :=
  if c.top < 120 then false
  else
    match hr with
    | none => true
    | some r =>
      if decide (qmul vh (mkRat 4 5) < c.top) && decide (qadd r.bottom 420 < c.top) then
        false
      else
        decide (qsub r.top 40 ≤ c.top) && decide (c.top ≤ qadd r.bottom 420)

/-- `oauthCtaRegex`. -/
def oauthCtaTest (t : Str) : Bool :=
  pSearch (pSeq
    (pAlt [pSeq4 (pLit "sign") pWs0 (pAltL ["in", "up"]) (pSeq pWs0 (pLit "with")),
      pSeq3 (pLit "continue") pWs0 (pLit "with"),
      pSeq4 (pLit "log") pWs0 (pLit "in") (pSeq pWs0 (pLit "with"))])
    (pSeq pWs0 (pAltL ["google", "apple", "github", "microsoft"])))
    (lowerStr t)

/-- `primaryCtaRegex` (anchored). -/
def primaryCtaTest (t : Str) : Bool :=
  pTest (pAlt [pSeq3 (pLit "log") pWs0 (pLit "in"),
    pSeq3 (pLit "sign") pWs0 (pAltL ["in", "up"]),
    pLit "create", pLit "register",
    pSeq3 (pLit "get") pWs0 (pLit "started"),
    pLit "start", pLit "try", pLit "buy", pLit "join", pLit "subscribe",
    pLit "download", pLit "explore", pLit "book", pLit "launch", pLit "submit",
    pSeq3 (pLit "talk") pWs0 (pLit "to"),
    pLit "contact", pLit "request", pLit "schedule", pLit "demo", pLit "watch",
    pLit "deploy", pLit "install", pLit "begin"]) t

/-- `ctaPriority`: self-serve 3, sales-led 2, informational 1, other
recognised verbs 1, unranked 0. -/
def ctaPriority (text : Str) : Nat :=
  let t := lowerStr (jsTrim text)
  if t.isEmpty then 0
  else if pTest (pAlt [pLit "deploy", pLit "start", pLit "try",
      pSeq3 (pLit "get") pWs0 (pLit "started"),
      pSeq3 (pLit "sign") pWs0 (pLit "up"),
      pLit "create", pLit "register", pLit "join", pLit "launch",
      pLit "download", pLit "install", pLit "begin", pLit "buy",
      pLit "subscribe"]) t then 3
  else if pTest (pAlt [pLit "book", pLit "schedule", pLit "request",
      pLit "contact", pSeq3 (pLit "talk") pWs0 (pLit "to"), pLit "demo",
      pSeq3 (pLit "get") pWs0 (pLit "demo"),
      pSeq3 (pLit "book") pWs0 (pLit "demo"),
      pSeq3 (pLit "request") pWs0 (pLit "demo")]) t then 2
  else if pTest (pAlt [pSeq3 (pLit "learn") pWs0 (pLit "more"),
      pLit "explore", pLit "watch",
      pSeq3 (pLit "see") pWs0 (pLit "more"),
      pSeq3 (pLit "view") pWs0 (pLit "details")]) t then 1
  else if primaryCtaTest t then 1
  else 0

/-- The CTA sort comparator as a `le` relation (`compare(a,b) <= 0`):
OAuth last, then buttons before links, then priority tier, then distance
to 20px below the headline when it separates by more than 30px, then
area, then left-to-right. -/
def ctaCmpLe (hr : Option Rect) (a b : CtaCand) : Bool :=
  let aO := oauthCtaTest a.text
  let bO := oauthCtaTest b.text
  if aO != bO then !aO
  else if a.isButton != b.isButton then a.isButton
  else
    let ap := ctaPriority a.text
    let bp := ctaPriority b.text
    if ap != bp then decide (bp ≤ ap)
    else
      let byDist : Option Bool :=
        match hr with
        | some r =>
          let ideal := qadd r.bottom 20
          let aD := qabs (qsub a.top ideal)
          let bD := qabs (qsub b.top ideal)
          if 30 < qabs (qsub aD bD) then some (decide (aD ≤ bD)) else none
        | none => none
      match byDist with
      | some v => v
      | none =>
        if a.area != b.area then decide (b.area ≤ a.area)
        else decide (a.left ≤ b.left)

/-- `heroCtaCandidates` after the positional filter and the stable sort
(JS `Array.prototype.sort` is stable; modelled as a stable merge sort). -/
def heroCtaCandidates (doc : Doc) (vp : Viewport) (hb : ℚ) (hr : Option Rect) :
    List CtaCand :=
  jsSort (ctaCmpLe hr)
    ((filteredCtas doc vp hb).filter (heroCtaFilter (effViewportHeight vp) hr))

def ctasOf (l : List CtaCand) : List Str := l.map CtaCand.text

structure CtaDetail where
  text : Str
  type : Str
  posTop : ℤ
  posLeft : ℤ
deriving Repr, DecidableEq

def ctaDetailsOf (l : List CtaCand) : List CtaDetail :=
  l.map (fun c =>
    ⟨c.text, if c.isButton then str "button" else str "link",
      qround c.top, qround c.left⟩)

/-- `normalizeText`. -/
def normalizeText (t : Str) : Str := lowerStr (cleanText t)

/-- `isLikelyCtaText` over the normalized CTA texts. -/
def isLikelyCtaText (ctaNorms : List Str) (text : Str) : Bool :=
  let norm := normalizeText text
  if norm.isEmpty then false
  else if ctaNorms.contains norm then true
  else if ctaNorms.any (fun cta => !cta.isEmpty && containsSub cta norm) then true
  else
    let shortWords := wordCount norm ≤ 4
    shortWords &&
      pTest (pSeq (pAlt [pSeq3 (pLit "sign") pWs0 (pLit "up"),
        pSeq3 (pLit "sign") pWs0 (pLit "in"),
        pSeq3 (pLit "log") pWs0 (pLit "in"),
        pSeq3 (pLit "contact") pWs0 (pLit "sales"),
        pSeq4 (pLit "talk") pWs0 (pLit "to") (pSeq pWs0 (pLit "sales")),
        pSeq3 (pLit "get") pWs0 (pLit "started"),
        pLit "start", pLit "try", pLit "request", pLit "book", pLit "schedule",
        pLit "join", pLit "buy", pLit "explore",
        pSeq3 (pLit "learn") pWs0 (pLit "more")]) pEnd) norm

/-! ### Subheadline selection (source lines 447–593) -/

/-- `button, a, [role='button']`. -/
def interactiveBtnSel (n : Node) : Bool :=
  n.tagIs "button" || n.tagIs "a" || n.role == str "button"

/-- `isSubCandidate` from the sibling subheadline search. -/
def isSubCandidate (vw hb : ℚ) (ctaNorms : List Str) (c : Ctx) : Bool :=
  if !(inHero hb c.node) || inNavOrHeader vw c || inFramerNavOrFooter c then false
  else
    let text := cleanText c.node.innerText
    if text.isEmpty || decide (text.length < 10) then false
    else if decide (wordCount text < 3) then false
    else if c.closestB interactiveBtnSel then false
    else if isLikelyCtaText ctaNorms text then false
    else true

/-- The skip-over-invisible sibling walk
(`while (next && (!inHero(next) || inNavOrHeader(next) || …))`). -/
def firstEligibleSibling (vw hb : ℚ) (c : Ctx) : Option Ctx :=
  c.followingSiblingCtxs.find? (fun sc =>
    inHero hb sc.node && !inNavOrHeader vw sc && !inFramerNavOrFooter sc)

/-- Try one sibling: directly, or through a nested `p, h2, h3`. -/
def trySibling (vw hb : ℚ) (ctaNorms : List Str) (next : Ctx) : Option Str :=
  if isSubCandidate vw hb ctaNorms next && !next.node.hasDesc interactiveBtnSel then
    some (cleanText next.node.innerText)
  else
    match next.descCtxs.find? (fun d =>
        d.node.tagIs "p" || d.node.tagIs "h2" || d.node.tagIs "h3") with
    | some nested =>
      if isSubCandidate vw hb ctaNorms nested &&
          !nested.node.hasDesc interactiveBtnSel then
        some (cleanText nested.node.innerText)
      else none
    | none => none

/-- Strategy 3 paragraph record. -/
structure ParaCand where
  ctx : Ctx
  text : Str
  size : ℚ
  top : ℚ

/-- The three-strategy sibling subheadline search (`siblingSubheadline`). -/
def siblingSubheadline (vw hb : ℚ) (ctaNorms : List Str) (ph : HeadlinePhase) :
    Option Str :=
  match ph.headlineEl with
  | none => none
  | some hEl =>
    let hr? := headlineRectOf ph
    -- Strategy 1: next eligible sibling of the headline element
    let s1 :=
      match firstEligibleSibling vw hb hEl with
      | some next => trySibling vw hb ctaNorms next
      | none => none
    match s1 with
    | some t => some t
    | none =>
      -- Strategy 2: next eligible sibling of the parent (unless body)
      let s2 :=
        match hEl.parentCtx? with
        | some p =>
          if p.ups.isEmpty then none
          else
            match firstEligibleSibling vw hb p with
            | some parentNext => trySibling vw hb ctaNorms parentNext
            | none => none
        | none => none
      match s2 with
      | some t => some t
      | none =>
        -- Strategy 3: paragraphs of up to 3 ancestors, nearest the headline
        let ancs := hEl.ancestorCtxs.dropLast.take 3
        go ancs hr? hEl
where
  go (ancs : List Ctx) (hr? : Option Rect) (hEl : Ctx) : Option Str :=
    match ancs with
    | [] => none
    | ancestor :: rest =>
      let paragraphs :=
        ((ancestor.descCtxs.filter (fun d => d.node.tagIs "p"))
          |>.filter (fun p =>
            !(Node.beq p.node hEl.node) && isSubCandidate vw hb ctaNorms p &&
              !p.node.hasDesc interactiveBtnSel)
          |>.filter (fun p =>
            if inNavOrHeader vw p || inFramerNavOrFooter p then false
            else
              match hr? with
              | none => true
              | some r =>
                decide (p.node.rect.top ≤ qadd r.bottom 200) &&
                  decide (qsub r.top 50 ≤ p.node.rect.bottom))
          |>.map (fun p =>
            ({ ctx := p, text := cleanText p.node.innerText,
               size := p.node.style.fontSize, top := p.node.rect.top } : ParaCand))
          |>.filter (fun c =>
            decide (20 ≤ c.text.length) && decide (5 ≤ wordCount c.text))) |> jsSort
          (fun a b =>
            let hTop := match hr? with
              | some r => r.top
              | none => 0
            decide (qabs (qsub a.top hTop) ≤ qabs (qsub b.top hTop)))
      match paragraphs.head? with
      | some c => some c.text
      | none => go rest hr? hEl

/-- The generic fallback subheadline scan (source lines 543–593). -/
def fallbackSubheadline (doc : Doc) (vp : Viewport) (hb : ℚ) (ctaNorms : List Str)
    (ph : HeadlinePhase) : Option Str :=
  let vw := effViewportWidth vp
  let hr? := headlineRectOf ph
  let headlineSize : ℚ :=
    match ph.headlineEl with
    | some c => c.node.style.fontSize
    | none => 0
  let headlineTop : ℚ :=
    match hr? with
    | some r => r.top
    | none => 0
  let headlineBottom : ℚ :=
    match hr? with
    | some r => r.bottom
    | none => 0
  let cands :=
    (((heroTextNodes doc vp hb).filter (fun c =>
        match ph.headlineEl with
        | some hEl => !(Node.beq c.node hEl.node)
        | none => true)
      |>.filter (fun c =>
        inHero hb c.node && isVisible c.node && !inNavOrHeader vw c &&
          !inFramerNavOrFooter c && !looksLikeFooterContent c.node &&
          !isFixedOrSticky c.node)
      |>.filter (fun c => !(c.closestB interactiveBtnSel))
      |>.filter (fun c => !(c.node.hasDesc interactiveBtnSel))
      |>.map (fun c =>
        ({ ctx := c, text := cleanText c.node.innerText,
           size := c.node.style.fontSize, top := c.node.rect.top } : ParaCand))
      |>.filter (fun c =>
        !c.text.isEmpty && decide (12 ≤ c.text.length) &&
          decide (4 ≤ wordCount c.text))
      |>.filter (fun c => !looksLikeNavText c.text)
      |>.filter (fun c => !isLikelyCtaText ctaNorms c.text)
      |>.filter (fun c =>
        match hr? with
        | none => true
        | some _ =>
          let verticallyNear :=
            decide (qsub headlineTop 50 ≤ c.top) &&
              decide (c.top ≤ qadd headlineBottom 320)
          let sizeOk :=
            if headlineSize == 0 then true
            else decide (c.size ≤ qsub headlineSize 4)
          let notTooSmall :=
            decide (qmax 12 (qmul headlineSize (mkRat 8 25)) ≤ c.size)
          verticallyNear && sizeOk && notTooSmall)) |> jsSort
      (fun a b =>
        let byDist : Option Bool :=
          match hr? with
          | some _ =>
            let headlineCenter := qdiv (qadd headlineTop headlineBottom) 2
            let aD := qabs (qsub a.top headlineCenter)
            let bD := qabs (qsub b.top headlineCenter)
            if 20 < qabs (qsub aD bD) then some (decide (aD ≤ bD)) else none
          | none => none
        match byDist with
        | some v => v
        | none =>
          if a.size != b.size then decide (b.size ≤ a.size)
          else decide (a.text.length ≤ b.text.length)))
  cands.head?.map ParaCand.text

/-- `subheadline`: the sibling strategies, then the generic fallback. -/
def subheadlineOf (doc : Doc) (vp : Viewport) (hb : ℚ) (ctaNorms : List Str)
    (ph : HeadlinePhase) : Option Str :=
  match siblingSubheadline (effViewportWidth vp) hb ctaNorms ph with
  | some t => some t
  | none => fallbackSubheadline doc vp hb ctaNorms ph

/-! ### Forms, OAuth, grids, filters, layout (source lines 595–669) -/

def formsOf (doc : Doc) (vp : Viewport) (hb : ℚ) : List Ctx :=
  (docQuery doc (fun n => n.tagIs "form")).filter (fun c =>
    inHero hb c.node && !inNavOrHeader (effViewportWidth vp) c &&
      !inFramerNavOrFooter c)

def formFieldsCount (forms : List Ctx) : Nat :=
  forms.foldl (fun sum f => sum + (f.node.descMatching (fun n => n.tagIs "input")).length) 0

def hasEmailOnly (forms : List Ctx) : Bool :=
  forms.any (fun f =>
    (f.node.descMatching (fun n => n.tagIs "input")).length == 1 &&
      f.node.hasDesc (fun n => n.tagIs "input" && n.typeAttr == str "email"))

def hasPasswordField (doc : Doc) (vp : Viewport) (hb : ℚ) : Bool :=
  (formsOf doc vp hb).any (fun f =>
      f.node.hasDesc (fun n => n.tagIs "input" && n.typeAttr == str "password")) ||
    (docQuery doc (fun n => n.tagIs "input" && n.typeAttr == str "password")).any
      (fun c => inHero hb c.node && isVisible c.node)

/-- The curated `oauthSelectors` list (descendant combinators resolved
through the ancestor chain). -/
def oauthElementSel (c : Ctx) : Bool :=
  let underTag (t : String) : Bool := c.ancestors.any (fun a => a.tagIs t)
  (c.node.tagIs "img" && containsSubCI (str "google") (c.node.attrD "src") && underTag "button") ||
    (c.node.tagIs "img" && containsSubCI (str "apple") (c.node.attrD "src") && underTag "button") ||
    (c.node.tagIs "svg" && containsSubCI (str "google") c.node.ariaLabel && underTag "button") ||
    (c.node.tagIs "svg" && containsSubCI (str "apple") c.node.ariaLabel && underTag "button") ||
    (c.node.tagIs "img" && containsSubCI (str "google") (c.node.attrD "src") && underTag "a") ||
    (c.node.tagIs "img" && containsSubCI (str "apple") (c.node.attrD "src") && underTag "a") ||
    containsSubCI (str "google") (c.node.attrD "data-provider") ||
    containsSubCI (str "apple") (c.node.attrD "data-provider") ||
    containsSubCI (str "Continue with Google") c.node.ariaLabel ||
    containsSubCI (str "Sign in with Google") c.node.ariaLabel ||
    containsSubCI (str "Continue with Apple") c.node.ariaLabel ||
    containsSubCI (str "Sign in with Apple") c.node.ariaLabel

def hasOAuthElement (doc : Doc) : Bool := (allCtxs doc).any oauthElementSel

/-- `\b(google|apple|github|microsoft)\b` (against trimmed text). -/
def oauthProvidersTest (t : Str) : Bool :=
  searchB (pAltL ["google", "apple", "github", "microsoft"]) true true (lowerStr t)

/-- `/(sign|log|continue|connect)\s*(in|up|with)/i`. -/
def authVerbTest (t : Str) : Bool :=
  pSearch (pSeq3 (pAltL ["sign", "log", "continue", "connect"]) pWs0
    (pAltL ["in", "up", "with"])) (lowerStr t)

def hasOAuthText (doc : Doc) (hb : ℚ) : Bool :=
  ((docQuery doc interactiveBtnSel).filter (fun c =>
    inHero hb c.node && isVisible c.node)).any (fun c =>
      let text := jsTrim c.node.innerText
      oauthProvidersTest text && authVerbTest text)

def hasOAuth (doc : Doc) (hb : ℚ) : Bool := hasOAuthElement doc || hasOAuthText doc hb

/-- `maxChildren` over visible in-hero `display:grid` elements. -/
def maxGridChildren (doc : Doc) (hb : ℚ) : Nat :=
  (((allCtxs doc).filter (fun c => inHero hb c.node && isVisible c.node))
    |>.filter (fun c => c.node.style.display == str "grid")).foldl
    (fun m g => Nat.max m g.node.children.length) 0

def hasFilters (doc : Doc) : Bool :=
  docHas doc (fun n =>
    (n.tagIs "input" && n.typeAttr == str "search") || n.tagIs "select" ||
      n.role == str "listbox" || n.role == str "combobox" ||
      (n.tagIs "input" && n.typeAttr == str "checkbox"))

/-- `layout`: split when the first body child has visible in-hero children
on both the left and right 40% bands. -/
def layoutOf (doc : Doc) (vp : Viewport) (hb : ℚ) : Str :=
  match doc.body.children.head? with
  | none => str "single-column"
  | some hero =>
    let vw := effViewportWidth vp
    let rects := (hero.children.filter (fun el => inHero hb el && isVisible el)).map
      Node.rect
    let left := rects.filter (fun r => decide (r.left < qmul vw (mkRat 2 5)))
    let right := rects.filter (fun r => decide (qmul vw (mkRat 3 5) < r.left))
    if !left.isEmpty && !right.isEmpty then str "split" else str "single-column"

/-- `alignment`: the `h1` text-align, empty string degrading to null. -/
def alignmentOf (h1? : Option Ctx) : Option Str :=
  match h1? with
  | none => none
  | some c => if c.node.style.textAlign.isEmpty then none else some c.node.style.textAlign

/-! ### Stack fingerprint detector (source lines 671–862) -/

inductive StackTag
  | nextjs | webflow | framer | gatsby | nuxt | remix | astro | hugo | sveltekit
  | wordpress | shopify | wix | squarespace | vitepress | vue | react | angular
  | tailwind | bootstrap | materialUi | chakraUi | radix | antDesign | emotion
  | styledComponents | cssModules | vercel | netlify | cloudflare | awsAmplify
  | gsap | lottie | framerMotion | three
deriving Repr, DecidableEq

/-- The `window.*` globals the detector reads (host-supplied snapshot;
several are shadowed by the content-script isolated world but are read as
written). -/
structure Host where
  nextData : Bool
  webflowGlobal : Bool
  gatsbyGlobal : Bool
  nuxtGlobal : Bool
  remixContext : Bool
  shopifyGlobal : Bool
  wixBiSession : Bool
  staticGlobal : Bool
  gsapGlobal : Bool
deriving Repr, DecidableEq

/-- `.cls` selector: the class list contains the token (case-sensitive). -/
def hasClassToken (tok : String) (n : Node) : Bool :=
  (jsWords n.className).contains tok.toList

/-- Search with a custom left-context admissibility (used for the
`(^|\s)prefix` class patterns). -/
def searchWith (okL : Option Char → Bool) (p : Pat) (s : Str) : Bool :=
  go none s
where
  go : Option Char → Str → Bool
    | prev, s =>
      (okL prev && !(p s).isEmpty) ||
        match s with
        | [] => false
        | c :: rest => go (some c) rest

/-- `(^|\s)` left context. -/
def startOrWs (prev : Option Char) : Bool :=
  match prev with
  | none => true
  | some c => isWs c

/-- `{k,}` over a character class, greedy. -/
def pClassMin (f : Char → Bool) (k : Nat) : Pat := fun s =>
  let run := (s.takeWhile f).length
  if run < k then []
  else (List.range (run - k + 1)).map (fun i => s.drop (run - i))

def isUpperAlpha (c : Char) : Bool := c ≥ 'A' && c ≤ 'Z'

def isLowerAlnum (c : Char) : Bool := (c ≥ 'a' && c ≤ 'z') || (c ≥ '0' && c ≤ '9')

def isAlnumChar (c : Char) : Bool := isAsciiAlpha c || isDigitChar c

/-- All document-derived detection signals, in catalog order. -/
structure StackSignals where
  hasNext : Bool
  webflow : Bool
  framer : Bool
  gatsby : Bool
  nuxt : Bool
  remix : Bool
  astro : Bool
  hugo : Bool
  sveltekit : Bool
  wordpress : Bool
  shopify : Bool
  wix : Bool
  squarespace : Bool
  vitepress : Bool
  vueMarkers : Bool
  reactMarkers : Bool
  angular : Bool
  tailwind : Bool
  bootstrap : Bool
  materialUi : Bool
  chakraUi : Bool
  radix : Bool
  antDesign : Bool
  emotion : Bool
  styledComponents : Bool
  cssModules : Bool
  vercel : Bool
  netlify : Bool
  cloudflare : Bool
  awsAmplify : Bool
  gsap : Bool
  lottie : Bool
  framerMotionMarkers : Bool
deriving Repr, DecidableEq

def metaGenContains (doc : Doc) (needle : String) : Bool :=
  docHas doc (fun n =>
    n.tagIs "meta" && n.attrD "name" == str "generator" &&
      containsSub needle.toList (n.attrD "content"))

def scriptSrcContains (doc : Doc) (needle : String) : Bool :=
  docHas doc (fun n => n.tagIs "script" && containsSub needle.toList (n.attrD "src"))

def linkHrefContains (doc : Doc) (needle : String) : Bool :=
  docHas doc (fun n => n.tagIs "link" && containsSub needle.toList (n.attrD "href"))

/-- `classEls`: the first 500 `[class]` elements. -/
def classEls (doc : Doc) : List Node :=
  ((docQuery doc (fun n => (n.attr? "class").isSome)).map Ctx.node).take 500

def stackSignals (doc : Doc) (host : Host) : StackSignals where
  hasNext :=
    host.nextData || docHasId doc "__next" ||
      docHas doc (fun n => n.tagIs "script" && n.idAttr == str "__NEXT_DATA__") ||
      scriptSrcContains doc "/_next/" || linkHrefContains doc "/_next/" ||
      docHas doc (fun n => n.tagIs "meta" && n.attrD "name" == str "next-head-count")
  webflow := host.webflowGlobal
  framer := metaGenContains doc "Framer"
  gatsby := host.gatsbyGlobal || docHasId doc "___gatsby"
  nuxt := host.nuxtGlobal || docHasId doc "__nuxt"
  remix := host.remixContext
  astro := metaGenContains doc "Astro"
  hugo := metaGenContains doc "Hugo"
  sveltekit :=
    docHas doc (fun n => containsSub (str "__sveltekit") n.idAttr) ||
      ((docQuery doc (fun n => n.tagIs "script")).take 30).any (fun c =>
        containsSub (str "__sveltekit") c.node.scriptText)
  wordpress :=
    metaGenContains doc "WordPress" || linkHrefContains doc "wp-content" ||
      scriptSrcContains doc "wp-content" || linkHrefContains doc "wp-includes" ||
      scriptSrcContains doc "wp-includes"
  shopify :=
    host.shopifyGlobal || scriptSrcContains doc "cdn.shopify.com" ||
      linkHrefContains doc "cdn.shopify.com"
  wix :=
    host.wixBiSession || linkHrefContains doc "static.wixstatic.com" ||
      scriptSrcContains doc "static.wixstatic.com"
  squarespace :=
    (host.staticGlobal && scriptSrcContains doc "squarespace") ||
      linkHrefContains doc "squarespace.com" || scriptSrcContains doc "squarespace.com"
  vitepress :=
    docHasId doc "VPContent" ||
      docHas doc (fun n => hasClassToken "vp-doc" n || hasClassToken "VPDoc" n ||
        hasClassToken "VPHome" n) ||
      scriptSrcContains doc "vitepress"
  vueMarkers :=
    docHas doc (fun n => (n.attr? "data-v-").isSome) ||
      (match (allCtxs doc).find? (fun c => c.node.idAttr == str "app") with
        | some c => (c.node.attr? "data-server-rendered").isSome
        | none => false)
  reactMarkers :=
    docHas doc (fun n =>
      (n.attr? "data-reactroot").isSome || (n.attr? "data-reactid").isSome) ||
      docHasId doc "react-root"
  angular :=
    docHas doc (fun n =>
      (n.attr? "ng-version").isSome || (n.attr? "_nghost").isSome ||
        (n.attr? "_ngcontent").isSome) ||
      scriptSrcContains doc "angular"
  tailwind :=
    (classEls doc).any (fun n =>
      searchWith startOrWs (pAltL ["bg-", "text-", "px-", "py-", "rounded-"])
        n.className)
  bootstrap :=
    3 ≤ ((classEls doc).filter (fun n =>
      searchWith startOrWs (pAlt [pLit "btn btn-", pLit "container-fluid",
        pSeq3 (pLit "col-") (pAltL ["xs", "sm", "md", "lg", "xl"]) (pLit "-"),
        pLit "navbar-", pLit "form-control", pLit "card-body"]) n.className)).length
  materialUi :=
    (classEls doc).any (fun n =>
      searchWith startOrWs (pSeq (pLit "Mui") (pClass1 isUpperAlpha)) n.className)
  chakraUi :=
    (classEls doc).any (fun n => searchWith startOrWs (pLit "chakra-") n.className)
  radix :=
    docHas doc (fun n =>
      (n.attr? "data-radix-popper-content-wrapper").isSome ||
        (n.attr? "data-radix-collection-item").isSome || (n.attr? "data-state").isSome)
  antDesign :=
    (classEls doc).any (fun n => searchWith startOrWs (pLit "ant-") n.className)
  emotion :=
    docHas doc (fun n => n.tagIs "style" && (n.attr? "data-emotion").isSome) ||
      3 ≤ ((classEls doc).filter (fun n =>
        searchB (pSeq (pLit "css-") (pClassMin isLowerAlnum 4)) true true
          n.className)).length
  styledComponents :=
    docHas doc (fun n => n.tagIs "style" &&
      ((n.attr? "data-styled").isSome || (n.attr? "data-styled-components").isSome)) ||
      3 ≤ ((classEls doc).filter (fun n =>
        searchB (pSeq (pLit "sc-") (pClassMin isAlnumChar 6)) true true
          n.className)).length
  cssModules :=
    3 ≤ ((classEls doc).filter (fun n =>
      searchB (pSeq4 (pClassMin isWordChar 1) (pLit "_") (pClassMin isWordChar 1)
        (pSeq (pLit "__") (pClassMin isAlnumChar 4))) true true n.className)).length
  vercel :=
    docHas doc (fun n => n.tagIs "meta" && containsSubCI (str "vercel") (n.attrD "name")) ||
      scriptSrcContains doc "vercel-insights" || scriptSrcContains doc "vercel-analytics"
  netlify :=
    scriptSrcContains doc ".netlify" || linkHrefContains doc ".netlify" ||
      metaGenContains doc "Netlify"
  cloudflare :=
    scriptSrcContains doc "cloudflareinsights.com" ||
      docHas doc (fun n => n.tagIs "script" && (n.attr? "data-cf-beacon").isSome)
  awsAmplify :=
    scriptSrcContains doc "aws-amplify" ||
      docHas doc (fun n => n.tagIs "meta" && containsSubCI (str "amplify") (n.attrD "name"))
  gsap := host.gsapGlobal || scriptSrcContains doc "gsap"
  lottie := docHas doc (fun n => n.tagIs "lottie-player") || scriptSrcContains doc "lottie"
  framerMotionMarkers :=
    docHas doc (fun n =>
      (n.attr? "data-framer-appear-id").isSome ||
        (n.attr? "data-framer-component-type").isSome)

def pushIf (l : List StackTag) (b : Bool) (t : StackTag) : List StackTag :=
  if b then l ++ [t] else l

/-- `detectedStack`: the ordered catalog with the generic `vue`/`react`
rules suppressed by the already-recorded meta-framework tags, and
`framer-motion` suppressed by the Framer builder tag. -/
def buildDetectedStack (sig : StackSignals) : List StackTag :=
  let s := ([] : List StackTag)
  let s := pushIf s (sig.hasNext && !(s.contains .nextjs)) .nextjs
  let s := pushIf s sig.webflow .webflow
  let s := pushIf s sig.framer .framer
  let s := pushIf s sig.gatsby .gatsby
  let s := pushIf s sig.nuxt .nuxt
  let s := pushIf s sig.remix .remix
  let s := pushIf s sig.astro .astro
  let s := pushIf s sig.hugo .hugo
  let s := pushIf s sig.sveltekit .sveltekit
  let s := pushIf s sig.wordpress .wordpress
  let s := pushIf s sig.shopify .shopify
  let s := pushIf s sig.wix .wix
  let s := pushIf s sig.squarespace .squarespace
  let s := pushIf s sig.vitepress .vitepress
  let s := pushIf s (!(s.contains .nuxt) && !(s.contains .vitepress) && sig.vueMarkers) .vue
  let s := pushIf s (!(s.contains .nextjs) && !(s.contains .gatsby) &&
    !(s.contains .remix) && sig.reactMarkers) .react
  let s := pushIf s sig.angular .angular
  let s := pushIf s sig.tailwind .tailwind
  let s := pushIf s sig.bootstrap .bootstrap
  let s := pushIf s sig.materialUi .materialUi
  let s := pushIf s sig.chakraUi .chakraUi
  let s := pushIf s sig.radix .radix
  let s := pushIf s sig.antDesign .antDesign
  let s := pushIf s sig.emotion .emotion
  let s := pushIf s sig.styledComponents .styledComponents
  let s := pushIf s sig.cssModules .cssModules
  let s := pushIf s sig.vercel .vercel
  let s := pushIf s sig.netlify .netlify
  let s := pushIf s sig.cloudflare .cloudflare
  let s := pushIf s sig.awsAmplify .awsAmplify
  let s := pushIf s sig.gsap .gsap
  let s := pushIf s sig.lottie .lottie
  let s := pushIf s (!(s.contains .framer) && sig.framerMotionMarkers) .framerMotion
  s

def detectedStackOf (doc : Doc) (host : Host) : List StackTag :=
  buildDetectedStack (stackSignals doc host)

/-! ### Hero text aggregation (source lines 319–335) -/

/-- `heroTextLeaves`: drop nodes above `contentTop` and container
div/spans that still hold headings or paragraphs. -/
def heroTextLeaves (nodes : List Ctx) (contentTop : ℚ) : List Ctx :=
  nodes.filter (fun c =>
    if c.node.rect.top < contentTop then false
    else if c.node.tagEq "DIV" || c.node.tagEq "SPAN" then
      !(c.node.hasDesc (fun n =>
        n.tagIs "h1" || n.tagIs "h2" || n.tagIs "h3" || n.tagIs "p"))
    else true)

/-- The `^skip\s*(to)?\s*(main\s*)?(content|navigation)\s*` strip pattern. -/
def skipStripPat : Pat :=
  pSeq4 (pLit "skip") pWs0 (pOpt (pLit "to"))
    (pSeq4 pWs0 (pOpt (pSeq (pLit "main") pWs0))
      (pAltL ["content", "navigation"]) pWs0)

/-- Strip the leading skip-link text (case-insensitive match, greedy). -/
def stripSkipLeader (t : Str) : Str :=
  match skipStripPat (lowerStr t) with
  | r :: _ => t.drop (t.length - r.length)
  | [] => t

/-- `heroText`: the joined leaf texts, cleaned, skip-leader stripped. -/
def heroTextOf (nodes : List Ctx) (contentTop : ℚ) : Str :=
  stripSkipLeader (cleanText (joinSp
    ((heroTextLeaves nodes contentTop).map (fun c => c.node.innerText))))

/-! ### Pricing, promotion and commerce signals (source lines 864–966) -/

/-- `/(pricing|plans|per month|per year|billing|free trial)/i`. -/
def pricingTokensTest (t : Str) : Bool :=
  pSearch (pAltL ["pricing", "plans", "per month", "per year", "billing",
    "free trial"]) (lowerStr t)

/-- `\d+%\s*off`. -/
def pctOffPat : Pat := pSeq3 pDigits1 (pLit "%") (pSeq pWs0 (pLit "off"))

def pAnyChar : Pat := pClass1 (fun c => c ≠ '\n')

/-- `\bdouble\b.*\b(sale|offer|deal)\b`. -/
def doubleComboTest (t : Str) : Bool :=
  go none t
where
  go : Option Char → Str → Bool
    | prev, s =>
      (tryHere (pLit "double") true true prev s &&
        searchB (pAltL ["sale", "offer", "deal"]) true true (s.drop 6)) ||
        match s with
        | [] => false
        | c :: rest => go (some c) rest

/-- `promoRegex`. -/
def promoTest (t0 : Str) : Bool :=
  let t := lowerStr t0
  pSearch pctOffPat t ||
    searchB (pLit "sale") true true t ||
    searchB (pLit "flash sale") true true t ||
    searchB (pLit "clearance") true true t ||
    searchB (pLit "discount") true true t ||
    searchB (pSeq3 (pLit "save") pWs1 (pClass1 isDigitChar)) true false t ||
    searchB (pSeq (pLit "deal") (pOpt (pLit "s"))) true true t ||
    searchB (pSeq3 (pLit "limited") (pOpt pAnyChar) (pLit "time")) true true t ||
    searchB (pSeq4 (pLit "end") (pOpt (pLit "s")) pWs1
      (pAltL ["today", "tonight", "soon", "in"])) true true t ||
    searchB (pSeq3 (pLit "last") pWs1
      (pAlt [pLit "day", pLit "chance", pSeq (pLit "hour") (pOpt (pLit "s"))]))
      true true t ||
    searchB (pLit "hurry") true true t ||
    searchB (pSeq4 (pLit "while") pWs1 (pSeq (pLit "stock") (pOpt (pLit "s")))
      (pSeq pWs1 (pLit "last"))) true true t ||
    doubleComboTest t

/-- `transactionalCtaRegex` (anchored). -/
def transactionalCtaTest (t : Str) : Bool :=
  pTest (pAlt [pSeq3 (pLit "shop") pWs0 (pLit "now"),
    pSeq3 (pLit "buy") pWs0 (pLit "now"),
    pSeq4 (pLit "add") pWs0 (pLit "to") (pSeq pWs0 (pLit "cart")),
    pSeq3 (pLit "order") pWs0 (pLit "now"),
    pSeq4 (pLit "get") pWs0 (pLit "the") (pSeq pWs0 (pLit "deal")),
    pSeq3 (pLit "grab") pWs0 (pAltL ["it", "yours"]),
    pSeq3 (pLit "shop") pWs0
      (pAlt [pLit "all", pSeq3 (pLit "the") pWs0 (pLit "sale")]),
    pSeq3 (pLit "view") pWs0 (pLit "deal")]) (lowerStr t)

/-- `priceRegex`: `\$\d+`, or a digits-sep-two-digits amount, or `%` off. -/
def priceTest (t0 : Str) : Bool :=
  let t := lowerStr t0
  pSearch (pSeq (pLit "$") (pClass1 isDigitChar)) t ||
    pSearch (pSeq3 pDigits1 (pClass1 (fun c => c = '.' || c = ','))
      (pSeq (pClass1 isDigitChar) (pClass1 isDigitChar))) t ||
    pSearch pctOffPat t

/-- `priceElements`: childless short-text price-bearing elements. -/
def priceElements (doc : Doc) (hb : ℚ) : List Ctx :=
  ((allCtxs doc).filter (fun c => inHero hb c.node && isVisible c.node)).filter
    (fun c =>
      let t := jsTrim c.node.innerText
      decide (t.length < 30) && priceTest t && c.node.children.length == 0)

/-- One countdown selector probe: only the first document match is
geometry-checked (`document.querySelector(sel)`). -/
def firstMatchInHeroVisible (doc : Doc) (hb : ℚ) (p : Node → Bool) : Bool :=
  match (docQuery doc p).head? with
  | some c => inHero hb c.node && isVisible c.node
  | none => false

/-- `/\d{1,2}\s*:\s*\d{2}\s*:\s*\d{2}/`. -/
def colonTimerTest (t : Str) : Bool :=
  pSearch (pSeq4 (pClassUpTo isDigitChar 2) pWs0 (pLit ":")
    (pSeq4 pWs0 (pSeq (pClass1 isDigitChar) (pClass1 isDigitChar))
      (pSeq3 pWs0 (pLit ":") pWs0)
      (pSeq (pClass1 isDigitChar) (pClass1 isDigitChar)))) t

/-- `hasCountdown`. -/
def hasCountdown (doc : Doc) (hb : ℚ) : Bool :=
  firstMatchInHeroVisible doc hb (fun n => containsSubCI (str "countdown") n.className) ||
    firstMatchInHeroVisible doc hb (fun n => containsSubCI (str "countdown") n.idAttr) ||
    firstMatchInHeroVisible doc hb (fun n => containsSubCI (str "timer") n.className) ||
    firstMatchInHeroVisible doc hb (fun n => containsSubCI (str "timer") n.idAttr) ||
    firstMatchInHeroVisible doc hb (fun n => containsSubCI (str "clock") n.className) ||
    firstMatchInHeroVisible doc hb (fun n => (n.attr? "data-countdown").isSome) ||
    (((docQuery doc (fun n => n.tagIs "span" || n.tagIs "div" || n.tagIs "p")).filter
        (fun c => inHero hb c.node && isVisible c.node &&
          decide (c.node.innerText.length < 20))).any
      (fun c => colonTimerTest c.node.innerText))

/-- `addToCartRegex` (anchored with optional trailing whitespace). -/
def addToCartTest (t : Str) : Bool :=
  pTest (pSeq3 (pAlt
    [pSeq4 (pLit "add") pWs0 (pLit "to") (pSeq pWs0 (pLit "cart")),
     pSeq4 (pLit "add") pWs0 (pLit "to") (pSeq pWs0 (pLit "bag")),
     pSeq4 (pLit "add") pWs0 (pLit "to") (pSeq pWs0 (pLit "basket")),
     pSeq3 (pLit "buy") pWs0 (pLit "now"),
     pSeq3 (pLit "shop") pWs0 (pLit "now"),
     pSeq3 (pLit "quick") pWs0 (pLit "add"),
     pSeq3 (pLit "quick") pWs0 (pLit "shop")]) pWs0 pEnd) (lowerStr t)

def heroButtons (doc : Doc) (hb : ℚ) : List Ctx :=
  (docQuery doc interactiveBtnSel).filter (fun c => inHero hb c.node && isVisible c.node)

def addToCartCount (doc : Doc) (hb : ℚ) : Nat :=
  ((heroButtons doc hb).filter (fun c => addToCartTest (jsTrim c.node.innerText))).length

/-- `productCardSelectors`. -/
def productCardSel (n : Node) : Bool :=
  containsSubCI (str "product") n.className || containsSubCI (str "item-card") n.className ||
    containsSubCI (str "sku") n.className || (n.attr? "data-product").isSome ||
    (n.attr? "data-sku").isSome || (n.attr? "data-item").isSome ||
    containsSubCI (str "card") n.className

def candidateCards (doc : Doc) (hb : ℚ) : List Ctx :=
  (docQuery doc productCardSel).filter (fun c => inHero hb c.node && isVisible c.node)

/-- A qualifying product card: image plus price in under 300 chars. -/
def isProductCard (n : Node) : Bool :=
  let cardText := jsTrim n.innerText
  n.hasDesc (fun d => d.tagIs "img") && priceTest cardText &&
    decide (cardText.length < 300)

/-- `productCardCount`. -/
def productCardCount (doc : Doc) (hb : ℚ) : Nat :=
  ((candidateCards doc hb).filter (fun c => isProductCard c.node)).length

/-- `categoryNavSelectors` (the descendant selectors resolved through the
ancestor chain). -/
def categoryNavSel (c : Ctx) : Bool :=
  containsSubCI (str "category") c.node.className ||
    containsSubCI (str "categories") c.node.className ||
    containsSubCI (str "department") c.node.className ||
    (c.node.tagIs "nav" &&
      c.ancestors.any (fun a => containsSubCI (str "sidebar") a.className)) ||
    (c.node.tagIs "ul" &&
      c.ancestors.any (fun a => containsSubCI (str "sidebar") a.className)) ||
    (c.node.attr? "data-category").isSome ||
    (c.node.tagIs "nav" && containsSubCI (str "shop") c.node.className) ||
    containsSubCI (str "browse") c.node.className

def hasCategoryNav (doc : Doc) (vp : Viewport) (hb : ℚ) : Bool :=
  (((allCtxs doc).filter categoryNavSel).filter (fun c =>
    inHero hb c.node || decide (c.node.rect.top < effViewportHeight vp))).any
    (fun c => 3 ≤ (c.node.descMatching (fun n => n.tagIs "a")).length)

/-- `discoveryRegex`. -/
def discoveryTest (t0 : Str) : Bool :=
  searchB (pAlt
    [pSeq3 (pLit "new") pWs0 (pSeq (pLit "arrival") (pOpt (pLit "s"))),
     pSeq3 (pLit "just") pWs0 (pLit "dropped"),
     pLit "trending",
     pSeq3 (pLit "best") pWs0 (pSeq (pLit "seller") (pOpt (pLit "s"))),
     pSeq3 (pLit "most") pWs0 (pLit "popular"),
     pLit "curated",
     pSeq4 (pSeq (pLit "pick") (pOpt (pLit "s"))) pWs0 (pLit "for")
       (pSeq pWs0 (pLit "you")),
     pLit "recommended", pLit "explore", pLit "discover",
     pSeq3 (pSeq (pLit "what") (pSeq pApos (pLit "s"))) pWs0 (pLit "new"),
     pSeq3 (pLit "fresh") pWs0 (pSeq (pLit "find") (pOpt (pLit "s"))),
     pSeq3 (pSeq (pLit "editor") (pSeq pApos (pOpt (pLit "s")))) pWs0
       (pLit "choice"),
     pSeq3 (pLit "top") pWs0 (pLit "rated")]) true true (lowerStr t0)

/-- `brandCampaignRegex`. -/
def brandCampaignTest (t0 : Str) : Bool :=
  searchB (pAlt [pLit "collection", pLit "campaign", pLit "introducing",
    pSeq3 (pLit "new") pWs0 (pLit "season"),
    pLit "spring", pLit "summer", pLit "autumn", pLit "fall", pLit "winter",
    pLit "holiday", pLit "launch",
    pSeq (pLit "collab") (pOpt (pLit "oration")),
    pSeq3 (pLit "limited") pWs0 (pLit "edition"),
    pLit "exclusive"]) true true (lowerStr t0)

/-- `trustRegex`. -/
def trustTest (t0 : Str) : Bool :=
  searchB (pAlt
    [pSeq3 (pLit "free") pWs0
      (pAlt [pLit "shipping", pLit "delivery", pSeq (pLit "return") (pOpt (pLit "s"))]),
     pSeq4 (pLit "money") (pOpt pAnyChar) (pLit "back") (pSeq pWs0 (pLit "guarantee")),
     pSeq3 (pLit "satisfaction") pWs0 (pLit "guaranteed"),
     pSeq3 (pLit "secure") pWs0 (pAltL ["checkout", "payment"]),
     pSeq3 (pLit "trusted") pWs0 (pLit "by"),
     pLit "verified", pLit "authentic",
     pSeq3 (pLit "100%") pWs0 (pAltL ["genuine", "original"]),
     pSeq3 (pLit "no") pWs0 (pLit "risk"),
     pSeq3 (pLit "easy") pWs0 (pSeq (pLit "return") (pOpt (pLit "s"))),
     pSeq3 (pLit "customer") pWs0 (pSeq (pLit "review") (pOpt (pLit "s"))),
     pSeq3 (pLit "rated") pWs0 (pClass1 isDigitChar),
     pSeq4 (pLit "star") (pOpt (pLit "s")) pWs0 (pLit "rating"),
     pSeq4 pDigits1 (pOpt (pClass1 (fun c => c = ',' || c = '.')))
       (pMany0 isDigitChar)
       (pSeq3 (pOpt (pLit "+")) pWs0 (pSeq (pLit "review") (pOpt (pLit "s"))))])
    true true (lowerStr t0)

def trustBadgeCount (doc : Doc) (hb : ℚ) : Nat :=
  ((docQuery doc (fun n =>
    containsSubCI (str "trust") n.className || containsSubCI (str "badge") n.className ||
      containsSubCI (str "guarantee") n.className ||
      containsSubCI (str "secure") n.className ||
      containsSubCI (str "verified") n.className ||
      containsSubCI (str "certification") n.className)).filter (fun c =>
    inHero hb c.node && isVisible c.node)).length

/-! ### Showcase / interactive demo detection (source lines 968–1091) -/

/-- `inFold`: on screen within one viewport height. -/
def inFold (vh : ℚ) (n : Node) : Bool :=
  decide ((0 : ℚ) < n.rect.bottom) && decide (n.rect.top < vh)

def heroCanvasElements (doc : Doc) (hb : ℚ) : List Ctx :=
  (docQuery doc (fun n => n.tagIs "canvas")).filter (fun c =>
    inHero hb c.node && isVisible c.node)

def hasCanvas (doc : Doc) (hb : ℚ) : Bool := !(heroCanvasElements doc hb).isEmpty

/-- `getContext("webgl2") || getContext("webgl")`, wrapped in try/catch,
snapshot in the node's `webgl` capability bit. -/
def hasWebGL (doc : Doc) (hb : ℚ) : Bool :=
  (heroCanvasElements doc hb).any (fun c => c.node.webgl)

def largeSvgCount (doc : Doc) (hb : ℚ) : Nat :=
  (((docQuery doc (fun n => n.tagIs "svg")).filter (fun c =>
    inHero hb c.node && isVisible c.node)).filter (fun c =>
      decide ((80 : ℚ) < c.node.rect.width) && decide ((80 : ℚ) < c.node.rect.height))).length

/-- The `interactiveSelectors` union. -/
def interactiveDemoSel (n : Node) : Bool :=
  containsSubCI (str "playground") n.className || containsSubCI (str "editor") n.className ||
    containsSubCI (str "sandbox") n.className || containsSubCI (str "codepen") n.className ||
    containsSubCI (str "repl") n.className || containsSubCI (str "interactive") n.className ||
    (containsSubCI (str "demo") n.className && !(n.tagIs "button") && !(n.tagIs "a")) ||
    (n.tagIs "iframe" && containsSub (str "codepen") (n.attrD "src")) ||
    (n.tagIs "iframe" && containsSub (str "codesandbox") (n.attrD "src")) ||
    (n.tagIs "iframe" && containsSub (str "stackblitz") (n.attrD "src")) ||
    n.attrD "contenteditable" == str "true"

def hasInteractiveDemoBase (doc : Doc) : Bool := docHas doc interactiveDemoSel

def heroTextInputs (doc : Doc) (vh : ℚ) : List Ctx :=
  (docQuery doc (fun n =>
    n.tagIs "textarea" || (n.tagIs "input" && n.typeAttr == str "text") ||
      (n.tagIs "input" && n.typeAttr == str "search") ||
      n.attrD "contenteditable" == str "true" || n.role == str "textbox")).filter
    (fun c => inFold vh c.node && isVisible c.node)

def heroAudioElements (doc : Doc) (vh : ℚ) : List Ctx :=
  (docQuery doc (fun n => n.tagIs "audio")).filter (fun c =>
    inFold vh c.node && isVisible c.node)

/-- `\b(play|listen|preview|sample)\b`. -/
def playButtonTest (t : Str) : Bool :=
  searchB (pAltL ["play", "listen", "preview", "sample"]) true true (lowerStr t)

/-- `\b(voice|voices|text to speech|tts)\b`. -/
def voiceTest (t : Str) : Bool :=
  searchB (pAlt [pSeq (pLit "voice") (pOpt (pLit "s")),
    pLit "text to speech", pLit "tts"]) true true (lowerStr t)

def interactiveButtons (doc : Doc) (vh : ℚ) : List Ctx :=
  (docQuery doc (fun n =>
    n.tagIs "button" || n.tagIs "a" || n.role == str "button" ||
      (n.attr? "tabindex").isSome)).filter (fun c =>
    inFold vh c.node && isVisible c.node)

def hasPlayButton (doc : Doc) (vh : ℚ) : Bool :=
  (interactiveButtons doc vh).any (fun c =>
    playButtonTest (jsTrim c.node.innerText) ||
      playButtonTest (jsTrim c.node.ariaLabel) ||
      playButtonTest (jsTrim (c.node.attrD "title")))

/-- `\bplay\b` over the id/class/aria/data hooks. -/
def playHookTest (t : Str) : Bool := searchB (pLit "play") true true (lowerStr t)

def playControlCandidates (doc : Doc) (vh : ℚ) : List Ctx :=
  (interactiveButtons doc vh).filter (fun c =>
    playHookTest c.node.className || playHookTest c.node.idAttr ||
      playHookTest c.node.ariaLabel || playHookTest (c.node.attrD "data-testid") ||
      playHookTest (c.node.attrD "data-action"))

def hasPlayControl (doc : Doc) (vh : ℚ) : Bool :=
  hasPlayButton doc vh || !(playControlCandidates doc vh).isEmpty

def heroOptions (doc : Doc) (vh : ℚ) : List Ctx :=
  (docQuery doc (fun n =>
    n.role == str "listbox" || n.role == str "option" || n.role == str "tablist" ||
      n.role == str "tab" || (n.attr? "data-voice").isSome ||
      containsSubCI (str "voice") n.className)).filter (fun c =>
    inFold vh c.node && isVisible c.node)

def rowContainers (doc : Doc) (vp : Viewport) (vh : ℚ) : List Ctx :=
  ((docQuery doc (fun n =>
      n.tagIs "div" || n.tagIs "section" || n.tagIs "ul" || n.tagIs "ol")).filter
    (fun c =>
      inFold vh c.node && isVisible c.node &&
        !inNavOrHeader (effViewportWidth vp) c && !inFramerNavOrFooter c)).filter
    (fun c =>
      let isFlex := c.node.style.display == str "flex" &&
        !(c.node.style.flexDirection == str "column")
      let isGrid := c.node.style.display == str "grid"
      (isFlex || isGrid) && 4 ≤ c.node.children.length)

/-- `/avatar|voice|speaker/i`. -/
def avatarClassTest (t : Str) : Bool :=
  pSearch (pAltL ["avatar", "voice", "speaker"]) (lowerStr t)

def hasSelectableListFromRows (doc : Doc) (vp : Viewport) (vh : ℚ) : Bool :=
  (rowContainers doc vp vh).any (fun container =>
    let children := container.node.children.filter isVisible
    if children.length < 4 then false
    else
      4 ≤ (children.filter (fun child =>
        let text := cleanText child.innerText
        let wc := wordCount text
        (child.hasDesc (fun n => n.tagIs "img" || n.tagIs "svg") ||
            avatarClassTest child.className) &&
          0 < wc && wc ≤ 4)).length)

/-! ### Error / blocked page detection (source lines 1093–1103) -/

/-- `errorPageRegex`. -/
def errorPageTest (t0 : Str) : Bool :=
  searchB (pAlt
    [pLit "something went wrong", pLit "access denied", pLit "blocked",
     pLit "forbidden", pLit "error occurred", pLit "page not found",
     pLit "404", pLit "403", pLit "500", pLit "502", pLit "503", pLit "504",
     pLit "service unavailable", pLit "temporarily unavailable",
     pLit "try again later", pLit "request blocked", pLit "security check",
     pLit "verify you are human", pLit "captcha", pLit "challenge",
     pLit "bot detected", pLit "automated access", pLit "unusual traffic",
     pSeq3 (pLit "reference") pWs0
       (pSeq (pOpt (pSeq (pLit "error") pWs0)) (pAltL ["code", "id"])),
     pLit "cloudflare", pLit "akamai", pLit "incapsula", pLit "distil",
     pLit "datadome", pLit "perimeterx"]) true true (lowerStr t0)

def botBlockTest (t0 : Str) : Bool :=
  pSearch (pAltL ["access denied", "blocked", "forbidden", "bot detected",
    "automated", "unusual traffic", "security check", "verify you are human",
    "captcha", "challenge"]) (lowerStr t0)

def notFoundTest (t0 : Str) : Bool :=
  pSearch (pAltL ["404", "page not found"]) (lowerStr t0)

def serverErrorTest (t0 : Str) : Bool :=
  pSearch (pAltL ["500", "502", "503", "504", "service unavailable",
    "temporarily unavailable"]) (lowerStr t0)

/-! ### List / bullet structure (source lines 1105–1236) -/

/-- `navLinkRegex` (anchored single-label nav links). -/
def navLinkTest (t : Str) : Bool :=
  pTest (pSeq (pAltL ["top content", "people", "learning", "jobs", "games",
    "career", "productivity", "finance", "about", "blog", "pricing", "contact",
    "support", "help", "resources", "docs", "changelog", "status"]) pEnd)
    (lowerStr t)

def listContainers (doc : Doc) (vp : Viewport) (hb : ℚ) : List Ctx :=
  (docQuery doc (fun n => n.tagIs "ul" || n.tagIs "ol")).filter (fun c =>
    if !(inHero hb c.node) || !(isVisible c.node) then false
    else if inNavOrHeader (effViewportWidth vp) c then false
    else true)

/-- `text.split(" ")` (single-space split, as in the list-item word count). -/
def splitChar (sep : Char) (s : Str) : List Str :=
  go s []
where
  go : Str → Str → List Str
    | [], acc => [acc.reverse]
    | c :: rest, acc =>
      if c = sep then acc.reverse :: go rest []
      else go rest (c :: acc)

structure ListItem where
  text : Str
  top : ℚ
  listStyle : Str
  hasIcon : Bool
  wordCount : Nat
  looksLikeLogo : Bool
  isLegal : Bool
  isNavLink : Bool
  inForm : Bool
  isJustLink : Bool
deriving Repr, DecidableEq

def listItemOf (li : Ctx) : ListItem :=
  let listStyle := li.node.style.listStyleType
  let hasIcon :=
    li.node.hasDesc (fun n =>
      n.tagIs "svg" || n.tagIs "img" || n.tagIs "i" ||
        containsSubCI (str "icon") n.className) ||
      li.node.hasDesc (fun n => (n.attr? "data-icon").isSome)
  let text := cleanText li.node.innerText
  let wc := ((splitChar ' ' text).filter (fun w => !w.isEmpty)).length
  { text, top := li.node.rect.top, listStyle, hasIcon, wordCount := wc,
    looksLikeLogo := wc ≤ 2 &&
      li.node.hasDesc (fun n => n.tagIs "img" || n.tagIs "svg") &&
      !(li.node.hasDesc (fun n => n.tagIs "p" || n.tagIs "span" || n.tagIs "div")),
    isLegal := legalLinkTest text,
    isNavLink := navLinkTest text,
    inForm := li.closestB (fun n => n.tagIs "form"),
    isJustLink := li.node.children.length ≤ 1 &&
      li.node.hasDesc (fun n => n.tagIs "a") && wc ≤ 3 }

def listItems (doc : Doc) (vp : Viewport) (hb : ℚ) : List ListItem :=
  (listContainers doc vp hb).flatMap (fun list =>
    (list.descCtxs.filter (fun d => d.node.tagIs "li")).map listItemOf)

def interactiveListItems (items : List ListItem) : List ListItem :=
  ((((items.filter (fun i => i.hasIcon)).filter (fun i => !i.looksLikeLogo)).filter
      (fun i => !i.isLegal && !i.isNavLink && !i.inForm && !i.isJustLink)).filter
    (fun i => 0 < i.wordCount && i.wordCount ≤ 4)).filter
    (fun i => 2 ≤ i.text.length)

/-- `actionHintRegex` (anchored). -/
def actionHintTest (t : Str) : Bool :=
  pTest (pAlt [pLit "no credit", pLit "no card", pLit "free ",
    pLit "cancel anytime",
    pSeq3 (pLit "money") pAnyChar (pLit "back")]) (lowerStr t)

/-- Anchored test with a trailing word boundary (`^(…)\b`). -/
def pTestRB (p : Pat) (s : Str) : Bool := (p s).any bdryR

/-- `shortActionRegex` (anchored, trailing `\b`). -/
def shortActionTest (t : Str) : Bool :=
  pTestRB (pAlt [pLit "add", pLit "import", pLit "see", pLit "view", pLit "get",
    pLit "try", pLit "start", pLit "create", pSeq3 (pLit "set") pWs0 (pLit "up"),
    pLit "install", pLit "connect"]) (lowerStr t)

/-- At least one ASCII letter. -/
def hasAlpha1 (t : Str) : Bool := t.any isAsciiAlpha

def featureListItems (items : List ListItem) (contentTop : ℚ) : List ListItem :=
  ((((((items.filter (fun i => 20 ≤ i.text.length && hasAlpha1 i.text)).filter
      (fun i => decide (contentTop ≤ i.top))).filter
      (fun i => !i.looksLikeLogo)).filter
      (fun i => !i.isLegal && !i.isNavLink && !i.inForm && !i.isJustLink)).filter
      (fun i => !actionHintTest i.text)).filter
      (fun i => !(i.wordCount < 5 && shortActionTest i.text))).filter
    (fun i =>
      if !i.listStyle.isEmpty && !(i.listStyle == str "none") then 4 ≤ i.wordCount
      else if !i.hasIcon then false
      else 5 ≤ i.wordCount)

/-- Virtual bullet detection over flex/grid containers. -/
def virtualBulletCount (doc : Doc) (vp : Viewport) (hb : ℚ) (bulletCount : Nat) :
    Nat :=
  if 2 ≤ bulletCount then 0
  else
    ((((docQuery doc (fun n => n.tagIs "div" || n.tagIs "section")).filter (fun c =>
        inHero hb c.node && isVisible c.node &&
          !inNavOrHeader (effViewportWidth vp) c)).filter (fun c =>
        (c.node.style.display == str "flex" || c.node.style.display == str "grid") &&
          3 ≤ c.node.children.length)).map (fun container =>
        let children := container.node.children.filter isVisible
        if children.length < 3 then 0
        else
          let featureChildren := children.filter (fun child =>
            let hasIcon := child.hasDesc (fun n =>
              n.tagIs "svg" || n.tagIs "img" || n.tagIs "i" ||
                containsSubCI (str "icon") n.className || (n.attr? "data-icon").isSome)
            hasIcon && 4 ≤ wordCount (cleanText child.innerText))
          if (3 : Nat) ≤ featureChildren.length then featureChildren.length else 0)).foldl
      Nat.max 0

/-! ### Media inventory (source lines 1238–1295) -/

structure MediaRec where
  node : Node
  rect : Rect
  area : ℚ

def mediaElements (doc : Doc) (hb : ℚ) : List MediaRec :=
  ((docQuery doc (fun n =>
    n.tagIs "img" || n.tagIs "video" || n.tagIs "svg" || n.tagIs "canvas" ||
      n.tagIs "figure")).filter (fun c => inHero hb c.node && isVisible c.node)).map
    (fun c => ⟨c.node, c.node.rect, qmul c.node.rect.width c.node.rect.height⟩)

/-- `mediaElements.sort((a, b) => b.area - a.area)` (in place, so the
sorted order is what the later image collection sees). -/
def sortedMedia (doc : Doc) (hb : ℚ) : List MediaRec :=
  (mediaElements doc hb) |> jsSort (fun a b => decide (b.area ≤ a.area))

def largestMedia (doc : Doc) (hb : ℚ) : Option MediaRec :=
  (sortedMedia doc hb).head?

structure HeroImage where
  tag : Str
  alt : Option Str
  width : ℤ
  height : ℤ
  posTop : ℤ
  posLeft : ℤ
deriving Repr, DecidableEq

/-- `el.alt || el.getAttribute("aria-label") || null` degradation. -/
def altOrAria (n : Node) : Option Str :=
  let alt := n.attrD "alt"
  if !alt.isEmpty then some alt
  else
    let aria := n.ariaLabel
    if !aria.isEmpty then some aria else none

def heroImages (doc : Doc) (hb : ℚ) : List HeroImage :=
  (((sortedMedia doc hb).filter (fun m => decide ((400 : ℚ) < m.area))).take 10).map
    (fun m =>
      ⟨lowerStr m.node.tagName, altOrAria m.node, qround m.rect.width,
        qround m.rect.height, qround m.rect.top, qround m.rect.left⟩)

/-- `/(dashboard|analytics|reporting|metrics|kpi|overview|insights)/i`. -/
def dashboardKeywordTest (t : Str) : Bool :=
  pSearch (pAltL ["dashboard", "analytics", "reporting", "metrics", "kpi",
    "overview", "insights"]) (lowerStr t)

/-- `/(dashboard|analytics|report|insight|ui|product|screenshot)/i`. -/
def productUiTest (t : Str) : Bool :=
  pSearch (pAltL ["dashboard", "analytics", "report", "insight", "ui",
    "product", "screenshot"]) (lowerStr t)

/-- `heroMediaType`: `"product-ui"` or null. -/
def heroMediaType (doc : Doc) (vp : Viewport) (hb : ℚ)
    (hasDashboardKeywords : Bool) : Option Str :=
  match largestMedia doc hb with
  | none => none
  | some m =>
    let tag := lowerStr m.node.tagName
    let source := m.node.attrD "src"
    let alt := m.node.attrD "alt"
    let looksLikeProductUi := productUiTest (source ++ (' ' :: alt))
    if decide (qmul (qmul (qmul (effViewportWidth vp) (mkRat 11 50))
          (effViewportHeight vp)) (mkRat 11 50) < m.area) &&
        (tag == str "img" || tag == str "video") &&
        (looksLikeProductUi || hasDashboardKeywords) then
      some (str "product-ui")
    else none

/-! ### Logo rows and social proof (source lines 1297–1425) -/

structure LogoCand where
  width : ℚ
  height : ℚ
  top : ℚ
  left : ℚ
  centerY : ℚ
  alt : Str
deriving Repr, DecidableEq

def tableLikeSel (n : Node) : Bool :=
  n.tagIs "table" || n.role == str "grid" || n.role == str "row" ||
    n.role == str "cell" || n.tagIs "tr" || n.tagIs "td" || n.tagIs "th"

/-- `/(icon|favicon)/i` on the (lowered) alt text. -/
def iconAltTest (t : Str) : Bool := pSearch (pAltL ["icon", "favicon"]) (lowerStr t)

def iconAltSvgTest (t : Str) : Bool :=
  pSearch (pAltL ["icon", "favicon", "arrow", "chevron", "check", "close",
    "menu", "hamburger"]) (lowerStr t)

def imgLogoCandidates (doc : Doc) (hb : ℚ) : List LogoCand :=
  ((((docQuery doc (fun n => n.tagIs "img")).filter (fun c =>
      if !(inHero hb c.node) || !(isVisible c.node) then false
      else if c.closestB tableLikeSel then false
      else true)).map (fun c =>
      ({ width := c.node.rect.width, height := c.node.rect.height,
         top := c.node.rect.top, left := c.node.rect.left,
         centerY := qadd c.node.rect.top (qdiv c.node.rect.height 2),
         alt := lowerStr (c.node.attrD "alt") } : LogoCand))).filter (fun img =>
      decide ((24 : ℚ) < img.width) && decide (img.width < 180) &&
        decide (img.height < 80) && !iconAltTest img.alt))

def svgLogoCandidates (doc : Doc) (vp : Viewport) (hb : ℚ) : List LogoCand :=
  ((((docQuery doc (fun n => n.tagIs "svg")).filter (fun c =>
      if !(inHero hb c.node) || !(isVisible c.node) then false
      else if inNavOrHeader (effViewportWidth vp) c then false
      else if c.closestB (fun n =>
          n.tagIs "button" || (n.tagIs "a" && (n.attr? "href").isSome) ||
            n.role == str "button") then false
      else if c.closestB (fun n =>
          n.tagIs "table" || n.role == str "grid" || n.role == str "row") then false
      else true)).map (fun c =>
      ({ width := c.node.rect.width, height := c.node.rect.height,
         top := c.node.rect.top, left := c.node.rect.left,
         centerY := qadd c.node.rect.top (qdiv c.node.rect.height 2),
         alt := lowerStr c.node.ariaLabel } : LogoCand))).filter (fun svg =>
      decide ((24 : ℚ) < svg.width) && decide (svg.width < 180) &&
        decide ((10 : ℚ) < svg.height) && decide (svg.height < 80) &&
        !iconAltSvgTest svg.alt))

def allLogoCandidates (doc : Doc) (vp : Viewport) (hb : ℚ) : List LogoCand :=
  imgLogoCandidates doc hb ++ svgLogoCandidates doc vp hb

/-- Cluster the centerY-sorted logos into rows anchored at each cluster's
first element (`Math.abs(sorted[j].centerY - rowY) < 25`). -/
def clusterLogoRowsF : Nat → List LogoCand → List (List LogoCand)
  | _, [] => []
  | 0, _ :: _ => []
  | fuel + 1, x :: rest =>
    let near := fun y : LogoCand => decide (qabs (qsub y.centerY x.centerY) < 25)
    (x :: rest.takeWhile near) :: clusterLogoRowsF fuel (rest.dropWhile near)

def clusterLogoRows (l : List LogoCand) : List (List LogoCand) :=
  clusterLogoRowsF l.length l

def rowSpread (row : List LogoCand) : ℚ :=
  match row.map LogoCand.left with
  | [] => 0
  | l :: ls => qsub (ls.foldl qmax l) (ls.foldl qmin l)

/-- `logoRowCount` from the clustering pass. -/
def logoRowCountClustered (doc : Doc) (vp : Viewport) (hb : ℚ) : Nat :=
  let cands := allLogoCandidates doc vp hb
  if cands.length < 3 then 0
  else
    ((clusterLogoRows (cands |> jsSort (fun a b => decide (a.centerY ≤ b.centerY)))).map
      (fun row =>
        if (3 : Nat) ≤ row.length && decide ((200 : ℚ) < rowSpread row) then row.length
        else 0)).foldl Nat.max 0

/-- The flex/grid logo-container fallback. -/
def logoRowCountOf (doc : Doc) (vp : Viewport) (hb : ℚ) : Nat :=
  let clustered := logoRowCountClustered doc vp hb
  if 3 ≤ clustered then clustered
  else
    (((docQuery doc (fun n => n.tagIs "div" || n.tagIs "section" || n.tagIs "ul")).filter
        (fun c =>
          if !(inHero hb c.node) || !(isVisible c.node) ||
              inNavOrHeader (effViewportWidth vp) c then false
          else
            (c.node.style.display == str "flex" &&
                !(c.node.style.flexDirection == str "column")) ||
              c.node.style.display == str "grid")).map (fun container =>
        let mediaChildren := container.node.children.filter (fun child =>
          if !(isVisible child) then false
          else
            let hasMedia := child.hasDesc (fun n => n.tagIs "img" || n.tagIs "svg") ||
              child.tagEq "IMG" || child.tagEq "svg"
            hasMedia && decide (child.rect.width < 200) &&
              decide (child.rect.height < 100))
        if (3 : Nat) ≤ mediaChildren.length then mediaChildren.length else 0)).foldl
      Nat.max clustered

def logoCountOf (doc : Doc) (vp : Viewport) (hb : ℚ) : Nat :=
  let rowCount := logoRowCountOf doc vp hb
  if 0 < rowCount then rowCount else (allLogoCandidates doc vp hb).length

/-- The social-proof text vocabulary. -/
def socialProofTextTest (t0 : Str) : Bool :=
  let t := lowerStr t0
  let audience := pAltL ["users", "teams", "companies", "businesses",
    "organizations", "brands", "developers", "customers"]
  let numRun := pSeq (pClass1 isDigitChar)
    (pMany0 (fun c => isDigitChar c || c = ',' || c = '.' || isWs c))
  pSearch (pAlt
    [pLit "trusted by", pLit "loved by", pLit "used by", pLit "chosen by",
     pLit "powering", pLit "backed by", pLit "as seen in", pLit "as seen on",
     pLit "featured in", pLit "featured on", pLit "customers include",
     pLit "partners include",
     pSeq3 (pLit "join") pWs1 (pClass1 isDigitChar),
     pSeq3 (pLit "rated") pWs1 (pClass1 isDigitChar),
     pSeq3 numRun (pOpt (pLit "+")) (pSeq pWs0 audience),
     pSeq4 (pAlt [pLit "over", pLit "more than"]) pWs1 numRun
       (pSeq pWs0 audience),
     pSeq4 pDigits1 (pSeq pWs0 (pOpt (pLit "+")))
       (pSeq pWs0 (pAltL ["customers", "teams", "companies"]))
       (pSeq pWs0 (pAltL ["trust", "use", "love", "rely"]))]) t

/-- `metricsVisible`: a currency amount, a short number, or a percent sign. -/
def metricsVisibleTest (t0 : Str) : Bool :=
  let t := lowerStr t0
  pSearch (pSeq3 (pLit "$") pWsOpt (pClass1 isDigitChar)) t ||
    searchB (pSeq3 (pClassUpTo isDigitChar 3)
      (pRep (pSeq (pClass1 (fun c => c = '.' || c = ','))
        (pSeq3 (pClass1 isDigitChar) (pClass1 isDigitChar) (pClass1 isDigitChar))))
      (pOpt (pAltL ["k", "m", "b"]))) true true t ||
    containsSub (str "%") t

/-! ### Color parsing and the dark-theme analyzer (source lines 1427–1649) -/

structure Rgba where
  r : ℚ
  g : ℚ
  b : ℚ
  a : ℚ
deriving Repr, DecidableEq

/-- Parse a digit run into a rational. -/
def digitsToQ (ds : Str) : ℚ :=
  Rat.divInt (ds.foldl (fun acc c => acc * 10 + (c.toNat - '0'.toNat : Int)) 0) 1

/-- `Number` on a `[\d.]+` token: `ddd[.ddd]`; a second dot yields NaN,
modelled as `none`. -/
def parseDecimalQ (t : Str) : Option ℚ :=
  let intPart := t.takeWhile isDigitChar
  match t.drop intPart.length with
  | [] => some (digitsToQ intPart)
  | '.' :: rest =>
    let frac := rest.takeWhile isDigitChar
    if (rest.drop frac.length).isEmpty then
      some (qadd (digitsToQ intPart)
        (qdiv (digitsToQ frac) (Rat.divInt ((10 : Int) ^ frac.length) 1)))
    else none
  | _ => none

/-- One attempt of `/rgba?\((\d+),\s*(\d+),\s*(\d+)(?:,\s*([\d.]+))?\s*\)/i`
anchored at the current position; `withClose` selects whether the closing
paren (and the optional alpha group) is required, distinguishing
`parseRgba` from the prefix-only `tMatch` regex of the dark-theme check. -/
def rgbaAt (withClose : Bool) (s : Str) : Option Rgba :=
  let step : Str → Option (ℚ × Str) := fun t =>
    let ds := t.takeWhile isDigitChar
    if ds.isEmpty then none else some (digitsToQ ds, t.drop ds.length)
  let comma : Str → Option Str := fun t =>
    match t with
    | ',' :: r => some (r.dropWhile isWs)
    | _ => none
  match lowerStr (s.take 5) with
  | l =>
    let afterTag : Option Str :=
      if (str "rgba(").isPrefixOf l then some (s.drop 5)
      else if (str "rgb(").isPrefixOf l then some (s.drop 4)
      else none
    match afterTag with
    | none => none
    | some t1 =>
      match step t1 with
      | none => none
      | some (r, t2) =>
        match comma t2 with
        | none => none
        | some t3 =>
          match step t3 with
          | none => none
          | some (g, t4) =>
            match comma t4 with
            | none => none
            | some t5 =>
              match step t5 with
              | none => none
              | some (b, t6) =>
                if !withClose then some ⟨r, g, b, 1⟩
                else
                  match t6 with
                  | ',' :: t7 =>
                    let t8 := t7.dropWhile isWs
                    let tok := t8.takeWhile (fun c => isDigitChar c || c = '.')
                    if tok.isEmpty then none
                    else
                      let rest := (t8.drop tok.length).dropWhile isWs
                      match rest, parseDecimalQ tok with
                      | ')' :: _, some a => some ⟨r, g, b, a⟩
                      | ')' :: _, none => some ⟨r, g, b, 0⟩
                      | _, _ => none
                  | _ =>
                    match t6.dropWhile isWs with
                    | ')' :: _ => some ⟨r, g, b, 1⟩
                    | _ => none

/-- Unanchored first match of the rgba pattern. -/
def parseRgba (s : Str) : Option Rgba :=
  go s
where
  go : Str → Option Rgba
    | [] => none
    | c :: rest =>
      match rgbaAt true (c :: rest) with
      | some v => some v
      | none => go rest

/-- The prefix-only `tMatch` pattern on the headline text color
(`/rgba?\((\d+),\s*(\d+),\s*(\d+)/i`). -/
def parseRgbTriple (s : Str) : Option Rgba :=
  go s
where
  go : Str → Option Rgba
    | [] => none
    | c :: rest =>
      match rgbaAt false (c :: rest) with
      | some v => some v
      | none => go rest

/-- `hue2rgb` from `parseHsla`. -/
def hue2rgb (p q t0 : ℚ) : ℚ :=
  let t := if t0 < 0 then qadd t0 1 else if 1 < t0 then qsub t0 1 else t0
  if t < mkRat 1 6 then qadd p (qmul (qmul (qsub q p) 6) t)
  else if t < mkRat 1 2 then q
  else if t < mkRat 2 3 then qadd p (qmul (qmul (qsub q p) 6) (qsub (mkRat 2 3) t))
  else p

/-- `parseHsla` on an `hsl(H, S%, L%[, A])`-shaped token (the engine feeds
every such token through `Number`; the model parses the common
comma-separated shape, degrading to `none` otherwise). -/
def parseHsla (s0 : Str) : Option Rgba :=
  let s := lowerStr s0
  let afterTag : Option Str :=
    if (str "hsla(").isPrefixOf s then some (s.drop 5)
    else if (str "hsl(").isPrefixOf s then some (s.drop 4)
    else none
  match afterTag with
  | none => none
  | some t1 =>
    let t1 := t1.dropWhile isWs
    let htok := t1.takeWhile (fun c => isDigitChar c || c = '.')
    match parseDecimalQ htok with
    | none => none
    | some hv =>
      let t2 := ((t1.drop htok.length).dropWhile (fun c => isWs c || c = ','))
      let stok := t2.takeWhile (fun c => isDigitChar c || c = '.')
      match parseDecimalQ stok with
      | none => none
      | some sv =>
        let t3 := (t2.drop stok.length).dropWhile (fun c => c = '%' || isWs c || c = ',')
        let ltok := t3.takeWhile (fun c => isDigitChar c || c = '.')
        match parseDecimalQ ltok with
        | none => none
        | some lv =>
          let t4 := (t3.drop ltok.length).dropWhile
            (fun c => c = '%' || isWs c || c = ',' || c = '/')
          let atok := t4.takeWhile (fun c => isDigitChar c || c = '.')
          let a :=
            if atok.isEmpty then (1 : ℚ)
            else
              match parseDecimalQ atok with
              | some av =>
                if (t4.drop atok.length).head? == some '%' then qdiv av 100 else av
              | none => 1
          let h := qdiv hv 360
          let sat := qdiv sv 100
          let l := qdiv lv 100
          if sat == 0 then
            some ⟨Rat.divInt (qround (qmul l 255)) 1,
              Rat.divInt (qround (qmul l 255)) 1,
              Rat.divInt (qround (qmul l 255)) 1, a⟩
          else
            let q := if l < mkRat 1 2 then qmul l (qadd 1 sat)
              else qsub (qadd l sat) (qmul l sat)
            let p := qsub (qmul 2 l) q
            some ⟨Rat.divInt (qround (qmul (hue2rgb p q (qadd h (mkRat 1 3))) 255)) 1,
              Rat.divInt (qround (qmul (hue2rgb p q h) 255)) 1,
              Rat.divInt (qround (qmul (hue2rgb p q (qsub h (mkRat 1 3))) 255)) 1, a⟩

/-- `parseColor`. -/
def parseColor (s : Str) : Option Rgba :=
  match parseRgba s with
  | some v => some v
  | none => parseHsla s

def isHexDigit (c : Char) : Bool :=
  isDigitChar c || (c ≥ 'a' && c ≤ 'f') || (c ≥ 'A' && c ≤ 'F')

def hexVal (c : Char) : Nat :=
  if isDigitChar c then c.toNat - '0'.toNat
  else if c ≥ 'a' && c ≤ 'f' then c.toNat - 'a'.toNat + 10
  else if c ≥ 'A' && c ≤ 'F' then c.toNat - 'A'.toNat + 10
  else 0

def hexPairQ (c1 c2 : Char) : ℚ := Rat.divInt (hexVal c1 * 16 + hexVal c2 : Nat) 1

/-- `parseAnyColor`: rgb/hsl first, then `#rgb` / `#rrggbb[..]`. -/
def parseAnyColor (s : Str) : Option Rgba :=
  match parseColor s with
  | some v => some v
  | none =>
    match s with
    | '#' :: hex =>
      if hex.length == 3 then
        match hex with
        | [c1, c2, c3] => some ⟨hexPairQ c1 c1, hexPairQ c2 c2, hexPairQ c3 c3, 1⟩
        | _ => none
      else if 6 ≤ hex.length then
        match hex.take 6 with
        | [c1, c2, c3, c4, c5, c6] =>
          some ⟨hexPairQ c1 c2, hexPairQ c3 c4, hexPairQ c5 c6, 1⟩
        | _ => none
      else none
    | _ => none

/-- The global `colorPattern` scan over a gradient string: rgb/hsl tokens
up to their closing paren, or 3–8 hex digits. -/
def gradientColorTokensF : Nat → Str → List Str
  | _, [] => []
  | 0, _ :: _ => []
  | fuel + 1, c :: rest =>
    let s := c :: rest
    let low := lowerStr (s.take 5)
    if (str "rgba(").isPrefixOf low || (str "rgb(").isPrefixOf low ||
        (str "hsla(").isPrefixOf low || (str "hsl(").isPrefixOf low then
      let inner := rest.takeWhile (fun ch => ch ≠ ')')
      if (rest.drop inner.length).head? == some ')' then
        (c :: (inner ++ [')'])) ::
          gradientColorTokensF fuel (rest.drop (inner.length + 1))
      else gradientColorTokensF fuel rest
    else if c = '#' then
      let hex := (rest.takeWhile isHexDigit).take 8
      if 3 ≤ hex.length then
        ('#' :: hex) :: gradientColorTokensF fuel (rest.drop hex.length)
      else gradientColorTokensF fuel rest
    else gradientColorTokensF fuel rest

def gradientColorTokens (s : Str) : List Str := gradientColorTokensF s.length s

/-- `gradientColors`. -/
def gradientColors (gradientStr : Str) : List Rgba :=
  (gradientColorTokens gradientStr).filterMap parseAnyColor

def firstGradientColor (gradientStr : Str) : Option Rgba :=
  (gradientColors gradientStr).head?

/-- The shared relative-luminance expression
`(0.2126 r + 0.7152 g + 0.0722 b) / 255`. -/
def luminance (r g b : ℚ) : ℚ :=
  qdiv (qadd (qadd (qmul (mkRat 2126 10000) r) (qmul (mkRat 7152 10000) g))
    (qmul (mkRat 722 10000) b)) 255

/-- JS truncating remainder (`%`). -/
def qremJS (a b : ℚ) : ℚ :=
  let t := if qdiv a b < 0 then -((-(qdiv a b)).floor) else (qdiv a b).floor
  qsub a (qmul b (Rat.divInt t 1))

/-- `classifyColor`. -/
def classifyColor (c : Rgba) : Option Str :=
  let maxC := qmax c.r (qmax c.g c.b)
  let minC := qmin c.r (qmin c.g c.b)
  let lum := luminance c.r c.g c.b
  if decide (maxC ≤ 35) && decide (qsub maxC minC ≤ 10) then some (str "black")
  else if decide (lum < mkRat 15 100) && decide (qsub maxC minC < 40) then
    some (str "dark")
  else if decide ((240 : ℚ) ≤ minC) then some (str "white")
  else if decide (mkRat 9 10 < lum) then some (str "off_white")
  else
    let delta := qsub maxC minC
    if delta < 20 then
      some (if decide (mkRat 1 2 < lum) then str "light_grey" else str "dark_grey")
    else
      let h0 : ℚ :=
        if maxC == c.r then qremJS (qdiv (qsub c.g c.b) delta) 6
        else if maxC == c.g then qadd (qdiv (qsub c.b c.r) delta) 2
        else qadd (qdiv (qsub c.r c.g) delta) 4
      let h1 := qround (qmul h0 60)
      let h := if h1 < 0 then h1 + 360 else h1
      let light := decide (mkRat 3 5 < lum)
      if h < 15 || 345 ≤ h then some (if light then str "light_red" else str "red")
      else if h < 35 then some (if light then str "peach" else str "orange")
      else if h < 65 then some (if light then str "light_yellow" else str "yellow")
      else if h < 160 then some (if light then str "light_green" else str "green")
      else if h < 200 then some (if light then str "light_cyan" else str "cyan")
      else if h < 260 then some (if light then str "light_blue" else str "blue")
      else if h < 290 then some (if light then str "light_purple" else str "purple")
      else if h < 345 then some (if light then str "pink" else str "magenta")
      else none

/-- `buildGradientTag`: classify stops, collapse consecutive duplicates,
keep 3, suffix `-gradient`. -/
def buildGradientTag (gradientStr : Str) : Option Str :=
  let colors := gradientColors gradientStr
  if colors.isEmpty then none
  else
    let names := colors.foldl (fun acc c =>
      match classifyColor c with
      | some name => if acc.getLast? == some name then acc else acc ++ [name]
      | none => acc) ([] : List Str)
    if names.isEmpty then none
    else
      some ((joinSp (names.take 3)).map (fun ch => if ch = ' ' then '-' else ch) ++
        str "-gradient")

structure DarkThemeResult where
  is_dark : Bool
  hero_bg : Option Str
  hero_bg_gradient : Option Str
  hero_bg_color_name : Option Str
  hero_bg_gradient_tag : Option Str
  hero_text_color : Option Str
  sampled_element : Option Str
deriving Repr, DecidableEq

def emptyDarkThemeResult : DarkThemeResult := ⟨false, none, none, none, none, none, none⟩

/-- The upward background walk: at most 10 elements are examined; the last
read background/image strings stick when the walk runs out. -/
def bgWalk : Nat → Option Ctx → Str → Str → (Str × Str × Option Ctx)
  | _, none, bg, im => (bg, im, none)
  | 0, some el, bg, im => (bg, im, some el)
  | fuel + 1, some el, _, _ =>
    let bg2 := el.node.style.backgroundColor
    let im2 := el.node.style.backgroundImage
    if (!bg2.isEmpty && !(bg2 == str "rgba(0, 0, 0, 0)")) ||
        (!im2.isEmpty && !(im2 == str "none")) then
      (bg2, im2, some el)
    else bgWalk fuel el.parentCtx? bg2 im2

/-- `/gradient/i.test(bgImage)`. -/
def gradientTest (t : Str) : Bool := containsSubCI (str "gradient") t

/-- The core dark-theme decision on a resolved background sample and the
headline's computed color string (source lines 1633–1645). -/
def darkDecision (bgColor : Rgba) (textColor : Str) : Bool :=
  if !(bgColor.a == 0) then
    let bgLum := luminance bgColor.r bgColor.g bgColor.b
    if bgLum < mkRat 1 5 then
      let t := (parseRgbTriple textColor).getD ⟨0, 0, 0, 1⟩
      decide (mkRat 7 10 < luminance t.r t.g t.b)
    else false
  else false

/-- `sampled_element` display string. -/
def sampledElementStr (el : Node) : Str :=
  lowerStr el.tagName ++
    (if !el.className.isEmpty then
      '.' :: ((splitChar ' ' el.className).headD [])
    else [])

/-- `darkThemeResult` (the sample point is resolved by the host's
`elementFromPoint`). -/
def darkThemeResult (hit : ℚ → ℚ → Option Ctx) (ph : HeadlinePhase) :
    DarkThemeResult :=
  match ph.headlineEl, headlineRectOf ph with
  | some hEl, some hr =>
    let sampleX := qmax 10 (qsub hr.left 30)
    let sampleY := qmax 10 (qadd hr.top (qdiv hr.height 2))
    match hit sampleX sampleY with
    | none => emptyDarkThemeResult
    | some el0 =>
      let (bg, bgImage, elStop) :=
        bgWalk 10 (some el0) (str "rgba(0, 0, 0, 0)") (str "none")
      let hasGradient := !bgImage.isEmpty && !(bgImage == str "none") &&
        gradientTest bgImage
      let textColor := hEl.node.style.color
      let bgColor? : Option Rgba :=
        match parseRgba bg with
        | some parsed =>
          if decide ((0 : ℚ) < parsed.a) then some parsed
          else if hasGradient then firstGradientColor bgImage else none
        | none => if hasGradient then firstGradientColor bgImage else none
      { is_dark :=
          match bgColor? with
          | some bgColor => darkDecision bgColor textColor
          | none => false,
        hero_bg := some bg,
        hero_bg_gradient := if hasGradient then some bgImage else none,
        hero_bg_color_name := bgColor?.bind classifyColor,
        hero_bg_gradient_tag := if hasGradient then buildGradientTag bgImage else none,
        hero_text_color := some textColor,
        sampled_element := elStop.map (fun e => sampledElementStr e.node) }
  | _, _ => emptyDarkThemeResult

/-! ### Assembly (source lines 1042–1091, 1151–1180, 1651–1741) -/

/-- `showcaseRegex`. -/
def showcaseTest (t0 : Str) : Bool :=
  searchB (pAlt [pLit "animate", pLit "animation", pLit "interactive",
    pLit "playground", pLit "demo", pLit "experiment", pLit "creative",
    pLit "motion", pLit "3d", pLit "webgl",
    pSeq3 (pLit "three") (pOpt (pLit ".")) (pLit "js"),
    pLit "canvas", pLit "generative", pLit "immersive", pLit "experience"])
    true true (lowerStr t0)

structure InteractiveDebug where
  has_text_input : Bool
  text_input_count : Nat
  has_audio_element : Bool
  audio_count : Nat
  has_play_button : Bool
  has_play_control : Bool
  play_control_candidates : Nat
  selectable_option_count : Nat
  has_selectable_list : Bool
  row_container_count : Nat
  has_selectable_list_from_rows : Bool
  has_selectable_list_from_items : Bool
  has_voice_language : Bool
  has_interactive_demo_base : Bool
  looks_like_audio_demo : Bool
  has_interactive_demo : Bool
deriving Repr, DecidableEq

/-- The clock/randomness environment: the extractor never reads it
(`Date`, `Math.random` and friends are absent from the source), which the
determinism theorem makes explicit. -/
structure Env where
  nowMillis : ℤ
  randomSeed : ℕ
deriving Repr, DecidableEq

structure Fingerprint where
  layout : Str
  alignment : Option Str
  hero_height_ratio : ℚ
  headline : Option Str
  subheadline : Option Str
  headline_word_count : Nat
  cta_count : Nat
  primary_cta_text : Option Str
  ctas : List Str
  cta_details : List CtaDetail
  has_form : Bool
  form_fields_count : Nat
  has_email_only : Bool
  has_password_field : Bool
  has_oauth : Bool
  grid_cards_in_fold : Nat
  has_filters : Bool
  detected_stack : List StackTag
  page_text : Str
  has_pricing_tokens : Bool
  has_promotion_signals : Bool
  has_promo_language : Bool
  has_transactional_cta : Bool
  has_price_display : Bool
  price_count : Nat
  has_countdown : Bool
  add_to_cart_count : Nat
  product_card_count : Nat
  has_category_nav : Bool
  has_discovery_language : Bool
  has_brand_campaign_language : Bool
  has_trust_signals : Bool
  trust_badge_count : Nat
  is_commerce_hero : Bool
  has_canvas : Bool
  has_webgl : Bool
  large_svg_count : Nat
  has_interactive_demo : Bool
  has_animation_stack : Bool
  has_showcase_language : Bool
  is_showcase_hero : Bool
  is_error_page : Bool
  error_page_reason : Option Str
  bullet_count : Nat
  feature_bullet_count : Nat
  has_feature_bullets : Bool
  total_lists_in_hero : Nat
  has_dashboard_preview : Bool
  has_dashboard_keywords : Bool
  has_social_proof : Bool
  logo_count : Nat
  left_copy_right_media : Bool
  dark_theme_hero : Bool
  hero_bg : Option Str
  hero_bg_gradient : Option Str
  hero_bg_color_name : Option Str
  hero_bg_gradient_tag : Option Str
  hero_text_color : Option Str
  hero_bg_sampled_from : Option Str
  hero_media_type : Option Str
  hero_images : List HeroImage
  hero_image_count : Nat
  metrics_visible : Bool
  is_copy_only : Bool
  interactive_debug : InteractiveDebug
  list_items_raw : List (Str × Nat)
deriving Repr, DecidableEq

/-- `extractFingerprint`: the whole pipeline, a pure function of the
document snapshot, the host globals/hit-testing capability and the
viewport.  The `Env` clock/randomness argument is never consulted. -/
def extractFingerprint (doc : Doc) (host : Host) (hit : ℚ → ℚ → Option Ctx)
    (vp : Viewport) (env : Env) : Fingerprint :=
  let vh := effViewportHeight vp
  let vw := effViewportWidth vp
  let hb := heroBottomOf doc vp
  let nodes := heroTextNodes doc vp hb
  let ph := headlinePhase doc vp hb
  let hr? := headlineRectOf ph
  let contentTop := contentTopOf ph
  let heroText := heroTextOf nodes contentTop
  let heroCtas := heroCtaCandidates doc vp hb hr?
  let ctas := ctasOf heroCtas
  let ctaNorms := ctas.map normalizeText
  let primaryCta : Option Str :=
    match heroCtas.head? with
    | some c => if !c.text.isEmpty then some c.text else none
    | none => none
  let subheadline := subheadlineOf doc vp hb ctaNorms ph
  let forms := formsOf doc vp hb
  let stack := detectedStackOf doc host
  let heroHeightRatio := qmin 1 (qdiv hb vh)
  let headSub : List Str :=
    (([ph.headline, subheadline].filterMap id).filter (fun t => !t.isEmpty))
  let pricingText := joinSp ((headSub ++ ctas).filter (fun t => !t.isEmpty))
  let hasPricingTokens := pricingTokensTest pricingText
  let allHeroText := heroText
  let hasPromoLanguage :=
    promoTest allHeroText || promoTest (joinSp headSub)
  let hasTransactionalCta := ctas.any transactionalCtaTest
  let hasPriceDisplay := priceTest allHeroText
  let priceCount := (priceElements doc hb).length
  let countdown := hasCountdown doc hb
  let hasPromotionSignals := hasPromoLanguage || (hasTransactionalCta && hasPriceDisplay)
  let a2cCount := addToCartCount doc hb
  let cardCount := productCardCount doc hb
  let commerce := 2 ≤ cardCount || (2 ≤ a2cCount && hasPriceDisplay)
  let canvas := hasCanvas doc hb
  let webgl := hasWebGL doc hb
  let svgCount := largeSvgCount doc hb
  let interactiveBase := hasInteractiveDemoBase doc
  let textInputs := heroTextInputs doc vh
  let hasTextInput := !textInputs.isEmpty
  let audios := heroAudioElements doc vh
  let hasAudio := !audios.isEmpty
  let playButton := hasPlayButton doc vh
  let playControls := playControlCandidates doc vh
  let playControl := playButton || !playControls.isEmpty
  let options := heroOptions doc vh
  let rows := rowContainers doc vp vh
  let selFromRows := hasSelectableListFromRows doc vp vh
  let selectable1 := decide (3 ≤ options.length) || selFromRows
  let voice := voiceTest allHeroText
  let audioDemo :=
    (hasTextInput && (selectable1 || voice || playControl || hasAudio)) ||
      (selectable1 && (playControl || hasAudio || voice)) ||
      (playControl && voice)
  let interactiveDemo1 := interactiveBase || audioDemo
  let animStack := stack.any (fun t =>
    ([StackTag.gsap, StackTag.lottie, StackTag.framerMotion, StackTag.three]).contains t)
  let showcaseLang := showcaseTest allHeroText
  let showcase := (animStack || canvas || webgl || interactiveDemo1) &&
    (ctas.length ≤ 1 || showcaseLang || interactiveDemo1)
  let pageTitle := doc.title
  let bodyText := doc.body.innerText.take 500
  let isErrorPage :=
    errorPageTest pageTitle || errorPageTest bodyText || errorPageTest allHeroText
  let errorReason : Option Str :=
    if isErrorPage then
      some (if botBlockTest (bodyText ++ pageTitle) then str "bot_blocked"
        else if notFoundTest (bodyText ++ pageTitle) then str "not_found"
        else if serverErrorTest (bodyText ++ pageTitle) then str "server_error"
        else str "unknown_error")
    else none
  let lists := listContainers doc vp hb
  let items := listItems doc vp hb
  let interItems := interactiveListItems items
  let selFromItems := decide (4 ≤ interItems.length)
  let selectable2 := selectable1 || selFromItems
  let interactiveDemo2 := interactiveDemo1 || (hasTextInput && (selFromItems || voice))
  let debug : InteractiveDebug :=
    { has_text_input := hasTextInput, text_input_count := textInputs.length,
      has_audio_element := hasAudio, audio_count := audios.length,
      has_play_button := playButton, has_play_control := playControl,
      play_control_candidates := playControls.length,
      selectable_option_count := options.length,
      has_selectable_list := selectable2, row_container_count := rows.length,
      has_selectable_list_from_rows := selFromRows,
      has_selectable_list_from_items := selFromItems,
      has_voice_language := voice, has_interactive_demo_base := interactiveBase,
      looks_like_audio_demo := audioDemo, has_interactive_demo := interactiveDemo2 }
  let features := featureListItems items contentTop
  let bulletCount := features.length
  let vBullets := virtualBulletCount doc vp hb bulletCount
  let totalBullets := bulletCount + vBullets
  let keywordText := joinSp headSub
  let dashKeywords := dashboardKeywordTest keywordText
  let mediaType := heroMediaType doc vp hb dashKeywords
  let dashPreview := mediaType == some (str "product-ui") && dashKeywords
  let logoCnt := logoCountOf doc vp hb
  let logoRows := logoRowCountOf doc vp hb
  let socialProof := socialProofTextTest heroText || decide (3 ≤ logoRows)
  let metrics := metricsVisibleTest heroText
  let layoutV := layoutOf doc vp hb
  let lcrm := layoutV == str "split" &&
    (match largestMedia doc hb with
      | some m => decide (qmul vw (mkRat 1 2) < m.rect.left)
      | none => false)
  let dtr := darkThemeResult hit ph
  let resolvedHeadline : Option Str :=
    if truthy ph.headline then ph.headline else ph.largestText
  let headlineWordCount :=
    if truthy resolvedHeadline then wordCount ((resolvedHeadline).getD []) else 0
  let copyOnly := truthy resolvedHeadline && decide (3 ≤ headlineWordCount) &&
    ctas.isEmpty && mediaType.isNone
  let rawItems :=
    ((features ++ items.filter (fun i =>
      !(features.contains i) && !i.looksLikeLogo && !i.isLegal && !i.isNavLink &&
        !i.isJustLink)).take 20).map (fun i => (i.text, i.wordCount))
  { layout := layoutV,
    alignment := alignmentOf ph.h1,
    hero_height_ratio := toFixed2 heroHeightRatio,
    headline := resolvedHeadline,
    subheadline := subheadline,
    headline_word_count := headlineWordCount,
    cta_count := ctas.length,
    primary_cta_text := primaryCta,
    ctas := ctas,
    cta_details := ctaDetailsOf heroCtas,
    has_form := !forms.isEmpty,
    form_fields_count := formFieldsCount forms,
    has_email_only := hasEmailOnly forms,
    has_password_field := hasPasswordField doc vp hb,
    has_oauth := hasOAuth doc hb,
    grid_cards_in_fold := maxGridChildren doc hb,
    has_filters := hasFilters doc,
    detected_stack := stack,
    page_text := heroText,
    has_pricing_tokens := hasPricingTokens,
    has_promotion_signals := hasPromotionSignals,
    has_promo_language := hasPromoLanguage,
    has_transactional_cta := hasTransactionalCta,
    has_price_display := hasPriceDisplay,
    price_count := priceCount,
    has_countdown := countdown,
    add_to_cart_count := a2cCount,
    product_card_count := cardCount,
    has_category_nav := hasCategoryNav doc vp hb,
    has_discovery_language := discoveryTest allHeroText,
    has_brand_campaign_language := brandCampaignTest allHeroText,
    has_trust_signals := trustTest allHeroText,
    trust_badge_count := trustBadgeCount doc hb,
    is_commerce_hero := commerce,
    has_canvas := canvas,
    has_webgl := webgl,
    large_svg_count := svgCount,
    has_interactive_demo := interactiveDemo2,
    has_animation_stack := animStack,
    has_showcase_language := showcaseLang,
    is_showcase_hero := showcase,
    is_error_page := isErrorPage,
    error_page_reason := errorReason,
    bullet_count := totalBullets,
    feature_bullet_count := totalBullets,
    has_feature_bullets := decide (2 ≤ totalBullets),
    total_lists_in_hero := lists.length,
    has_dashboard_preview := dashPreview,
    has_dashboard_keywords := dashKeywords,
    has_social_proof := socialProof,
    logo_count := logoCnt,
    left_copy_right_media := lcrm,
    dark_theme_hero := dtr.is_dark,
    hero_bg := dtr.hero_bg,
    hero_bg_gradient := dtr.hero_bg_gradient,
    hero_bg_color_name := dtr.hero_bg_color_name,
    hero_bg_gradient_tag := dtr.hero_bg_gradient_tag,
    hero_text_color := dtr.hero_text_color,
    hero_bg_sampled_from := dtr.sampled_element,
    hero_media_type := mediaType,
    hero_images := heroImages doc hb,
    hero_image_count := (heroImages doc hb).length,
    metrics_visible := metrics,
    is_copy_only := copyOnly,
    interactive_debug := debug,
    list_items_raw := rawItems }

/-! ## Concrete fixtures used by counterexamples and witnesses -/

/-- A bare element: tag, geometry, children; no attributes or text. -/
def el0 (tag : String) (r : Rect) (cs : List Node) : Node :=
  ⟨tag.toList, [], [], [], [], r, Style.base, false, .ofList cs⟩

/-- An element with direct text. -/
def elT (tag : String) (t : String) (r : Rect) (cs : List Node) : Node :=
  ⟨tag.toList, [], t.toList, [], [], r, Style.base, false, .ofList cs⟩

/-- An element with attributes and text. -/
def elA (tag : String) (attrs : List (String × String)) (t : String) (r : Rect)
    (cs : List Node) : Node :=
  ⟨tag.toList, attrs.map (fun p => (p.1.toList, p.2.toList)), t.toList, [], [],
    r, Style.base, false, .ofList cs⟩

def vpStd : Viewport := ⟨1440, 1000⟩

def hostNone : Host := ⟨false, false, false, false, false, false, false, false, false⟩

def hitNone : ℚ → ℚ → Option Ctx := fun _ _ => none

def envZero : Env := ⟨0, 0⟩

def envOther : Env := ⟨123456789, 42⟩

/-! ## C1 — the hero boundary -/

/--
Modelled from the claim's words (C1): the maximum bottom edge over all
top-level sections whose top edge is strictly below `1.15 × viewportHeight`
and whose bottom edge is positive, capped at `1.15 × viewportHeight`;
`viewportHeight` when no section qualifies.
-/
def claimedHeroBottom (vh : ℚ) (sections : List SectionRec) : ℚ :=
  let cap := qmul vh (mkRat 23 20)
  let qualifying := sections.filter (fun s =>
    decide (s.top < cap) && decide ((0 : ℚ) < s.bottom))
  match qualifying.map SectionRec.bottom with
  | [] => vh
  | b :: bs => qmin cap (bs.foldl qmax b)

/-- The boundary the code actually computes, in closed form: only the
sections before the first positive-bottom section starting at or past the
cap are consulted (the loop `break`s there), and the maximum is clamped
below by the viewport height. -/
def amendedHeroBottom (vh : ℚ) (sections : List SectionRec) : ℚ :=
  let cap := qmul vh (mkRat 23 20)
  qmin cap
    ((((sections.filter (fun s => decide ((0 : ℚ) < s.bottom))).takeWhile
        (fun s => decide (s.top < cap))).map SectionRec.bottom).foldl qmax vh)

/-- A section starting exactly at the cap, before a fully-visible section. -/
def docBreakFirst : Doc :=
  ⟨[], [], el0 "BODY" ⟨0, 0, 1440, 2000⟩
    [el0 "SECTION" ⟨1150, 0, 1440, 50⟩ [], el0 "SECTION" ⟨0, 0, 1440, 1050⟩ [],
     el0 "DIV" ⟨0, 0, 1, 1⟩ [], el0 "DIV" ⟨0, 0, 1, 1⟩ []]⟩

/-- The same two sections in the other order. -/
def docBreakLast : Doc :=
  ⟨[], [], el0 "BODY" ⟨0, 0, 1440, 2000⟩
    [el0 "SECTION" ⟨0, 0, 1440, 1050⟩ [], el0 "SECTION" ⟨1150, 0, 1440, 50⟩ [],
     el0 "DIV" ⟨0, 0, 1, 1⟩ [], el0 "DIV" ⟨0, 0, 1, 1⟩ []]⟩

/-- C1 counterexample: with a section starting exactly at the cap ahead of
a qualifying section, the loop breaks and returns the default 1000, while
the claim's maximum is 1050; the same sections in the other order give
1050, refuting order-independence. -/
theorem C1_counterexample :
    heroBottomOf docBreakFirst vpStd = 1000 ∧
      claimedHeroBottom (effViewportHeight vpStd)
        (sectionsOf (heroSections docBreakFirst vpStd)) = 1050 ∧
      heroBottomOf docBreakLast vpStd = 1050 ∧
      (sectionsOf (heroSections docBreakLast vpStd)).Perm
        (sectionsOf (heroSections docBreakFirst vpStd)) := by
  decide

theorem qmin_le_left (a b : ℚ) : qmin a b ≤ a := by
  rw [qmin_eq]
  exact min_le_left a b

theorem qmin_eq_right {a b : ℚ} (h : b ≤ a) : qmin a b = b := by
  rw [qmin_eq]
  exact min_eq_right h

/-- Clamping congruence: arguments equal below the cap stay equal below
the cap through a running maximum. -/
theorem min_foldl_max_congr (c : ℚ) :
    ∀ (m : List ℚ) (a a' : ℚ), min c a = min c a' →
      min c (m.foldl max a) = min c (m.foldl max a') := by
  intro m
  induction m with
  | nil =>
    intro a a' h
    simpa using h
  | cons b bs ih =>
    intro a a' h
    simp only [List.foldl_cons]
    apply ih
    rcases le_total a c with hac | hac
    · rcases le_total a' c with hac' | hac'
      · have haa : a = a' := by
          rw [min_eq_right hac, min_eq_right hac'] at h
          exact h
        rw [haa]
      · have ha : a = c := by
          rw [min_eq_right hac, min_eq_left hac'] at h
          exact h
        subst ha
        rw [min_eq_left (le_max_left a b),
          min_eq_left (le_trans hac' (le_max_left a' b))]
    · rcases le_total a' c with hac' | hac'
      · have ha : a' = c := by
          rw [min_eq_left hac, min_eq_right hac'] at h
          exact h.symm
        subst ha
        rw [min_eq_left (le_max_left a' b),
          min_eq_left (le_trans hac (le_max_left a b))]
      · rw [min_eq_left (le_trans hac (le_max_left a b)),
          min_eq_left (le_trans hac' (le_max_left a' b))]

theorem min_foldl_max_absorb (c : ℚ) (m : List ℚ) (x : ℚ) :
    min c (m.foldl max (min c x)) = min c (m.foldl max x) :=
  min_foldl_max_congr c m _ _ (by rw [← min_assoc, min_self])

theorem qmax_as_max : qmax = (max : ℚ → ℚ → ℚ) :=
  funext fun a => funext fun b => qmax_eq a b

/-- The loop in closed form, for any accumulator below the cap. -/
theorem heroBottomLoop_closed (cap : ℚ) (l : List SectionRec) :
    ∀ h : ℚ, h ≤ cap →
      heroBottomLoop cap h l =
        qmin cap
          ((((l.filter (fun s => decide ((0 : ℚ) < s.bottom))).takeWhile
              (fun s => decide (s.top < cap))).map SectionRec.bottom).foldl qmax h) := by
  induction l with
  | nil =>
    intro h hh
    rw [heroBottomLoop]
    simp only [List.filter_nil, List.takeWhile_nil, List.map_nil, List.foldl_nil]
    exact (qmin_eq_right hh).symm
  | cons s rest ih =>
    intro h hh
    by_cases hbot : s.bottom ≤ 0
    · have hnot : ¬((0 : ℚ) < s.bottom) := not_lt.mpr hbot
      rw [heroBottomLoop, if_pos hbot, ih h hh]
      simp [List.filter_cons, decide_eq_false hnot]
    · have hpos : (0 : ℚ) < s.bottom := lt_of_not_ge hbot
      by_cases htop : cap ≤ s.top
      · have hnotlt : ¬(s.top < cap) := not_lt.mpr htop
        rw [heroBottomLoop, if_neg hbot, if_pos htop]
        simp only [List.filter_cons, decide_eq_true hpos, if_pos rfl, if_true,
          List.takeWhile_cons, decide_eq_false hnotlt, Bool.false_eq_true,
          if_false, List.map_nil, List.foldl_nil]
        exact (qmin_eq_right hh).symm
      · have hlt : s.top < cap := lt_of_not_ge htop
        rw [heroBottomLoop, if_neg hbot, if_neg htop,
          ih _ (qmin_le_left cap (qmax h s.bottom))]
        simp only [List.filter_cons, decide_eq_true hpos, if_pos rfl, if_true,
          List.takeWhile_cons, decide_eq_true hlt, List.map_cons,
          List.foldl_cons]
        rw [qmin_eq, qmin_eq, qmax_as_max, qmin_eq]
        exact min_foldl_max_absorb cap _ (max h s.bottom)

/-- C1 (amended): for a nonnegative viewport height, `heroBottom` is the
cap-capped, viewport-floored maximum bottom edge over the qualifying
sections that precede the first positive-bottom section starting at or
past the cap (the scan stops there, so the result depends on the order). -/
theorem C1_amended (doc : Doc) (vp : Viewport)
    (hvp : 0 ≤ effViewportHeight vp) :
    heroBottomOf doc vp =
      amendedHeroBottom (effViewportHeight vp) (sectionsOf (heroSections doc vp)) := by
  have h2320 : (mkRat 23 20 : ℚ) = 23 / 20 := by
    rw [Rat.mkRat_eq_divInt, Rat.divInt_eq_div]
    norm_num
  have hcap : effViewportHeight vp ≤ qmul (effViewportHeight vp) (mkRat 23 20) := by
    rw [qmul_eq, h2320]
    nlinarith [hvp]
  rw [heroBottomOf, amendedHeroBottom, heroMaxBottom]
  exact heroBottomLoop_closed _ _ _ hcap

theorem C1_amended_witness :
    (0 : ℚ) ≤ effViewportHeight vpStd ∧
      heroBottomOf docBreakFirst vpStd =
        amendedHeroBottom (effViewportHeight vpStd)
          (sectionsOf (heroSections docBreakFirst vpStd)) :=
  ⟨by decide, C1_amended docBreakFirst vpStd (by decide)⟩

/-! ## C10 — `hero_height_ratio` is constant 1 -/

/-- The loop never drops below its initial accumulator. -/
theorem heroBottomLoop_ge (cap : ℚ) (l : List SectionRec) :
    ∀ h : ℚ, h ≤ cap → h ≤ heroBottomLoop cap h l := by
  induction l with
  | nil =>
    intro h _
    rw [heroBottomLoop]
  | cons s rest ih =>
    intro h hh
    rw [heroBottomLoop]
    by_cases hbot : s.bottom ≤ 0
    · rw [if_pos hbot]
      exact ih h hh
    · rw [if_neg hbot]
      by_cases htop : cap ≤ s.top
      · rw [if_pos htop]
      · rw [if_neg htop]
        refine le_trans ?_ (ih _ (qmin_le_left _ _))
        rw [qmin_eq, qmax_eq]
        exact le_min hh (le_max_left h s.bottom)

/-- C10: with a positive viewport height the returned `hero_height_ratio`
is exactly 1 — `heroBottom` starts at the viewport height and only grows,
so `min(1, heroBottom/viewportHeight)` carries no information. -/
theorem C10_hero_height_ratio_constant (doc : Doc) (host : Host)
    (hit : ℚ → ℚ → Option Ctx) (vp : Viewport) (env : Env)
    (hvp : 0 < effViewportHeight vp) :
    (extractFingerprint doc host hit vp env).hero_height_ratio = 1 := by
  have hfield :
      (extractFingerprint doc host hit vp env).hero_height_ratio =
        toFixed2 (qmin 1 (qdiv (heroBottomOf doc vp) (effViewportHeight vp))) := rfl
  rw [hfield]
  have h2320 : (mkRat 23 20 : ℚ) = 23 / 20 := by
    rw [Rat.mkRat_eq_divInt, Rat.divInt_eq_div]
    norm_num
  have hcap : effViewportHeight vp ≤ qmul (effViewportHeight vp) (mkRat 23 20) := by
    rw [qmul_eq, h2320]
    nlinarith [le_of_lt hvp]
  have hge : effViewportHeight vp ≤ heroBottomOf doc vp :=
    heroBottomLoop_ge _ _ _ hcap
  have hratio : (1 : ℚ) ≤ qdiv (heroBottomOf doc vp) (effViewportHeight vp) := by
    rw [qdiv_eq, le_div_iff₀ hvp]
    simpa using hge
  have hmin : qmin 1 (qdiv (heroBottomOf doc vp) (effViewportHeight vp)) = 1 := by
    rw [qmin_eq]
    exact min_eq_left hratio
  rw [hmin]
  decide

theorem C10_witness :
    (0 : ℚ) < effViewportHeight vpStd ∧
      (extractFingerprint docBreakFirst hostNone hitNone vpStd envZero).hero_height_ratio = 1 :=
  ⟨by decide, C10_hero_height_ratio_constant docBreakFirst hostNone hitNone vpStd envZero (by decide)⟩

/-! ## C2 — the CTA positional filter -/

/--
Modelled from the claim's words (C2): with a headline box, keep a
candidate iff its top lies in `[headlineTop − 40, headlineBottom + 420]`,
except that candidates in the bottom 20% of the viewport are excluded
unless close to the headline; with no headline box, keep everything.
-/
def claimedHeroCtaKeep (vh : ℚ) (hr : Option Rect) (c : CtaCand) : Bool :=
  match hr with
  | none => true
  | some r =>
    (decide (qsub r.top 40 ≤ c.top) && decide (c.top ≤ qadd r.bottom 420)) &&
      !(decide (qmul vh (mkRat 4 5) < c.top) && decide (qadd r.bottom 420 < c.top))

def ctaTop100 : CtaCand := ⟨str "Get started", 100, 10, 2000, true⟩

/-- C2 counterexample: with no headline box, a surviving candidate whose
top edge is 100 is dropped by the code (`c.top < 120`) but kept by the
claim. -/
theorem C2_counterexample :
    heroCtaFilter (effViewportHeight vpStd) none ctaTop100 = false ∧
      claimedHeroCtaKeep (effViewportHeight vpStd) none ctaTop100 = true := by
  decide

/-- C2 (amended): a candidate that survived the noise filters is kept iff
its top edge is at least 120 and, when a headline box exists, lies within
`[headlineTop − 40, headlineBottom + 420]`; the bottom-20% exception is
subsumed by the upper band bound, and with no headline box every
candidate with top at least 120 is kept. -/
theorem C2_amended (vh : ℚ) (hr : Option Rect) (c : CtaCand) :
    heroCtaFilter vh hr c =
      (!decide (c.top < 120) &&
        match hr with
        | none => true
        | some r =>
          decide (qsub r.top 40 ≤ c.top) && decide (c.top ≤ qadd r.bottom 420)) := by
  rw [heroCtaFilter.eq_def]
  by_cases h120 : c.top < 120
  · simp [h120]
  · simp only [if_neg h120, decide_eq_false h120, Bool.not_false, Bool.true_and]
    match hr with
    | none => rfl
    | some r =>
      by_cases hfar : qadd r.bottom 420 < c.top
      · by_cases h20 : qmul vh (mkRat 4 5) < c.top
        · simp [h20, hfar, not_le.mpr hfar]
        · simp [h20, hfar, not_le.mpr hfar]
      · simp [hfar]

/-! ## C4 — the dark-theme decision -/

/-- The luminance of the regex-resolved headline text color
(source lines 1638–1642: an unparseable color resolves to black). -/
def resolvedTextLuminance (textColor : Str) : ℚ :=
  let t := (parseRgbTriple textColor).getD ⟨0, 0, 0, 1⟩
  luminance t.r t.g t.b

/-- C4: for a background sample with nonzero alpha, `dark_theme_hero`
holds iff the background luminance is strictly below 0.2 and the resolved
headline text luminance is strictly above 0.7; `rgb(10,10,20)` on white
text is dark, and the swapped pair is not. -/
theorem C4_dark_theme (bg : Rgba) (textColor : Str) (ha : ¬(bg.a = 0)) :
    (darkDecision bg textColor = true ↔
      (luminance bg.r bg.g bg.b < mkRat 1 5 ∧
        mkRat 7 10 < resolvedTextLuminance textColor)) ∧
      darkDecision ⟨10, 10, 20, 1⟩ (str "rgb(255, 255, 255)") = true ∧
      darkDecision ⟨255, 255, 255, 1⟩ (str "rgb(10, 10, 20)") = false := by
  refine ⟨?_, by decide, by decide⟩
  have hbeq : (bg.a == 0) = false := by
    simpa using ha
  rw [darkDecision, resolvedTextLuminance, hbeq]
  by_cases hlum : luminance bg.r bg.g bg.b < mkRat 1 5
  · simp [hlum]
  · simp [hlum]

theorem C4_witness :
    ¬(((⟨10, 10, 20, 1⟩ : Rgba)).a = 0) ∧
      ((darkDecision ⟨10, 10, 20, 1⟩ (str "rgb(255, 255, 255)") = true ↔
          (luminance (⟨10, 10, 20, 1⟩ : Rgba).r (⟨10, 10, 20, 1⟩ : Rgba).g
              (⟨10, 10, 20, 1⟩ : Rgba).b < mkRat 1 5 ∧
            mkRat 7 10 < resolvedTextLuminance (str "rgb(255, 255, 255)"))) ∧
        darkDecision ⟨10, 10, 20, 1⟩ (str "rgb(255, 255, 255)") = true ∧
        darkDecision ⟨255, 255, 255, 1⟩ (str "rgb(10, 10, 20)") = false) :=
  ⟨by decide, C4_dark_theme ⟨10, 10, 20, 1⟩ (str "rgb(255, 255, 255)") (by decide)⟩

/-! ## C7 — stack tag suppression and uniqueness -/

/-- An ordered rule list evaluated into a tag list (proof scaffolding for
`buildDetectedStack`). -/
def stackFromRules : List (Bool × StackTag) → List StackTag
  | [] => []
  | (b, t) :: rest => (if b then [t] else []) ++ stackFromRules rest

theorem stackFromRules_sublist (r : List (Bool × StackTag)) :
    List.Sublist (stackFromRules r) (r.map Prod.snd) := by
  induction r with
  | nil => simp [stackFromRules]
  | cons p rest ih =>
    match p with
    | (b, t) =>
      by_cases hb : b
      · simpa [stackFromRules, hb] using List.Sublist.cons₂ t ih
      · simp only [stackFromRules, hb, if_false, List.nil_append, List.map_cons]
        exact ih.trans (List.sublist_cons_self t (rest.map Prod.snd))

theorem mem_stackFromRules (x : StackTag) (b : Bool) (t : StackTag)
    (r : List (Bool × StackTag)) :
    x ∈ stackFromRules ((b, t) :: r) ↔ (b = true ∧ x = t) ∨ x ∈ stackFromRules r := by
  by_cases hb : b
  · simp [stackFromRules, hb]
  · simp [stackFromRules, hb]

/-- The de-sugared rule table of `buildDetectedStack` — each
`detectedStack.includes` guard replaced by the signal that put the tag
there. -/
def stackRules (sig : StackSignals) : List (Bool × StackTag) :=
  [(sig.hasNext, .nextjs), (sig.webflow, .webflow), (sig.framer, .framer),
   (sig.gatsby, .gatsby), (sig.nuxt, .nuxt), (sig.remix, .remix),
   (sig.astro, .astro), (sig.hugo, .hugo), (sig.sveltekit, .sveltekit),
   (sig.wordpress, .wordpress), (sig.shopify, .shopify), (sig.wix, .wix),
   (sig.squarespace, .squarespace), (sig.vitepress, .vitepress),
   (!sig.nuxt && !sig.vitepress && sig.vueMarkers, .vue),
   (!sig.hasNext && !sig.gatsby && !sig.remix && sig.reactMarkers, .react),
   (sig.angular, .angular), (sig.tailwind, .tailwind),
   (sig.bootstrap, .bootstrap), (sig.materialUi, .materialUi),
   (sig.chakraUi, .chakraUi), (sig.radix, .radix), (sig.antDesign, .antDesign),
   (sig.emotion, .emotion), (sig.styledComponents, .styledComponents),
   (sig.cssModules, .cssModules), (sig.vercel, .vercel), (sig.netlify, .netlify),
   (sig.cloudflare, .cloudflare), (sig.awsAmplify, .awsAmplify),
   (sig.gsap, .gsap), (sig.lottie, .lottie),
   (!sig.framer && sig.framerMotionMarkers, .framerMotion)]

theorem contains_pushIf (l : List StackTag) (b : Bool) (t x : StackTag) :
    (pushIf l b t).contains x = (l.contains x || (b && (x == t))) := by
  by_cases hb : b
  · simp only [pushIf, hb, if_true]
    simp [List.contains, List.elem_eq_mem, List.mem_append]
    rw [show (x == t) = decide (x = t) from rfl]
  · simp [pushIf, hb]

theorem pushIf_append (l : List StackTag) (b : Bool) (t : StackTag) :
    pushIf l b t = l ++ (if b then [t] else []) := by
  by_cases hb : b
  · simp [pushIf, hb]
  · simp [pushIf, hb]

set_option maxHeartbeats 2000000 in
/-- The faithful accumulator equals the de-sugared rule table. -/
theorem buildDetectedStack_eq_rules (sig : StackSignals) :
    buildDetectedStack sig = stackFromRules (stackRules sig) := by
  simp only [buildDetectedStack, stackRules, stackFromRules, pushIf_append,
    contains_pushIf, List.contains_nil, List.nil_append, List.append_assoc,
    List.append_nil, Bool.false_or, Bool.or_false, Bool.false_and,
    Bool.and_false, Bool.and_true, Bool.true_and]
  simp

/-- C7: the detected stack never pairs `react` with `nextjs`/`gatsby`/
`remix`, never pairs `vue` with `nuxt`/`vitepress`, and holds no
duplicate tags. -/
theorem C7_stack_suppression (sig : StackSignals) :
    ¬(StackTag.react ∈ buildDetectedStack sig ∧
        (StackTag.nextjs ∈ buildDetectedStack sig ∨
          StackTag.gatsby ∈ buildDetectedStack sig ∨
          StackTag.remix ∈ buildDetectedStack sig)) ∧
      ¬(StackTag.vue ∈ buildDetectedStack sig ∧
        (StackTag.nuxt ∈ buildDetectedStack sig ∨
          StackTag.vitepress ∈ buildDetectedStack sig)) ∧
      (buildDetectedStack sig).Nodup := by
  rw [buildDetectedStack_eq_rules]
  refine ⟨?_, ?_, ?_⟩
  · simp only [stackRules, mem_stackFromRules, stackFromRules, List.not_mem_nil]
    simp
    tauto
  · simp only [stackRules, mem_stackFromRules, stackFromRules, List.not_mem_nil]
    simp
    tauto
  · refine List.Nodup.sublist (stackFromRules_sublist (stackRules sig)) ?_
    have : (stackRules sig).map Prod.snd =
        [.nextjs, .webflow, .framer, .gatsby, .nuxt, .remix, .astro, .hugo,
         .sveltekit, .wordpress, .shopify, .wix, .squarespace, .vitepress, .vue,
         .react, .angular, .tailwind, .bootstrap, .materialUi, .chakraUi,
         .radix, .antDesign, .emotion, .styledComponents, .cssModules, .vercel,
         .netlify, .cloudflare, .awsAmplify, .gsap, .lottie, .framerMotion] := by
      simp [stackRules]
    rw [this]
    decide

/-! ## C9 — determinism -/

/-- C9: extraction is a pure function of the captured (tree, host,
viewport) snapshot: the clock/randomness environment is never consulted,
so two runs over the same snapshot agree in every field. -/
theorem C9_deterministic (doc : Doc) (host : Host) (hit : ℚ → ℚ → Option Ctx)
    (vp : Viewport) (e1 e2 : Env) :
    extractFingerprint doc host hit vp e1 = extractFingerprint doc host hit vp e2 := rfl

/-! ## C3 — product cards and the commerce flag -/

/-- Modelled from the claim's words (C3): an element counts as a product
card as soon as it contains an image and a price string and its text stays
under 300 characters — with no requirement on its class or data
attributes. -/
def claimedProductCard (n : Node) : Bool :=
  n.hasDesc (fun d => d.tagIs "img") && priceTest (jsTrim n.innerText) &&
    decide ((jsTrim n.innerText).length < 300)

def cardPlain (x : ℚ) (price : String) : Node :=
  elT "DIV" price ⟨200, x, 200, 250⟩ [el0 "IMG" ⟨210, x, 180, 120⟩ []]

def cardsPlain : List Node := [cardPlain 100 "$5", cardPlain 320 "$6", cardPlain 540 "$7"]

/-- Three plain image-plus-price tiles with no card-like class or data
attribute. -/
def docPlain : Doc := ⟨[], [], el0 "BODY" ⟨0, 0, 1440, 2000⟩ cardsPlain⟩

def cardClassed (x : ℚ) (price : String) : Node :=
  elA "DIV" [("class", "product-card")] price ⟨200, x, 200, 250⟩
    [el0 "IMG" ⟨210, x, 180, 120⟩ []]

def cardsClassed : List Node :=
  [cardClassed 100 "$5", cardClassed 320 "$6", cardClassed 540 "$7"]

/-- The same three tiles, now carrying a catalog class. -/
def docClassed : Doc := ⟨[], [], el0 "BODY" ⟨0, 0, 1440, 2000⟩ cardsClassed⟩

/-- C3 (counterexample): a hero made of three visible image-plus-price
tiles, each matching the claim's notion of a product card, still yields
`product_card_count = 0` and `is_commerce_hero = false`, because the
counter only examines elements matched by the card selector catalog
(class containing product / item-card / sku / card, or a data-product /
data-sku / data-item attribute). -/
theorem C3_counterexample :
    (cardsPlain.all (fun n =>
      claimedProductCard n && isVisible n &&
        inHero (heroBottomOf docPlain vpStd) n) = true) ∧
    docPlain.body.children = cardsPlain ∧
    (extractFingerprint docPlain hostNone hitNone vpStd envZero).add_to_cart_count = 0 ∧
    (extractFingerprint docPlain hostNone hitNone vpStd envZero).product_card_count = 0 ∧
    (extractFingerprint docPlain hostNone hitNone vpStd envZero).is_commerce_hero = false :=
  ⟨by decide, by decide, by decide, by decide, by decide⟩

set_option maxHeartbeats 4000000 in
/-- C3 (amended): the commerce equation itself — commerce ⇔ at least two
counted product cards, or at least two add-to-cart buttons together with a
displayed price — holds for every input; and the concrete three-card
scenario does produce `product_card_count = 3` and `is_commerce_hero =
true` with zero add-to-cart buttons once the tiles carry a catalog class. -/
theorem C3_amended (doc : Doc) (host : Host) (hit : ℚ → ℚ → Option Ctx)
    (vp : Viewport) (env : Env) :
    ((extractFingerprint doc host hit vp env).is_commerce_hero =
      (decide (2 ≤ (extractFingerprint doc host hit vp env).product_card_count) ||
        (decide (2 ≤ (extractFingerprint doc host hit vp env).add_to_cart_count) &&
          (extractFingerprint doc host hit vp env).has_price_display))) ∧
    (extractFingerprint docClassed hostNone hitNone vpStd envZero).product_card_count = 3 ∧
    (extractFingerprint docClassed hostNone hitNone vpStd envZero).add_to_cart_count = 0 ∧
    (extractFingerprint docClassed hostNone hitNone vpStd envZero).is_commerce_hero = true :=
  ⟨rfl, by decide, by decide, by decide⟩

/-! ## C6 — headline truncation and the overlong discard -/

def noWsHead : Str → Bool
  | [] => true
  | c :: _ => !isWs c

def noWsLast : Str → Bool
  | [] => true
  | [c] => !isWs c
  | _ :: c :: r => noWsLast (c :: r)

def noDoubleWs : Str → Bool
  | [] => true
  | [_] => true
  | a :: b :: r => !(isWs a && isWs b) && noDoubleWs (b :: r)

/-- Whitespace-normal text: starts and ends on non-whitespace with no two
adjacent whitespace characters — the form `cleanText` produces, hence the
form every candidate text has when it reaches `truncateHeadline`. -/
def NormalizedText (t : Str) : Prop :=
  noWsHead t = true ∧ noDoubleWs t = true ∧ noWsLast t = true

instance (t : Str) : Decidable (NormalizedText t) :=
  decidable_of_iff (noWsHead t = true ∧ noDoubleWs t = true ∧ noWsLast t = true) Iff.rfl

/-- Modelled from the claim's words (C6): text of at most 30 words comes
back unchanged; longer text maps to its first sentence when that sentence
is at most 30 words, otherwise to its first 15 words. -/
def claimedTruncate (t : Str) : Str :=
  if wordCount t ≤ 30 then t
  else
    match firstSentence t with
    | some sen => if wordCount sen ≤ 30 then sen else joinSp ((jsWords t).take 15)
    | none => joinSp ((jsWords t).take 15)

theorem noWsLast_concat (xs : Str) (c : Char) : noWsLast (xs ++ [c]) = !isWs c := by
  induction xs with
  | nil => rfl
  | cons a xs2 ih =>
    cases xs2 with
    | nil => rfl
    | cons b xs3 =>
      rw [List.cons_append, List.cons_append]
      simp only [noWsLast]
      rw [← List.cons_append]
      exact ih

theorem noDoubleWs_tail (a : Char) (l : Str) (h : noDoubleWs (a :: l) = true) :
    noDoubleWs l = true := by
  cases l with
  | nil => rfl
  | cons b r =>
    simp only [noDoubleWs, Bool.and_eq_true] at h
    exact h.2

theorem noDoubleWs_append_left (xs ys : Str) (h : noDoubleWs (xs ++ ys) = true) :
    noDoubleWs xs = true := by
  induction xs with
  | nil => rfl
  | cons a xs2 ih =>
    cases xs2 with
    | nil => rfl
    | cons b xs3 =>
      rw [List.cons_append, List.cons_append] at h
      simp only [noDoubleWs, Bool.and_eq_true] at h
      simp only [noDoubleWs, Bool.and_eq_true]
      refine ⟨h.1, ?_⟩
      exact ih (by rw [List.cons_append]; exact h.2)

theorem noDoubleWs_concat (xs : Str) (c : Char) (hc : isWs c = false)
    (h : noDoubleWs xs = true) : noDoubleWs (xs ++ [c]) = true := by
  induction xs with
  | nil => rfl
  | cons a xs2 ih =>
    cases xs2 with
    | nil => simp [noDoubleWs, hc]
    | cons b xs3 =>
      simp only [noDoubleWs, Bool.and_eq_true] at h
      have h2 := ih h.2
      rw [List.cons_append, List.cons_append]
      simp only [noDoubleWs, Bool.and_eq_true]
      refine ⟨h.1, ?_⟩
      rw [List.cons_append] at h2
      exact h2

theorem dropWhile_head_false {p : Char → Bool} :
    ∀ {l : Str} {c : Char} {rest : Str}, l.dropWhile p = c :: rest → p c = false := by
  intro l
  induction l with
  | nil =>
    intro c rest h
    simp [List.dropWhile] at h
  | cons a l2 ih =>
    intro c rest h
    rw [List.dropWhile_cons] at h
    by_cases hp : p a = true
    · rw [if_pos hp] at h
      exact ih h
    · rw [if_neg hp] at h
      have ha : a = c := by injection h
      rw [← ha]
      revert hp
      cases p a <;> simp

theorem jsSplitWs_go_tokens_ne :
    ∀ (fuel : Nat) (t acc : Str), t.length ≤ fuel → noDoubleWs t = true →
      (t = [] → acc ≠ []) →
      (∀ c rest2, t = c :: rest2 → isWs c = true → acc ≠ []) →
      noWsLast t = true →
      ∀ w ∈ jsSplitWs.go fuel t acc, w ≠ [] := by
  intro fuel
  induction fuel with
  | zero =>
    intro t acc hlen _ hemp _ _ w hw
    have ht : t = [] := List.length_eq_zero.mp (Nat.le_zero.mp hlen)
    subst ht
    simp only [jsSplitWs.go, List.mem_singleton] at hw
    subst hw
    simpa using hemp rfl
  | succ f ih =>
    intro t acc hlen hdbl hemp hws hlast w hw
    cases t with
    | nil =>
      simp only [jsSplitWs.go, List.mem_singleton] at hw
      subst hw
      simpa using hemp rfl
    | cons c rest =>
      simp only [jsSplitWs.go] at hw
      by_cases hc : isWs c = true
      · rw [if_pos hc] at hw
        have hacc : acc ≠ [] := hws c rest rfl hc
        cases rest with
        | nil =>
          exfalso
          simp only [noWsLast] at hlast
          rw [hc] at hlast
          simp at hlast
        | cons r0 rest2 =>
          have hr0 : isWs r0 = false := by
            simp only [noDoubleWs, Bool.and_eq_true] at hdbl
            have h5 := hdbl.1
            rw [hc] at h5
            simpa using h5
          have hdrop : (r0 :: rest2).dropWhile isWs = r0 :: rest2 := by
            rw [List.dropWhile_cons, hr0]
            simp
          rw [hdrop] at hw
          rcases List.mem_cons.mp hw with hw1 | hw2
          · subst hw1
            simpa using hacc
          · refine ih (r0 :: rest2) [] ?_ ?_ ?_ ?_ ?_ w hw2
            · have h6 : (c :: r0 :: rest2).length ≤ f + 1 := hlen
              simp only [List.length_cons] at h6 ⊢
              omega
            · exact noDoubleWs_tail c _ hdbl
            · intro habs
              exact absurd habs (by simp)
            · intro c2 r2 heq hws2
              exfalso
              have hce : r0 = c2 := by injection heq
              rw [← hce] at hws2
              rw [hr0] at hws2
              exact absurd hws2 (by simp)
            · simp only [noWsLast] at hlast
              exact hlast
      · rw [if_neg hc] at hw
        refine ih rest (c :: acc) ?_ ?_ ?_ ?_ ?_ w hw
        · have h6 : (c :: rest).length ≤ f + 1 := hlen
          simp only [List.length_cons] at h6
          omega
        · exact noDoubleWs_tail c _ hdbl
        · intro _
          simp
        · intro _ _ _ _
          simp
        · cases rest with
          | nil => rfl
          | cons r0 rest2 =>
            simp only [noWsLast] at hlast
            exact hlast

/-- On nonempty whitespace-normal text the raw split produces no empty
tokens, so its length is the filtered word count. -/
theorem jsSplitWs_length_normalized (t : Str) (ht : t ≠ [])
    (h : NormalizedText t) : (jsSplitWs t).length = wordCount t := by
  obtain ⟨hh, hdbl, hl⟩ := h
  have hne : ∀ w ∈ jsSplitWs t, w ≠ [] := by
    intro w hw
    refine jsSplitWs_go_tokens_ne t.length t [] le_rfl hdbl
      (fun habs => absurd habs ht) ?_ hl w hw
    intro c rest2 heq hwsc
    exfalso
    rw [heq] at hh
    simp only [noWsHead] at hh
    rw [hwsc] at hh
    exact absurd hh (by simp)
  have hfil : (jsSplitWs t).filter (fun w => !w.isEmpty) = jsSplitWs t := by
    refine List.filter_eq_self.mpr ?_
    intro w hw
    cases hww : w with
    | nil => exact absurd hww (hne w hw)
    | cons a l => rfl
  rw [wordCount, jsWords, hfil]

/-- The first sentence of whitespace-normal text is itself
whitespace-normal, nonempty, and already trimmed. -/
theorem firstSentence_props (t : Str) (hh : noWsHead t = true)
    (hdbl : noDoubleWs t = true) (hl : noWsLast t = true) (sen : Str)
    (hfs : firstSentence t = some sen) :
    NormalizedText sen ∧ sen ≠ [] ∧ jsTrim sen = sen := by
  simp only [firstSentence] at hfs
  by_cases hpre : (t.takeWhile (fun c => !isSentEnd c)).isEmpty = true
  · rw [if_pos hpre] at hfs
    exact absurd hfs (by simp)
  · rw [if_neg hpre] at hfs
    cases hdropeq : t.drop (t.takeWhile (fun c => !isSentEnd c)).length with
    | nil =>
      rw [hdropeq] at hfs
      exact absurd hfs (by simp)
    | cons term after =>
      rw [hdropeq] at hfs
      have hsen : sen = t.takeWhile (fun c => !isSentEnd c) ++ [term] :=
        (Option.some.inj hfs).symm
      have happ : t.takeWhile (fun c => !isSentEnd c) ++
          t.dropWhile (fun c => !isSentEnd c) = t :=
        List.takeWhile_append_dropWhile _ _
      have hdw : t.dropWhile (fun c => !isSentEnd c) = term :: after := by
        rw [← hdropeq]
        calc t.dropWhile (fun c => !isSentEnd c)
            = (t.takeWhile (fun c => !isSentEnd c) ++
                t.dropWhile (fun c => !isSentEnd c)).drop
                (t.takeWhile (fun c => !isSentEnd c)).length :=
              (List.drop_left _ _).symm
          _ = t.drop (t.takeWhile (fun c => !isSentEnd c)).length := by rw [happ]
      have hterm : isSentEnd term = true := by
        have h1 := dropWhile_head_false hdw
        simpa using h1
      have htermws : isWs term = false := by
        have h3 : (term = '.' ∨ term = '!') ∨ term = '?' := by
          rw [isSentEnd] at hterm
          simpa using hterm
        rcases h3 with (h3 | h3) | h3 <;> rw [h3] <;> decide
      have hpne : t.takeWhile (fun c => !isSentEnd c) ≠ [] := by
        simpa [List.isEmpty_iff] using hpre
      cases ht : t with
      | nil =>
        exfalso
        rw [ht] at hpne
        simp at hpne
      | cons c0 t0 =>
        by_cases hcc : (!isSentEnd c0) = true
        · have hpree : t.takeWhile (fun c => !isSentEnd c) =
              c0 :: t0.takeWhile (fun c => !isSentEnd c) := by
            rw [ht, List.takeWhile_cons, if_pos hcc]
          have hc0ws : isWs c0 = false := by
            rw [ht] at hh
            simp only [noWsHead] at hh
            simpa using hh
          have hdblpre : noDoubleWs (t.takeWhile (fun c => !isSentEnd c)) = true := by
            have h4 : noDoubleWs (t.takeWhile (fun c => !isSentEnd c) ++
                t.dropWhile (fun c => !isSentEnd c)) = true := by
              rw [happ]
              exact hdbl
            exact noDoubleWs_append_left _ _ h4
          have hNsen : NormalizedText sen := by
            refine ⟨?_, ?_, ?_⟩
            · rw [hsen, hpree, List.cons_append]
              simp only [noWsHead]
              simpa using hc0ws
            · rw [hsen]
              exact noDoubleWs_concat _ term htermws hdblpre
            · rw [hsen, noWsLast_concat]
              simpa using htermws
          refine ⟨hNsen, ?_, ?_⟩
          · rw [hsen]
            simp
          · have hd1 : sen.dropWhile isWs = sen := by
              rw [hsen, hpree, List.cons_append, List.dropWhile_cons, hc0ws]
              simp
            have hd2 : sen.reverse.dropWhile isWs = sen.reverse := by
              rw [hsen, List.reverse_append]
              have hrs : ([term] : Str).reverse = [term] := rfl
              rw [hrs, List.singleton_append, List.dropWhile_cons, htermws]
              simp
            rw [jsTrim, hd1, hd2, List.reverse_reverse]
        · exfalso
          have hcc2 : (!isSentEnd c0) = false := by
            revert hcc
            cases (!isSentEnd c0) <;> simp
          rw [ht, List.takeWhile_cons, hcc2] at hpne
          simp at hpne

/-- On whitespace-normal text `truncateHeadline` is exactly the claimed
truncation: the raw split of the first sentence has no stray empty tokens
and the sentence needs no trimming. -/
theorem truncateHeadline_normalized (t : Str) (h : NormalizedText t) :
    truncateHeadline t = claimedTruncate t := by
  obtain ⟨hh, hdbl, hl⟩ := h
  by_cases hempty : t.isEmpty = true
  · have ht : t = [] := List.isEmpty_iff.mp hempty
    subst ht
    decide
  · simp only [truncateHeadline, claimedTruncate]
    rw [if_neg hempty]
    by_cases h30 : wordCount t ≤ 30
    · have h30l : (jsWords t).length ≤ 30 := h30
      rw [if_pos h30l, if_pos h30]
    · have h30l : ¬((jsWords t).length ≤ 30) := h30
      rw [if_neg h30l, if_neg h30]
      cases hfs : firstSentence t with
      | none => rfl
      | some sen =>
        obtain ⟨hsN, hsne, htrim⟩ := firstSentence_props t hh hdbl hl sen hfs
        show (if (jsSplitWs sen).length ≤ 30 then jsTrim sen
            else joinSp ((jsWords t).take 15)) =
          (if wordCount sen ≤ 30 then sen else joinSp ((jsWords t).take 15))
        rw [jsSplitWs_length_normalized sen hsne hsN, htrim]

theorem discard_case (x : Str) (y : Option Ctx) (hd : Str)
    (hEq : (if !x.isEmpty && decide (30 < wordCount x) then
        ((none : Option Str), (none : Option Ctx))
      else if !x.isEmpty && looksLikeNavText x then (none, none)
      else (some x, y)).1 = some hd) :
    wordCount hd ≤ 30 := by
  by_cases h1 : (!x.isEmpty && decide (30 < wordCount x)) = true
  · rw [if_pos h1] at hEq
    simp at hEq
  · rw [if_neg h1] at hEq
    by_cases h2 : (!x.isEmpty && looksLikeNavText x) = true
    · rw [if_pos h2] at hEq
      simp at hEq
    · rw [if_neg h2] at hEq
      have hx : x = hd := by simpa using hEq
      subst hx
      by_cases hemp : x.isEmpty = true
      · have hx0 : x = [] := List.isEmpty_iff.mp hemp
        subst hx0
        decide
      · have hemp2 : (!x.isEmpty) = true := by
          revert hemp
          cases x.isEmpty <;> simp
        by_contra hgt
        exact h1 (by
          rw [hemp2]
          simp only [Bool.true_and, decide_eq_true_eq]
          omega)

/-- Any headline surviving the post-widening discards has at most 30
words: overlong text is nulled, never truncated, at this stage. -/
theorem headlineAfterDiscards_bound (h1? : Option Ctx) (hd : Str)
    (hEq : (headlineAfterDiscards h1?).1 = some hd) : wordCount hd ≤ 30 := by
  match h1? with
  | none => simp [headlineAfterDiscards] at hEq
  | some h1 =>
    simp only [headlineAfterDiscards] at hEq
    exact discard_case _ _ hd hEq


/-! The hypothesis of the truncation theorem is exactly the shape of
`cleanText` output, which the following lemmas establish. -/

theorem wsfree_noWsHead (w : Str) (h : ∀ ch ∈ w, isWs ch = false) :
    noWsHead w = true := by
  cases w with
  | nil => rfl
  | cons a l =>
    simp only [noWsHead]
    simpa using h a (by simp)

theorem wsfree_noWsLast (w : Str) (h : ∀ ch ∈ w, isWs ch = false) :
    noWsLast w = true := by
  induction w with
  | nil => rfl
  | cons a l ih =>
    cases l with
    | nil =>
      simp only [noWsLast]
      simpa using h a (by simp)
    | cons b r =>
      simp only [noWsLast]
      exact ih (fun ch hch => h ch (by simp at hch ⊢; tauto))

theorem wsfree_noDoubleWs (w : Str) (h : ∀ ch ∈ w, isWs ch = false) :
    noDoubleWs w = true := by
  induction w with
  | nil => rfl
  | cons a l ih =>
    cases l with
    | nil => rfl
    | cons b r =>
      simp only [noDoubleWs, Bool.and_eq_true]
      constructor
      · have ha := h a (by simp)
        rw [ha]
        simp
      · exact ih (fun ch hch => h ch (by simp at hch ⊢; tauto))

theorem noWsLast_cons (a : Char) (l : Str) (hne : l ≠ []) :
    noWsLast (a :: l) = noWsLast l := by
  cases l with
  | nil => exact absurd rfl hne
  | cons b r => simp only [noWsLast]

theorem noWsLast_append (xs ys : Str) (hys : ys ≠ []) :
    noWsLast (xs ++ ys) = noWsLast ys := by
  induction xs with
  | nil => rfl
  | cons a xs2 ih =>
    rw [List.cons_append, noWsLast_cons a _ (by simp [hys]), ih]

theorem noDoubleWs_append (xs ys : Str) (hxs : noDoubleWs xs = true)
    (hys : noDoubleWs ys = true) (hLast : noWsLast xs = true) :
    noDoubleWs (xs ++ ys) = true := by
  induction xs with
  | nil => simpa using hys
  | cons a xs2 ih =>
    cases xs2 with
    | nil =>
      cases ys with
      | nil => rfl
      | cons b r =>
        simp only [List.cons_append, List.nil_append, noDoubleWs, Bool.and_eq_true]
        refine ⟨?_, hys⟩
        simp only [noWsLast] at hLast
        rw [Bool.not_eq_true'] at hLast
        rw [hLast]
        simp
    | cons b xs3 =>
      simp only [noDoubleWs, Bool.and_eq_true] at hxs
      simp only [noWsLast] at hLast
      rw [List.cons_append, List.cons_append]
      simp only [noDoubleWs, Bool.and_eq_true]
      refine ⟨hxs.1, ?_⟩
      have h2 := ih hxs.2 hLast
      rw [List.cons_append] at h2
      exact h2

theorem noDoubleWs_space_cons (J : Str) (hJh : noWsHead J = true)
    (hJd : noDoubleWs J = true) : noDoubleWs (' ' :: J) = true := by
  cases J with
  | nil => rfl
  | cons j0 jr =>
    simp only [noDoubleWs, Bool.and_eq_true]
    refine ⟨?_, hJd⟩
    simp only [noWsHead] at hJh
    rw [Bool.not_eq_true'] at hJh
    rw [hJh]
    simp

theorem noWsHead_append (w z : Str) (hw : w ≠ []) :
    noWsHead (w ++ z) = noWsHead w := by
  cases w with
  | nil => exact absurd rfl hw
  | cons a l => rfl

theorem joinSp_cons2 (w r : Str) (rest : List Str) :
    joinSp (w :: r :: rest) = w ++ ' ' :: joinSp (r :: rest) := rfl

theorem joinSp_ne (r : Str) (rest : List Str) (hr : r ≠ []) :
    joinSp (r :: rest) ≠ [] := by
  rw [joinSp]
  simp [hr]

theorem joinSp_normalized :
    ∀ (ws : List Str), (∀ w ∈ ws, w ≠ [] ∧ ∀ ch ∈ w, isWs ch = false) →
      NormalizedText (joinSp ws) := by
  intro ws
  induction ws with
  | nil =>
    intro _
    exact ⟨rfl, rfl, rfl⟩
  | cons w rest ih =>
    intro h
    obtain ⟨hwne, hwfree⟩ := h w (by simp)
    cases rest with
    | nil =>
      have hj : joinSp [w] = w := by
        rw [joinSp]
        simp
      rw [hj]
      exact ⟨wsfree_noWsHead w hwfree, wsfree_noDoubleWs w hwfree,
        wsfree_noWsLast w hwfree⟩
    | cons r rest2 =>
      obtain ⟨hJh, hJd, hJl⟩ := ih (fun x hx => h x (by simp at hx ⊢; tauto))
      have hrne : r ≠ [] := (h r (by simp)).1
      have hJne : joinSp (r :: rest2) ≠ [] := joinSp_ne r rest2 hrne
      rw [joinSp_cons2]
      refine ⟨?_, ?_, ?_⟩
      · rw [noWsHead_append w _ hwne]
        exact wsfree_noWsHead w hwfree
      · exact noDoubleWs_append w _ (wsfree_noDoubleWs w hwfree)
          (noDoubleWs_space_cons _ hJh hJd) (wsfree_noWsLast w hwfree)
      · rw [noWsLast_append w _ (by simp), noWsLast_cons _ _ hJne]
        exact hJl

theorem jsSplitWs_go_tokens_wsfree :
    ∀ (fuel : Nat) (t acc : Str), (∀ ch ∈ acc, isWs ch = false) →
      ∀ w ∈ jsSplitWs.go fuel t acc, ∀ ch ∈ w, isWs ch = false := by
  intro fuel
  induction fuel with
  | zero =>
    intro t acc hacc w hw ch hch
    cases t <;> simp only [jsSplitWs.go, List.mem_singleton] at hw <;>
      (subst hw; exact hacc ch (by simpa using hch))
  | succ f ih =>
    intro t acc hacc w hw ch hch
    cases t with
    | nil =>
      simp only [jsSplitWs.go, List.mem_singleton] at hw
      subst hw
      exact hacc ch (by simpa using hch)
    | cons c rest =>
      simp only [jsSplitWs.go] at hw
      by_cases hc : isWs c = true
      · rw [if_pos hc] at hw
        rcases List.mem_cons.mp hw with hw1 | hw2
        · subst hw1
          exact hacc ch (by simpa using hch)
        · exact ih _ [] (by intro ch2 hch2; simp at hch2) w hw2 ch hch
      · rw [if_neg hc] at hw
        refine ih rest (c :: acc) ?_ w hw ch hch
        intro ch2 hch2
        rcases List.mem_cons.mp hch2 with hcc | hcc
        · subst hcc
          revert hc
          cases isWs ch2 <;> simp
        · exact hacc ch2 hcc

/-- Every `cleanText` output is whitespace-normal, so the truncation
theorem covers every text the candidate pipeline feeds to
`truncateHeadline`. -/
theorem cleanText_normalized (s : Str) : NormalizedText (cleanText s) := by
  rw [cleanText]
  refine joinSp_normalized (jsWords s) ?_
  intro w hw
  constructor
  · have h1 := List.of_mem_filter hw
    cases hww : w with
    | nil =>
      rw [hww] at h1
      simp at h1
    | cons a l => simp
  · intro ch hch
    have hw2 : w ∈ jsSplitWs s := List.mem_of_mem_filter hw
    exact jsSplitWs_go_tokens_wsfree s.length s []
      (by intro ch2 hch2; simp at hch2) w hw2 ch hch

def normTestText : Str :=
  str "Alpha beta gamma delta epsilon zeta eta theta iota kappa. Lambda mu nu xi omicron pi rho sigma tau upsilon phi chi psi omega one two three four five six seven"

/-- C6: any headline whose text exceeds 30 words is nulled at the discard
stage rather than truncated — every surviving headline has at most 30
words — and on whitespace-normal text (the form `cleanText` produces,
hence the form candidate texts take) `truncateHeadline` is exactly the
claimed truncation: text of at most 30 words unchanged, otherwise the
first sentence when it fits in 30 words, else the first 15 words. -/
theorem C6_truncation_and_discard (t : Str) (h1? : Option Ctx)
    (h : NormalizedText t) :
    truncateHeadline t = claimedTruncate t ∧
    (∀ hd, (headlineAfterDiscards h1?).1 = some hd → wordCount hd ≤ 30) :=
  ⟨truncateHeadline_normalized t h,
   fun hd hEq => headlineAfterDiscards_bound h1? hd hEq⟩

theorem C6_witness :
    NormalizedText normTestText ∧
      (truncateHeadline normTestText = claimedTruncate normTestText ∧
        ∀ hd, (headlineAfterDiscards none).1 = some hd → wordCount hd ≤ 30) :=
  ⟨by decide, C6_truncation_and_discard normTestText none (by decide)⟩

/-! ## C8 — the empty-body snapshot -/

/-- A fully bare snapshot: empty title, no head elements, a root content
container with zero children. -/
def docBare : Doc := ⟨[], [], el0 "BODY" ⟨0, 0, 1440, 2000⟩ []⟩

/-- Zero children under the root, but the page title says 404. -/
def doc404 : Doc := ⟨(str "404 Not Found"), [], el0 "BODY" ⟨0, 0, 1440, 2000⟩ []⟩

/-- Zero children under the root, but the page loads GSAP. -/
def hostG : Host := ⟨false, false, false, false, false, false, false, false, true⟩

/-- C8 (counterexample): a zero-children tree does not force every
classification flag to false — the error-page probe reads the document
title and the stack probe reads the window globals, neither of which
lives under the root container.  A bare body with title "404 Not Found"
reports `is_error_page = true` (reason `not_found`), and a bare body
with a GSAP global reports `has_animation_stack = true`. -/
theorem C8_counterexample :
    doc404.body.children = [] ∧
    (extractFingerprint doc404 hostNone hitNone vpStd envZero).is_error_page = true ∧
    (extractFingerprint doc404 hostNone hitNone vpStd envZero).error_page_reason =
      some (str "not_found") ∧
    docBare.body.children = [] ∧
    (extractFingerprint docBare hostG hitNone vpStd envZero).has_animation_stack = true :=
  ⟨by decide, by decide, by decide, by decide, by decide⟩

/-- C8 (amended): extraction is a total function (it cannot raise), and
on a fully bare snapshot — zero children under the root *and* an empty
title, no head elements and no framework globals — the hero boundary is
the viewport height for every viewport, and the Fingerprint is the empty
default in every one of its fields: every flag false, headline and
subheadline null, no CTAs, all counts zero. -/
theorem C8_amended (vp : Viewport) :
    heroBottomOf docBare vp = effViewportHeight vp ∧
    extractFingerprint docBare hostNone hitNone vpStd envZero =
      { layout := str "single-column", alignment := none, hero_height_ratio := 1,
        headline := none, subheadline := none, headline_word_count := 0,
        cta_count := 0, primary_cta_text := none, ctas := [], cta_details := [],
        has_form := false, form_fields_count := 0, has_email_only := false,
        has_password_field := false, has_oauth := false, grid_cards_in_fold := 0,
        has_filters := false, detected_stack := [], page_text := [],
        has_pricing_tokens := false, has_promotion_signals := false,
        has_promo_language := false, has_transactional_cta := false,
        has_price_display := false, price_count := 0, has_countdown := false,
        add_to_cart_count := 0, product_card_count := 0, has_category_nav := false,
        has_discovery_language := false, has_brand_campaign_language := false,
        has_trust_signals := false, trust_badge_count := 0, is_commerce_hero := false,
        has_canvas := false, has_webgl := false, large_svg_count := 0,
        has_interactive_demo := false, has_animation_stack := false,
        has_showcase_language := false, is_showcase_hero := false,
        is_error_page := false, error_page_reason := none, bullet_count := 0,
        feature_bullet_count := 0, has_feature_bullets := false,
        total_lists_in_hero := 0, has_dashboard_preview := false,
        has_dashboard_keywords := false, has_social_proof := false, logo_count := 0,
        left_copy_right_media := false, dark_theme_hero := false, hero_bg := none,
        hero_bg_gradient := none, hero_bg_color_name := none,
        hero_bg_gradient_tag := none, hero_text_color := none,
        hero_bg_sampled_from := none, hero_media_type := none, hero_images := [],
        hero_image_count := 0, metrics_visible := false, is_copy_only := false,
        interactive_debug :=
          { has_text_input := false, text_input_count := 0,
            has_audio_element := false, audio_count := 0, has_play_button := false,
            has_play_control := false, play_control_candidates := 0,
            selectable_option_count := 0, has_selectable_list := false,
            row_container_count := 0, has_selectable_list_from_rows := false,
            has_selectable_list_from_items := false, has_voice_language := false,
            has_interactive_demo_base := false, looks_like_audio_demo := false,
            has_interactive_demo := false },
        list_items_raw := [] } :=
  ⟨rfl, by decide⟩

/-! ## C5 — CTA ranking is monotone in the priority tier -/

/-- The text-and-kind part of the comparator as a single numeric key:
non-OAuth before OAuth, buttons before links, then the priority tier.
All geometric tie-breaking happens strictly inside one key class. -/
def keyOf (c : CtaCand) : Nat :=
  (if oauthCtaTest c.text then 0 else 8) + (if c.isButton then 4 else 0) +
    ctaPriority c.text

theorem ctaPriority_le_3 (t : Str) : ctaPriority t ≤ 3 := by
  simp only [ctaPriority]
  repeat' split
  all_goals omega

theorem pr_branch_lt (pa pb : Nat) (g : Bool) (hpp : pa < pb) :
    (if pa != pb then decide (pb ≤ pa) else g) = false := by
  rw [if_pos (by simp only [bne_iff_ne, ne_eq, decide_eq_true_eq]; omega :
    (pa != pb) = true)]
  simp only [decide_eq_false_iff_not]
  omega

theorem pr_branch_gt (pa pb : Nat) (g : Bool) (hpp : pb < pa) :
    (if pa != pb then decide (pb ≤ pa) else g) = true := by
  rw [if_pos (by simp only [bne_iff_ne, ne_eq, decide_eq_true_eq]; omega :
    (pa != pb) = true)]
  simp only [decide_eq_true_eq]
  omega

theorem ctaCmpLe_of_key_lt (hr : Option Rect) (a b : CtaCand)
    (h : keyOf a < keyOf b) : ctaCmpLe hr a b = false := by
  have ha3 := ctaPriority_le_3 a.text
  have hb3 := ctaPriority_le_3 b.text
  rw [keyOf, keyOf] at h
  simp only [ctaCmpLe.eq_def]
  cases haO : oauthCtaTest a.text <;> cases hbO : oauthCtaTest b.text <;>
    cases haB : a.isButton <;> cases hbB : b.isButton <;>
    rw [haO, hbO, haB, hbB] at h <;>
    simp at h
  · rw [if_neg (by decide), if_neg (by decide)]
    exact pr_branch_lt _ _ _ (by omega)
  · rw [if_neg (by decide), if_pos (by decide)]
  · exfalso
    omega
  · rw [if_neg (by decide), if_neg (by decide)]
    exact pr_branch_lt _ _ _ (by omega)
  · exfalso
    omega
  · exfalso
    omega
  · exfalso
    omega
  · exfalso
    omega
  · rw [if_pos (by decide)]
    decide
  · rw [if_pos (by decide)]
    decide
  · rw [if_pos (by decide)]
    decide
  · rw [if_pos (by decide)]
    decide
  · rw [if_neg (by decide), if_neg (by decide)]
    exact pr_branch_lt _ _ _ (by omega)
  · rw [if_neg (by decide), if_pos (by decide)]
  · exfalso
    omega
  · rw [if_neg (by decide), if_neg (by decide)]
    exact pr_branch_lt _ _ _ (by omega)

theorem ctaCmpLe_of_key_gt (hr : Option Rect) (a b : CtaCand)
    (h : keyOf b < keyOf a) : ctaCmpLe hr a b = true := by
  have ha3 := ctaPriority_le_3 a.text
  have hb3 := ctaPriority_le_3 b.text
  rw [keyOf, keyOf] at h
  simp only [ctaCmpLe.eq_def]
  cases haO : oauthCtaTest a.text <;> cases hbO : oauthCtaTest b.text <;>
    cases haB : a.isButton <;> cases hbB : b.isButton <;>
    rw [haO, hbO, haB, hbB] at h <;>
    simp at h
  · rw [if_neg (by decide), if_neg (by decide)]
    exact pr_branch_gt _ _ _ (by omega)
  · exfalso
    omega
  · rw [if_neg (by decide), if_pos (by decide)]
  · rw [if_neg (by decide), if_neg (by decide)]
    exact pr_branch_gt _ _ _ (by omega)
  · rw [if_pos (by decide)]
    decide
  · rw [if_pos (by decide)]
    decide
  · rw [if_pos (by decide)]
    decide
  · rw [if_pos (by decide)]
    decide
  · exfalso
    omega
  · exfalso
    omega
  · exfalso
    omega
  · exfalso
    omega
  · rw [if_neg (by decide), if_neg (by decide)]
    exact pr_branch_gt _ _ _ (by omega)
  · exfalso
    omega
  · rw [if_neg (by decide), if_pos (by decide)]
  · rw [if_neg (by decide), if_neg (by decide)]
    exact pr_branch_gt _ _ _ (by omega)

theorem mergeBy_mem {α : Type} (le : α → α → Bool) :
    ∀ (fuel : Nat) (L R : List α) (z : α), z ∈ mergeBy le fuel L R → z ∈ L ∨ z ∈ R := by
  intro fuel
  induction fuel with
  | zero =>
    intro L R z hz
    rw [mergeBy] at hz
    simpa using List.mem_append.mp hz
  | succ f ih =>
    intro L R z hz
    match L, R with
    | [], R =>
      rw [mergeBy] at hz
      exact Or.inr hz
    | x :: xs, [] =>
      rw [mergeBy] at hz
      exact Or.inl hz
    | x :: xs, y :: ys =>
      rw [mergeBy] at hz
      by_cases hxy : le x y = true
      · rw [if_pos hxy] at hz
        rcases List.mem_cons.mp hz with hz1 | hz2
        · exact Or.inl (by simp [hz1])
        · rcases ih xs (y :: ys) z hz2 with h1 | h1
          · exact Or.inl (by simp [h1])
          · exact Or.inr h1
      · rw [if_neg hxy] at hz
        rcases List.mem_cons.mp hz with hz1 | hz2
        · exact Or.inr (by simp [hz1])
        · rcases ih (x :: xs) ys z hz2 with h1 | h1
          · exact Or.inl h1
          · exact Or.inr (by simp [h1])

theorem mergeBy_perm {α : Type} (le : α → α → Bool) :
    ∀ (fuel : Nat) (L R : List α), List.Perm (mergeBy le fuel L R) (L ++ R) := by
  intro fuel
  induction fuel with
  | zero =>
    intro L R
    rw [mergeBy]
  | succ f ih =>
    intro L R
    match L, R with
    | [], R => rw [mergeBy]; simp
    | x :: xs, [] => rw [mergeBy]; simp
    | x :: xs, y :: ys =>
      rw [mergeBy]
      by_cases hxy : le x y = true
      · rw [if_pos hxy]
        exact (ih xs (y :: ys)).cons x
      · rw [if_neg hxy]
        refine ((ih (x :: xs) ys).cons y).trans ?_
        exact List.perm_middle.symm

theorem mergeBy_pairwise {α : Type} (le : α → α → Bool) (key : α → Nat)
    (hlt : ∀ a b, key a < key b → le a b = false)
    (hgt : ∀ a b, key b < key a → le a b = true) :
    ∀ (fuel : Nat) (L R : List α), L.length + R.length ≤ fuel →
      L.Pairwise (fun a b => key b ≤ key a) → R.Pairwise (fun a b => key b ≤ key a) →
      (mergeBy le fuel L R).Pairwise (fun a b => key b ≤ key a) := by
  intro fuel
  induction fuel with
  | zero =>
    intro L R hlen hL hR
    have hLe : L = [] := List.length_eq_zero.mp (by omega)
    have hRe : R = [] := List.length_eq_zero.mp (by omega)
    rw [mergeBy, hLe, hRe]
    exact List.Pairwise.nil
  | succ f ih =>
    intro L R hlen hL hR
    match L, R with
    | [], R => rw [mergeBy]; exact hR
    | x :: xs, [] => rw [mergeBy]; exact hL
    | x :: xs, y :: ys =>
      rw [mergeBy]
      rw [List.pairwise_cons] at hL hR
      by_cases hxy : le x y = true
      · rw [if_pos hxy]
        have hyx : key y ≤ key x := by
          by_contra hcon
          rw [hlt x y (by omega)] at hxy
          exact absurd hxy (by simp)
        rw [List.pairwise_cons]
        constructor
        · intro z hz
          rcases mergeBy_mem le f xs (y :: ys) z hz with h1 | h1
          · exact hL.1 z h1
          · rcases List.mem_cons.mp h1 with h2 | h2
            · rw [h2]; exact hyx
            · exact le_trans (hR.1 z h2) hyx
        · refine ih xs (y :: ys) ?_ hL.2 (List.pairwise_cons.mpr hR)
          simp only [List.length_cons] at hlen ⊢
          omega
      · rw [if_neg hxy]
        have hxyk : key x ≤ key y := by
          by_contra hcon
          rw [hgt x y (by omega)] at hxy
          exact absurd rfl hxy
        rw [List.pairwise_cons]
        constructor
        · intro z hz
          rcases mergeBy_mem le f (x :: xs) ys z hz with h1 | h1
          · rcases List.mem_cons.mp h1 with h2 | h2
            · rw [h2]; exact hxyk
            · exact le_trans (hL.1 z h2) hxyk
          · exact hR.1 z h1
        · refine ih (x :: xs) ys ?_ (List.pairwise_cons.mpr hL) hR.2
          simp only [List.length_cons] at hlen ⊢
          omega

theorem msortBy_perm {α : Type} (le : α → α → Bool) :
    ∀ (fuel : Nat) (l : List α), List.Perm (msortBy le fuel l) l := by
  intro fuel
  induction fuel with
  | zero => intro l; rw [msortBy]
  | succ f ih =>
    intro l
    rw [msortBy]
    by_cases hlen : l.length ≤ 1
    · rw [if_pos hlen]
    · rw [if_neg hlen]
      refine (mergeBy_perm le l.length _ _).trans ?_
      refine ((ih _).append (ih _)).trans ?_
      rw [List.take_append_drop]

theorem msortBy_length {α : Type} (le : α → α → Bool) (fuel : Nat) (l : List α) :
    (msortBy le fuel l).length = l.length :=
  (msortBy_perm le fuel l).length_eq

theorem msortBy_pairwise {α : Type} (le : α → α → Bool) (key : α → Nat)
    (hlt : ∀ a b, key a < key b → le a b = false)
    (hgt : ∀ a b, key b < key a → le a b = true) :
    ∀ (fuel : Nat) (l : List α), l.length ≤ fuel →
      (msortBy le fuel l).Pairwise (fun a b => key b ≤ key a) := by
  intro fuel
  induction fuel with
  | zero =>
    intro l hlen
    have : l = [] := List.length_eq_zero.mp (by omega)
    rw [msortBy, this]
    exact List.Pairwise.nil
  | succ f ih =>
    intro l hlen
    rw [msortBy]
    by_cases h1 : l.length ≤ 1
    · rw [if_pos h1]
      match l, h1 with
      | [], _ => exact List.Pairwise.nil
      | [x], _ => simp
    · rw [if_neg h1]
      refine mergeBy_pairwise le key hlt hgt l.length _ _ ?_ ?_ ?_
      · rw [msortBy_length, msortBy_length]
        simp only [List.length_take, List.length_drop]
        omega
      · refine ih _ ?_
        simp only [List.length_take]
        omega
      · refine ih _ ?_
        simp only [List.length_drop]
        omega

theorem jsSort_perm {α : Type} (le : α → α → Bool) (l : List α) :
    List.Perm (jsSort le l) l := msortBy_perm le l.length l

theorem jsSort_pairwise {α : Type} (le : α → α → Bool) (key : α → Nat)
    (hlt : ∀ a b, key a < key b → le a b = false)
    (hgt : ∀ a b, key b < key a → le a b = true) (l : List α) :
    (jsSort le l).Pairwise (fun a b => key b ≤ key a) :=
  msortBy_pairwise le key hlt hgt l.length l le_rfl

theorem sorted_countP_le_indexOf {α : Type} [DecidableEq α] (key : α → Nat) :
    ∀ (l : List α) (x : α), x ∈ l → l.Pairwise (fun a b => key b ≤ key a) →
      l.countP (fun y => decide (key x < key y)) ≤ l.indexOf x := by
  intro l
  induction l with
  | nil => intro x hx; simp at hx
  | cons h t ih =>
    intro x hx hp
    rw [List.pairwise_cons] at hp
    by_cases hhx : h = x
    · subst hhx
      rw [List.indexOf_cons_self]
      have hz : (h :: t).countP (fun y => decide (key h < key y)) = 0 := by
        rw [List.countP_eq_zero]
        intro a ha
        rcases List.mem_cons.mp ha with h1 | h1
        · simp [h1]
        · have := hp.1 a h1
          simp only [decide_eq_true_eq]
          omega
      omega
    · rw [@List.indexOf_cons_ne _ _ x h t hhx]
      have hxt : x ∈ t := by
        rcases List.mem_cons.mp hx with h1 | h1
        · exact absurd h1.symm hhx
        · exact h1
      have := ih x hxt hp.2
      rw [List.countP_cons]
      split <;> omega

theorem sorted_indexOf_lt_countP {α : Type} [DecidableEq α] (key : α → Nat) :
    ∀ (l : List α) (x : α), x ∈ l → l.Pairwise (fun a b => key b ≤ key a) →
      l.indexOf x < l.countP (fun y => decide (key x ≤ key y)) := by
  intro l
  induction l with
  | nil => intro x hx; simp at hx
  | cons h t ih =>
    intro x hx hp
    rw [List.pairwise_cons] at hp
    by_cases hhx : h = x
    · subst hhx
      rw [List.indexOf_cons_self, List.countP_cons]
      rw [if_pos (by simp)]
      omega
    · rw [@List.indexOf_cons_ne _ _ x h t hhx]
      have hxt : x ∈ t := by
        rcases List.mem_cons.mp hx with h1 | h1
        · exact absurd h1.symm hhx
        · exact h1
      have hkx : key x ≤ key h := hp.1 x hxt
      have := ih x hxt hp.2
      rw [List.countP_cons, if_pos (by simp [hkx])]
      omega

/--
C5: replacing one CTA candidate\x27s verb with a strictly higher-priority
verb (of the same OAuth status; the candidate\x27s geometry and kind are
untouched) never moves that candidate to a later place in the sorted
ranking.  The comparator compares the (OAuth, button, tier) key before
any geometry, every merge therefore keeps runs sorted by that key, and
the tie-break games are confined to one key class — so the raised
candidate sits above everything below its new key and at worst below
everything at or above it, which is still no lower than where it started.
-/
theorem C5_cta_rank_monotone (hr : Option Rect) (pre post : List CtaCand)
    (c : CtaCand) (t2 : Str)
    (hO : oauthCtaTest t2 = oauthCtaTest c.text)
    (hP : ctaPriority c.text < ctaPriority t2) :
    (jsSort (ctaCmpLe hr) (pre ++ { c with text := t2 } :: post)).indexOf
        { c with text := t2 } ≤
      (jsSort (ctaCmpLe hr) (pre ++ c :: post)).indexOf c := by
  have hkey : keyOf c < keyOf { c with text := t2 } := by
    rw [keyOf, keyOf]
    have e1 : ({ c with text := t2 } : CtaCand).text = t2 := rfl
    have e2 : ({ c with text := t2 } : CtaCand).isButton = c.isButton := rfl
    rw [e1, e2, hO]
    exact Nat.add_lt_add_left hP _
  have hmem1 : ({ c with text := t2 } : CtaCand) ∈
      jsSort (ctaCmpLe hr) (pre ++ { c with text := t2 } :: post) :=
    (jsSort_perm _ _).mem_iff.mpr (by simp)
  have hmem2 : c ∈ jsSort (ctaCmpLe hr) (pre ++ c :: post) :=
    (jsSort_perm _ _).mem_iff.mpr (by simp)
  have hs1 := jsSort_pairwise (ctaCmpLe hr) keyOf (ctaCmpLe_of_key_lt hr)
    (ctaCmpLe_of_key_gt hr) (pre ++ { c with text := t2 } :: post)
  have hs2 := jsSort_pairwise (ctaCmpLe hr) keyOf (ctaCmpLe_of_key_lt hr)
    (ctaCmpLe_of_key_gt hr) (pre ++ c :: post)
  have h1 := sorted_indexOf_lt_countP keyOf _ _ hmem1 hs1
  have h2 := sorted_countP_le_indexOf keyOf _ _ hmem2 hs2
  -- transfer the two counts to the unsorted lists and compare them there
  rw [(jsSort_perm (ctaCmpLe hr) (pre ++ { c with text := t2 } :: post)).countP_eq] at h1
  rw [(jsSort_perm (ctaCmpLe hr) (pre ++ c :: post)).countP_eq] at h2
  rw [List.countP_append, List.countP_cons] at h1 h2
  rw [if_pos (by simp)] at h1
  rw [if_neg (by simp)] at h2
  have hmono1 : pre.countP (fun y => decide (keyOf { c with text := t2 } ≤ keyOf y)) ≤
      pre.countP (fun y => decide (keyOf c < keyOf y)) := by
    refine List.countP_mono_left ?_
    intro a _ ha
    simp only [decide_eq_true_eq] at ha ⊢
    omega
  have hmono2 : post.countP (fun y => decide (keyOf { c with text := t2 } ≤ keyOf y)) ≤
      post.countP (fun y => decide (keyOf c < keyOf y)) := by
    refine List.countP_mono_left ?_
    intro a _ ha
    simp only [decide_eq_true_eq] at ha ⊢
    omega
  omega

/-- A concrete instance of the monotonicity theorem: promoting the second
candidate\x27s "learn more" to "start now" keeps it at or above its old
rank. -/
theorem C5_witness :
    oauthCtaTest (str "start now") = oauthCtaTest (str "learn more") ∧
      ctaPriority (str "learn more") < ctaPriority (str "start now") ∧
      (jsSort (ctaCmpLe (some ⟨100, 0, 600, 80⟩))
          [⟨str "book a demo", 205, 10, 4000, true⟩,
           ⟨str "start now", 300, 20, 4000, true⟩]).indexOf
          ⟨str "start now", 300, 20, 4000, true⟩ ≤
        (jsSort (ctaCmpLe (some ⟨100, 0, 600, 80⟩))
          [⟨str "book a demo", 205, 10, 4000, true⟩,
           ⟨str "learn more", 300, 20, 4000, true⟩]).indexOf
          ⟨str "learn more", 300, 20, 4000, true⟩ :=
  ⟨by decide, by decide,
   C5_cta_rank_monotone (some ⟨100, 0, 600, 80⟩)
     [⟨str "book a demo", 205, 10, 4000, true⟩] []
     ⟨str "learn more", 300, 20, 4000, true⟩ (str "start now")
     (by decide) (by decide)⟩

end HeroCapture
